import Mathlib

/-!
# Embedded IR remote library: protocol registry, receive engine, transmit engine

A shallow embedding of `ir_common.c`, `ir_decoder.c` and `ir_transmitter.c`.

Machine integers are natural numbers with the wrap-around written out:
`uint8_t` values are below `2^8`, `uint16_t` below `2^16`, `uint32_t` below
`2^32`.  C's integer promotions are followed literally: an operand of type
`uint8_t` is promoted to `int` before `~` is applied, so `(uint32_t)(~x)` is
the 32-bit complement of `x`, not its 8-bit complement.
-/

namespace IR

/-! ## Return values and logic levels (`ir_common.h`) -/

/-- `#define IR_SUCCESS (0)` -/
def IR_SUCCESS : Nat := 0
/-- `#define IR_ERROR (1)` -/
def IR_ERROR : Nat := 1
/-- `#define IR_LOW (0)` -/
def IR_LOW : Nat := 0
/-- `#define IR_HIGH (1)` -/
def IR_HIGH : Nat := 1

/-! ## Protocol identifiers (`IR_Protocol_t`) -/

def IR_PROTOCOL_NEC : Nat := 0
def IR_PROTOCOL_RC5 : Nat := 1
def IR_PROTOCOL_SONY : Nat := 2
def IR_PROTOCOL_RC6 : Nat := 3
def IR_PROTOCOL_SAMSUNG : Nat := 4
def IR_PROTOCOL_LG : Nat := 5
def IR_PROTOCOL_PANASONIC : Nat := 6
def IR_PROTOCOL_JVC : Nat := 7
def IR_PROTOCOL_DENON : Nat := 8
def IR_PROTOCOL_COUNT : Nat := 9

/-! ## Machine arithmetic -/

/-- Conversion to `uint8_t`. -/
def u8 (n : Nat) : Nat := n % 2 ^ 8
/-- Conversion to `uint16_t`. -/
def u16 (n : Nat) : Nat := n % 2 ^ 16
/-- Conversion to `uint32_t`. -/
def u32 (n : Nat) : Nat := n % 2 ^ 32

/-- The value of `(uint32_t)(~x)` for `x` of type `uint8_t`: `x` is promoted to
`int`, complemented there (giving `-x-1`), and the conversion to `uint32_t`
adds `2^32`.  The upper 24 bits of the result are all ones. -/
def not_promoted (x : Nat) : Nat := 2 ^ 32 - 1 - x

/-- The value of `~x` for `x` of type `uint32_t`. -/
def not32 (x : Nat) : Nat := 2 ^ 32 - 1 - x

/-- The value of `x << k` at type `uint32_t` (for `k < 32`). -/
def shl32 (x k : Nat) : Nat := u32 (x <<< k)

/-! ## Registry: the timing table (`ir_common.h`, `ir_common.c`) -/

/-- `IR_Protocol_Timing_t` of `ir_common.h` -/
structure IR_Protocol_Timing_t where
  start_burst_min : Nat
  start_burst_max : Nat
  start_space_min : Nat
  start_space_max : Nat
  repeat_space_min : Nat
  repeat_space_max : Nat
  bit_burst_min : Nat
  bit_burst_max : Nat
  bit_0_space_min : Nat
  bit_0_space_max : Nat
  bit_1_space_min : Nat
  bit_1_space_max : Nat
  stop_burst_min : Nat
  stop_burst_max : Nat
  bit_count : Nat
  timeout : Nat
  carrier_freq : Nat
  deriving DecidableEq, Repr

/-- `IR_Protocol_Info_t` -/
structure IR_Protocol_Info_t where
  type : Nat
  name : String
  timing : IR_Protocol_Timing_t
  deriving DecidableEq, Repr

/-- The `NEC` entry of `protocol_info_table`; fields without an initialiser
are 0. -/
def protocol_info_nec : IR_Protocol_Info_t :=
  { type := IR_PROTOCOL_NEC
    name := "NEC"
    timing :=
      { start_burst_min := 655, start_burst_max := 815, start_space_min := 330,
        start_space_max := 360, repeat_space_min := 155, repeat_space_max := 185,
        bit_burst_min := 15, bit_burst_max := 25, bit_0_space_min := 15,
        bit_0_space_max := 25, bit_1_space_min := 45, bit_1_space_max := 55,
        stop_burst_min := 15, stop_burst_max := 25, bit_count := 32, timeout := 7400,
        carrier_freq := 38000 } }

/-- The `RC5` entry of `protocol_info_table`; fields without an initialiser
are 0. -/
def protocol_info_rc5 : IR_Protocol_Info_t :=
  { type := IR_PROTOCOL_RC5
    name := "RC5"
    timing :=
      { start_burst_min := 25, start_burst_max := 35, start_space_min := 25,
        start_space_max := 35, repeat_space_min := 0, repeat_space_max := 0,
        bit_burst_min := 25, bit_burst_max := 35, bit_0_space_min := 25,
        bit_0_space_max := 35, bit_1_space_min := 25, bit_1_space_max := 35,
        stop_burst_min := 0, stop_burst_max := 0, bit_count := 14, timeout := 3000,
        carrier_freq := 36000 } }

/-- The `Sony` entry of `protocol_info_table`; fields without an initialiser
are 0. -/
def protocol_info_sony : IR_Protocol_Info_t :=
  { type := IR_PROTOCOL_SONY
    name := "Sony"
    timing :=
      { start_burst_min := 85, start_burst_max := 105, start_space_min := 20,
        start_space_max := 30, repeat_space_min := 0, repeat_space_max := 0,
        bit_burst_min := 20, bit_burst_max := 30, bit_0_space_min := 20,
        bit_0_space_max := 30, bit_1_space_min := 40, bit_1_space_max := 50,
        stop_burst_min := 0, stop_burst_max := 0, bit_count := 12, timeout := 4500,
        carrier_freq := 40000 } }

/-- The `RC6` entry of `protocol_info_table`; fields without an initialiser
are 0. -/
def protocol_info_rc6 : IR_Protocol_Info_t :=
  { type := IR_PROTOCOL_RC6
    name := "RC6"
    timing :=
      { start_burst_min := 95, start_burst_max := 115, start_space_min := 30,
        start_space_max := 40, repeat_space_min := 0, repeat_space_max := 0,
        bit_burst_min := 15, bit_burst_max := 25, bit_0_space_min := 15,
        bit_0_space_max := 25, bit_1_space_min := 30, bit_1_space_max := 40,
        stop_burst_min := 0, stop_burst_max := 0, bit_count := 21, timeout := 5000,
        carrier_freq := 36000 } }

/-- The `Samsung` entry of `protocol_info_table`; fields without an initialiser
are 0. -/
def protocol_info_samsung : IR_Protocol_Info_t :=
  { type := IR_PROTOCOL_SAMSUNG
    name := "Samsung"
    timing :=
      { start_burst_min := 155, start_burst_max := 175, start_space_min := 155,
        start_space_max := 175, repeat_space_min := 0, repeat_space_max := 0,
        bit_burst_min := 20, bit_burst_max := 30, bit_0_space_min := 20,
        bit_0_space_max := 30, bit_1_space_min := 55, bit_1_space_max := 65,
        stop_burst_min := 0, stop_burst_max := 0, bit_count := 32, timeout := 8000,
        carrier_freq := 38000 } }

/-- The `LG` entry of `protocol_info_table`; fields without an initialiser
are 0. -/
def protocol_info_lg : IR_Protocol_Info_t :=
  { type := IR_PROTOCOL_LG
    name := "LG"
    timing :=
      { start_burst_min := 310, start_burst_max := 330, start_space_min := 155,
        start_space_max := 175, repeat_space_min := 0, repeat_space_max := 0,
        bit_burst_min := 20, bit_burst_max := 30, bit_0_space_min := 20,
        bit_0_space_max := 30, bit_1_space_min := 55, bit_1_space_max := 65,
        stop_burst_min := 0, stop_burst_max := 0, bit_count := 28, timeout := 7500,
        carrier_freq := 38000 } }

/-- The `Panasonic` entry of `protocol_info_table`; fields without an initialiser
are 0. -/
def protocol_info_panasonic : IR_Protocol_Info_t :=
  { type := IR_PROTOCOL_PANASONIC
    name := "Panasonic"
    timing :=
      { start_burst_min := 125, start_burst_max := 145, start_space_min := 60,
        start_space_max := 80, repeat_space_min := 0, repeat_space_max := 0,
        bit_burst_min := 15, bit_burst_max := 25, bit_0_space_min := 15,
        bit_0_space_max := 25, bit_1_space_min := 45, bit_1_space_max := 55,
        stop_burst_min := 0, stop_burst_max := 0, bit_count := 48, timeout := 9000,
        carrier_freq := 37000 } }

/-- The `JVC` entry of `protocol_info_table`; fields without an initialiser
are 0. -/
def protocol_info_jvc : IR_Protocol_Info_t :=
  { type := IR_PROTOCOL_JVC
    name := "JVC"
    timing :=
      { start_burst_min := 290, start_burst_max := 310, start_space_min := 145,
        start_space_max := 165, repeat_space_min := 0, repeat_space_max := 0,
        bit_burst_min := 18, bit_burst_max := 28, bit_0_space_min := 18,
        bit_0_space_max := 28, bit_1_space_min := 55, bit_1_space_max := 65,
        stop_burst_min := 0, stop_burst_max := 0, bit_count := 16, timeout := 6000,
        carrier_freq := 38000 } }

/-- The `Denon` entry of `protocol_info_table`; fields without an initialiser
are 0. -/
def protocol_info_denon : IR_Protocol_Info_t :=
  { type := IR_PROTOCOL_DENON
    name := "Denon"
    timing :=
      { start_burst_min := 120, start_burst_max := 140, start_space_min := 60,
        start_space_max := 80, repeat_space_min := 0, repeat_space_max := 0,
        bit_burst_min := 12, bit_burst_max := 22, bit_0_space_min := 12,
        bit_0_space_max := 22, bit_1_space_min := 35, bit_1_space_max := 45,
        stop_burst_min := 0, stop_burst_max := 0, bit_count := 15, timeout := 5500,
        carrier_freq := 38000 } }

/-- `static const IR_Protocol_Info_t protocol_info_table[IR_PROTOCOL_COUNT]`,
indexed by protocol id. -/
def protocol_info_table : List IR_Protocol_Info_t :=
  [protocol_info_nec, protocol_info_rc5, protocol_info_sony,
   protocol_info_rc6, protocol_info_samsung, protocol_info_lg,
   protocol_info_panasonic, protocol_info_jvc, protocol_info_denon]

/-- `const IR_Protocol_Info_t* IR_get_protocol_info(IR_Protocol_t protocol)`;
`none` is the `NULL` returned for `protocol >= IR_PROTOCOL_COUNT`. -/
def IR_get_protocol_info (protocol : Nat) : Option IR_Protocol_Info_t :=
  if protocol ≥ IR_PROTOCOL_COUNT then none else protocol_info_table[protocol]?

/-- `const char* IR_get_protocol_name(IR_Protocol_t protocol)` -/
def IR_get_protocol_name (protocol : Nat) : String :=
  match IR_get_protocol_info protocol with
  | some info => info.name
  | none => "Unknown"

/-- `uint32_t IR_get_carrier_frequency(IR_Protocol_t protocol)` -/
def IR_get_carrier_frequency (protocol : Nat) : Nat :=
  match IR_get_protocol_info protocol with
  | some info => info.timing.carrier_freq
  | none => 38000

/-! ## Registry: checksum, encoders, decoders, validation (`ir_common.c`) -/

/-- The loop of `IR_calculate_checksum`:
`for (int i = 0; i < 4; i++) checksum += (data >> (i * 8)) & 0xFF;` with
`checksum` of type `uint16_t`.  The first argument counts the iterations left
(`4 - i`). -/
def IR_calculate_checksum_loop (data : Nat) : Nat → Nat → Nat → Nat
  | 0, _, checksum => checksum
  | n + 1, i, checksum =>
    IR_calculate_checksum_loop data n (i + 1) (u16 (checksum + ((data >>> (i * 8)) &&& 0xFF)))

/-- `uint16_t IR_calculate_checksum(uint32_t data)`: `checksum = 0`, the loop,
`return checksum & 0xFF`. -/
def IR_calculate_checksum (data : Nat) : Nat :=
  IR_calculate_checksum_loop data 4 0 0 &&& 0xFF

/-- `uint32_t IR_encode_nec_data(uint8_t address, uint8_t command)` -/
def IR_encode_nec_data (address command : Nat) : Nat :=
  address |||
  shl32 (not_promoted address) 8 |||
  shl32 command 16 |||
  shl32 (not_promoted command) 24

/-- `uint32_t IR_encode_sony_data(uint8_t address, uint8_t command)` -/
def IR_encode_sony_data (address command : Nat) : Nat :=
  command ||| shl32 address 7

/-- `uint32_t IR_encode_rc5_data(uint8_t address, uint8_t command)` -/
def IR_encode_rc5_data (address command : Nat) : Nat :=
  shl32 address 6 ||| command ||| 0x3000

/-- `uint32_t IR_encode_samsung_data(uint8_t address, uint8_t command)` -/
def IR_encode_samsung_data (address command : Nat) : Nat :=
  address |||
  shl32 address 8 |||
  shl32 command 16 |||
  shl32 (not_promoted command) 24

/-- `uint32_t IR_encode_lg_data(uint8_t address, uint8_t command)` -/
def IR_encode_lg_data (address command : Nat) : Nat :=
  address ||| shl32 command 8 |||
  shl32 (IR_calculate_checksum (address ||| shl32 command 8)) 16

/-- `uint32_t IR_encode_panasonic_data(uint8_t address, uint8_t command)` -/
def IR_encode_panasonic_data (address command : Nat) : Nat :=
  0x40040100 ||| shl32 address 8 ||| shl32 command 16

/-- `uint32_t IR_encode_jvc_data(uint8_t address, uint8_t command)` -/
def IR_encode_jvc_data (address command : Nat) : Nat :=
  address ||| shl32 command 8

/-- `uint32_t IR_encode_rc6_data(uint8_t address, uint8_t command)` -/
def IR_encode_rc6_data (address command : Nat) : Nat :=
  0x100000 ||| shl32 address 8 ||| command

/-- `uint32_t IR_encode_denon_data(uint8_t address, uint8_t command)` -/
def IR_encode_denon_data (address command : Nat) : Nat :=
  address ||| shl32 command 5

/-- `void IR_decode_nec_data(uint32_t raw_data, uint8_t* address, uint8_t* command)`;
the result is the pair `(*address, *command)`. -/
def IR_decode_nec_data (raw_data : Nat) : Nat × Nat :=
  (u8 (raw_data &&& 0xFF), u8 ((raw_data >>> 16) &&& 0xFF))

/-- `IR_decode_sony_data`, result `(*address, *command)`. -/
def IR_decode_sony_data (raw_data : Nat) : Nat × Nat :=
  (u8 ((raw_data >>> 7) &&& 0x1F), u8 (raw_data &&& 0x7F))

/-- `IR_decode_rc5_data`, result `(*address, *command)`. -/
def IR_decode_rc5_data (raw_data : Nat) : Nat × Nat :=
  (u8 ((raw_data >>> 6) &&& 0x1F), u8 (raw_data &&& 0x3F))

/-- `IR_decode_samsung_data`, result `(*address, *command)`. -/
def IR_decode_samsung_data (raw_data : Nat) : Nat × Nat :=
  (u8 (raw_data &&& 0xFF), u8 ((raw_data >>> 16) &&& 0xFF))

/-- `IR_decode_lg_data`, result `(*address, *command)`. -/
def IR_decode_lg_data (raw_data : Nat) : Nat × Nat :=
  (u8 (raw_data &&& 0xFF), u8 ((raw_data >>> 8) &&& 0xFF))

/-- `IR_decode_panasonic_data`, result `(*address, *command)`. -/
def IR_decode_panasonic_data (raw_data : Nat) : Nat × Nat :=
  (u8 ((raw_data >>> 8) &&& 0xFF), u8 ((raw_data >>> 16) &&& 0xFF))

/-- `IR_decode_jvc_data`, result `(*address, *command)`. -/
def IR_decode_jvc_data (raw_data : Nat) : Nat × Nat :=
  (u8 (raw_data &&& 0xFF), u8 ((raw_data >>> 8) &&& 0xFF))

/-- `IR_decode_rc6_data`, result `(*address, *command)`. -/
def IR_decode_rc6_data (raw_data : Nat) : Nat × Nat :=
  (u8 ((raw_data >>> 8) &&& 0xFF), u8 (raw_data &&& 0xFF))

/-- `IR_decode_denon_data`, result `(*address, *command)`. -/
def IR_decode_denon_data (raw_data : Nat) : Nat × Nat :=
  (u8 (raw_data &&& 0x1F), u8 ((raw_data >>> 5) &&& 0x3FF))

/-- `uint8_t IR_validate_protocol_data(IR_Protocol_t protocol, uint32_t raw_data)`:
the `&&` and `==` results are `int` 0 or 1. -/
def IR_validate_protocol_data (protocol raw_data : Nat) : Nat :=
  if protocol = IR_PROTOCOL_NEC then
    if (raw_data &&& 0xFF) = (not32 ((raw_data >>> 8) &&& 0xFF) &&& 0xFF) ∧
       ((raw_data >>> 16) &&& 0xFF) = (not32 ((raw_data >>> 24) &&& 0xFF) &&& 0xFF)
    then 1 else 0
  else if protocol = IR_PROTOCOL_SAMSUNG then
    if ((raw_data >>> 16) &&& 0xFF) = (not32 ((raw_data >>> 24) &&& 0xFF) &&& 0xFF)
    then 1 else 0
  else 1

/-- The encoder selected for a protocol id by the `switch` of `IR_transmitter_send`
(`default:` is the NEC encoder). -/
def IR_encode_data (protocol address command : Nat) : Nat :=
  if protocol = IR_PROTOCOL_NEC then IR_encode_nec_data address command
  else if protocol = IR_PROTOCOL_SONY then IR_encode_sony_data address command
  else if protocol = IR_PROTOCOL_RC5 then IR_encode_rc5_data address command
  else if protocol = IR_PROTOCOL_SAMSUNG then IR_encode_samsung_data address command
  else if protocol = IR_PROTOCOL_LG then IR_encode_lg_data address command
  else if protocol = IR_PROTOCOL_PANASONIC then IR_encode_panasonic_data address command
  else if protocol = IR_PROTOCOL_JVC then IR_encode_jvc_data address command
  else if protocol = IR_PROTOCOL_RC6 then IR_encode_rc6_data address command
  else if protocol = IR_PROTOCOL_DENON then IR_encode_denon_data address command
  else IR_encode_nec_data address command

/-! ## Receive engine (`ir_decoder.h`, `ir_decoder.c`) -/

/-- `IR_State_t` -/
inductive IR_State_t where
  | IR_STATE_IDLE
  | IR_STATE_INIT
  | IR_STATE_FINISH
  | IR_STATE_PROCESS
  deriving DecidableEq, Repr

/-- `IR_Event_t` -/
inductive IR_Event_t where
  | IR_EVENT_INIT
  | IR_EVENT_DATA
  | IR_EVENT_FINISH
  | IR_EVENT_HOOK
  deriving DecidableEq, Repr

open IR_State_t IR_Event_t

/-- `IR_Data_t` -/
structure IR_Data_t where
  raw_data : Nat
  address : Nat
  command : Nat
  protocol : Nat
  valid : Nat
  deriving DecidableEq, Repr

/-- `IR_Protocol_Config_t` of `ir_decoder.h` -/
structure IR_Protocol_Config_t where
  start_burst_min : Nat
  start_burst_max : Nat
  start_space_min : Nat
  start_space_max : Nat
  repeat_space_min : Nat
  repeat_space_max : Nat
  bit_count : Nat
  timeout : Nat
  bit_threshold : Nat
  deriving DecidableEq, Repr

/-- `IR_HAL_t`: each field says whether the function pointer is non-null. What
the functions do is outside the library; the tick count that `timer_get_count`
returns is an argument of the operations that read it. -/
structure IR_HAL_t where
  timer_start : Bool
  timer_stop : Bool
  timer_get_count : Bool
  timer_reset_count : Bool
  pin_read : Bool
  deriving DecidableEq, Repr

/-- `IR_Decoder_t` -/
structure IR_Decoder_t where
  state : IR_State_t
  event : IR_Event_t
  bit_index : Nat
  data_buffer : Nat
  timeout_counter : Nat
  protocol_type : Nat
  hal : IR_HAL_t
  decoded_data : IR_Data_t
  protocol_config : IR_Protocol_Config_t
  deriving DecidableEq, Repr

/-- `IR_get_nec_config` -/
def IR_get_nec_config : IR_Protocol_Config_t :=
  { start_burst_min := 655, start_burst_max := 815, start_space_min := 330,
    start_space_max := 360, repeat_space_min := 155, repeat_space_max := 185,
    bit_count := 32, timeout := 7400, bit_threshold := 90 }

/-- `IR_get_rc5_config` -/
def IR_get_rc5_config : IR_Protocol_Config_t :=
  { start_burst_min := 400, start_burst_max := 600, start_space_min := 400,
    start_space_max := 600, repeat_space_min := 0, repeat_space_max := 0,
    bit_count := 14, timeout := 5000, bit_threshold := 50 }

/-- `IR_get_sony_config` -/
def IR_get_sony_config : IR_Protocol_Config_t :=
  { start_burst_min := 500, start_burst_max := 700, start_space_min := 200,
    start_space_max := 400, repeat_space_min := 0, repeat_space_max := 0,
    bit_count := 12, timeout := 6000, bit_threshold := 60 }

/-- `IR_get_rc6_config` -/
def IR_get_rc6_config : IR_Protocol_Config_t :=
  { start_burst_min := 200, start_burst_max := 220, start_space_min := 65,
    start_space_max := 75, repeat_space_min := 0, repeat_space_max := 0,
    bit_count := 21, timeout := 8000, bit_threshold := 50 }

/-- `IR_get_samsung_config` -/
def IR_get_samsung_config : IR_Protocol_Config_t :=
  { start_burst_min := 340, start_burst_max := 380, start_space_min := 340,
    start_space_max := 380, repeat_space_min := 170, repeat_space_max := 190,
    bit_count := 32, timeout := 7500, bit_threshold := 90 }

/-- `IR_get_lg_config` -/
def IR_get_lg_config : IR_Protocol_Config_t :=
  { start_burst_min := 680, start_burst_max := 720, start_space_min := 340,
    start_space_max := 360, repeat_space_min := 170, repeat_space_max := 190,
    bit_count := 28, timeout := 7000, bit_threshold := 85 }

/-- `IR_get_panasonic_config` -/
def IR_get_panasonic_config : IR_Protocol_Config_t :=
  { start_burst_min := 265, start_burst_max := 285, start_space_min := 130,
    start_space_max := 150, repeat_space_min := 0, repeat_space_max := 0,
    bit_count := 48, timeout := 9000, bit_threshold := 70 }

/-- `IR_get_jvc_config` -/
def IR_get_jvc_config : IR_Protocol_Config_t :=
  { start_burst_min := 635, start_burst_max := 665, start_space_min := 315,
    start_space_max := 335, repeat_space_min := 0, repeat_space_max := 0,
    bit_count := 16, timeout := 6000, bit_threshold := 80 }

/-- `IR_get_denon_config` -/
def IR_get_denon_config : IR_Protocol_Config_t :=
  { start_burst_min := 240, start_burst_max := 260, start_space_min := 120,
    start_space_max := 140, repeat_space_min := 0, repeat_space_max := 0,
    bit_count := 15, timeout := 5500, bit_threshold := 60 }

/-- The `switch(protocol)` of `IR_decoder_init` (`default:` loads the NEC
configuration). -/
def IR_decoder_config (protocol : Nat) : IR_Protocol_Config_t :=
  if protocol = IR_PROTOCOL_NEC then IR_get_nec_config
  else if protocol = IR_PROTOCOL_RC5 then IR_get_rc5_config
  else if protocol = IR_PROTOCOL_SONY then IR_get_sony_config
  else if protocol = IR_PROTOCOL_RC6 then IR_get_rc6_config
  else if protocol = IR_PROTOCOL_SAMSUNG then IR_get_samsung_config
  else if protocol = IR_PROTOCOL_LG then IR_get_lg_config
  else if protocol = IR_PROTOCOL_PANASONIC then IR_get_panasonic_config
  else if protocol = IR_PROTOCOL_JVC then IR_get_jvc_config
  else if protocol = IR_PROTOCOL_DENON then IR_get_denon_config
  else IR_get_nec_config

/-- `void IR_decoder_init(IR_Decoder_t* decoder, IR_Protocol_t protocol, IR_HAL_t* hal)`.
Every field of `*decoder` is assigned, so the result does not depend on its
previous content; `decoded_data.protocol` is a `uint8_t`. -/
def IR_decoder_init (protocol : Nat) (hal : IR_HAL_t) : IR_Decoder_t :=
  { state := IR_STATE_IDLE
    event := IR_EVENT_INIT
    bit_index := 0
    data_buffer := 0
    timeout_counter := 0
    protocol_type := protocol
    hal := hal
    protocol_config := IR_decoder_config protocol
    decoded_data :=
      { raw_data := 0, address := 0, command := 0, protocol := u8 protocol, valid := 0 } }

/-- `static int8_t IR_process_protocol_data(IR_Decoder_t* decoder, uint16_t counter, uint8_t value)`:
the returned value and the decoder afterwards.  In the `IR_EVENT_DATA` case the
shift `(uint32_t)bit_value << decoder->bit_index++` is taken at type
`uint32_t` (it is defined by C only for `bit_index < 32`), and `bit_index` is a
`uint8_t`. -/
def IR_process_protocol_data (decoder : IR_Decoder_t) (counter value : Nat) :
    Nat × IR_Decoder_t :=
  match decoder.event with
  | IR_EVENT_INIT =>
    (IR_SUCCESS, { decoder with data_buffer := 0, bit_index := 0 })
  | IR_EVENT_DATA =>
    if decoder.bit_index < decoder.protocol_config.bit_count then
      if value = IR_HIGH then
        let bit_value := if counter < decoder.protocol_config.bit_threshold then 0 else 1
        let d1 := { decoder with
          data_buffer := decoder.data_buffer ||| shl32 bit_value decoder.bit_index
          bit_index := u8 (decoder.bit_index + 1) }
        if d1.bit_index = d1.protocol_config.bit_count then
          (IR_SUCCESS, { d1 with event := IR_EVENT_HOOK })
        else (IR_SUCCESS, d1)
      else (IR_SUCCESS, decoder)
    else (IR_ERROR, decoder)
  | IR_EVENT_HOOK =>
    if value = IR_LOW then (IR_SUCCESS, { decoder with event := IR_EVENT_FINISH })
    else (IR_ERROR, decoder)
  | IR_EVENT_FINISH =>
    (IR_ERROR, { decoder with
      decoded_data := { decoder.decoded_data with
        raw_data := decoder.data_buffer
        address := u8 (decoder.data_buffer &&& 0xFF)
        command := u8 ((decoder.data_buffer >>> 16) &&& 0xFF)
        valid := 1 } })

/-- `void IR_decoder_process(IR_Decoder_t* decoder, uint8_t pin_value)`.
`count` is what `hal.timer_get_count()` returns when the pointer is non-null;
`counter` is 0 otherwise. -/
def IR_decoder_process (decoder : IR_Decoder_t) (count pin_value : Nat) : IR_Decoder_t :=
  let counter := if decoder.hal.timer_get_count then count else 0
  let config := decoder.protocol_config
  match decoder.state with
  | IR_STATE_IDLE =>
    if pin_value = IR_HIGH then { decoder with state := IR_STATE_INIT } else decoder
  | IR_STATE_INIT =>
    if pin_value = IR_LOW then
      let d1 :=
        if ¬ (counter > config.start_burst_min ∧ counter < config.start_burst_max) then
          { decoder with state := IR_STATE_FINISH }
        else decoder
      { d1 with timeout_counter := config.timeout }
    else
      if counter > config.start_space_min ∧ counter < config.start_space_max then
        { decoder with state := IR_STATE_PROCESS, event := IR_EVENT_INIT }
      else if counter > config.repeat_space_min ∧ counter < config.repeat_space_max then
        { decoder with event := IR_EVENT_FINISH }
      else
        { decoder with state := IR_STATE_FINISH }
  | IR_STATE_PROCESS =>
    let r := IR_process_protocol_data decoder counter pin_value
    if IR_SUCCESS ≠ r.1 then { r.2 with state := IR_STATE_FINISH } else r.2
  | IR_STATE_FINISH =>
    { decoder with state := IR_STATE_IDLE, timeout_counter := 0 }

/-- A call through one of the function pointers of `IR_HAL_t`. -/
inductive IR_HAL_Call where
  | timer_start
  | timer_stop
  | timer_get_count
  | timer_reset_count
  | pin_read
  deriving DecidableEq, Repr

/-- The HAL calls one `IR_decoder_process` call issues, in order: the tick
counter is read, then reset, each when its pointer is non-null. -/
def IR_decoder_process_calls (decoder : IR_Decoder_t) : List IR_HAL_Call :=
  (if decoder.hal.timer_get_count then [IR_HAL_Call.timer_get_count] else []) ++
  (if decoder.hal.timer_reset_count then [IR_HAL_Call.timer_reset_count] else [])

/-- `int8_t IR_decoder_get_data(IR_Decoder_t* decoder, IR_Data_t* data)`: the
returned value, the decoder afterwards and the caller's buffer `*data`
afterwards. -/
def IR_decoder_get_data (decoder : IR_Decoder_t) (data : IR_Data_t) :
    Nat × IR_Decoder_t × IR_Data_t :=
  if decoder.decoded_data.valid = 0 then (IR_ERROR, decoder, data)
  else
    (IR_SUCCESS,
     { decoder with decoded_data := { decoder.decoded_data with valid := 0 } },
     decoder.decoded_data)

/-- `void IR_decoder_timeout_handler(IR_Decoder_t* decoder)`; `count` is what
`hal.timer_get_count()` returns. -/
def IR_decoder_timeout_handler (decoder : IR_Decoder_t) (count : Nat) : IR_Decoder_t :=
  let d1 :=
    if decoder.hal.timer_get_count = true ∧ count > 10000 then
      { decoder with state := IR_STATE_IDLE }
    else decoder
  if d1.timeout_counter ≠ 0 then
    let d2 := { d1 with timeout_counter := d1.timeout_counter - 1 }
    if d2.timeout_counter = 0 then { d2 with state := IR_STATE_IDLE } else d2
  else d1

/-- `void IR_decoder_reset(IR_Decoder_t* decoder)` -/
def IR_decoder_reset (decoder : IR_Decoder_t) : IR_Decoder_t :=
  { decoder with
    state := IR_STATE_IDLE
    event := IR_EVENT_INIT
    bit_index := 0
    data_buffer := 0
    timeout_counter := 0
    decoded_data := { decoder.decoded_data with valid := 0 } }

/-- A run of the receive engine: `IR_decoder_process` applied to a list of
edges `(count, pin_value)`, first edge first. -/
def IR_decoder_run (decoder : IR_Decoder_t) : List (Nat × Nat) → IR_Decoder_t
  | [] => decoder
  | e :: es => IR_decoder_run (IR_decoder_process decoder e.1 e.2) es

/-! ## Transmit engine (`ir_transmitter.h`, `ir_transmitter.c`) -/

/-- `IR_TX_State_t` -/
inductive IR_TX_State_t where
  | IR_TX_STATE_IDLE
  | IR_TX_STATE_START_BURST
  | IR_TX_STATE_START_SPACE
  | IR_TX_STATE_DATA_BURST
  | IR_TX_STATE_DATA_SPACE
  | IR_TX_STATE_STOP_BURST
  | IR_TX_STATE_COMPLETE
  deriving DecidableEq, Repr

open IR_TX_State_t

/-- `IR_TX_Protocol_Config_t` of `ir_common.h` -/
structure IR_TX_Protocol_Config_t where
  start_burst_us : Nat
  start_space_us : Nat
  repeat_space_us : Nat
  bit_burst_us : Nat
  bit_0_space_us : Nat
  bit_1_space_us : Nat
  stop_burst_us : Nat
  bit_count : Nat
  repeat_count : Nat
  carrier_freq : Nat
  deriving DecidableEq, Repr

/-- A call through one of the function pointers of `IR_TX_HAL_t`, with its
argument.  The transmitter calls them without a null test. -/
inductive IR_TX_HAL_Call where
  | carrier_on
  | carrier_off
  | delay_us (us : Nat)
  | delay_ms (ms : Nat)
  deriving DecidableEq, Repr

open IR_TX_HAL_Call

/-- `IR_Transmitter_t`; the `hal` field holds function pointers only and is
represented by the calls made through it. -/
structure IR_Transmitter_t where
  state : IR_TX_State_t
  protocol_type : Nat
  protocol_config : IR_TX_Protocol_Config_t
  data_to_send : Nat
  current_bit : Nat
  repeat_counter : Nat
  is_transmitting : Nat
  deriving DecidableEq, Repr

/-- `IR_get_nec_tx_config` -/
def IR_get_nec_tx_config : IR_TX_Protocol_Config_t :=
  { start_burst_us := 9000, start_space_us := 4500, repeat_space_us := 2250,
    bit_burst_us := 562, bit_0_space_us := 562, bit_1_space_us := 1687,
    stop_burst_us := 562, bit_count := 32, repeat_count := 1, carrier_freq := 38000 }

/-- `IR_get_rc5_tx_config` -/
def IR_get_rc5_tx_config : IR_TX_Protocol_Config_t :=
  { start_burst_us := 889, start_space_us := 889, repeat_space_us := 0,
    bit_burst_us := 889, bit_0_space_us := 889, bit_1_space_us := 889,
    stop_burst_us := 0, bit_count := 14, repeat_count := 0, carrier_freq := 36000 }

/-- `IR_get_sony_tx_config` -/
def IR_get_sony_tx_config : IR_TX_Protocol_Config_t :=
  { start_burst_us := 2400, start_space_us := 600, repeat_space_us := 0,
    bit_burst_us := 600, bit_0_space_us := 600, bit_1_space_us := 1200,
    stop_burst_us := 0, bit_count := 12, repeat_count := 2, carrier_freq := 40000 }

/-- `IR_get_rc6_tx_config` -/
def IR_get_rc6_tx_config : IR_TX_Protocol_Config_t :=
  { start_burst_us := 2666, start_space_us := 889, repeat_space_us := 0,
    bit_burst_us := 444, bit_0_space_us := 444, bit_1_space_us := 444,
    stop_burst_us := 0, bit_count := 16, repeat_count := 0, carrier_freq := 36000 }

/-- `IR_get_samsung_tx_config` -/
def IR_get_samsung_tx_config : IR_TX_Protocol_Config_t :=
  { start_burst_us := 4500, start_space_us := 4500, repeat_space_us := 2250,
    bit_burst_us := 560, bit_0_space_us := 560, bit_1_space_us := 1690,
    stop_burst_us := 560, bit_count := 32, repeat_count := 1, carrier_freq := 38000 }

/-- `IR_get_lg_tx_config` -/
def IR_get_lg_tx_config : IR_TX_Protocol_Config_t :=
  { start_burst_us := 9000, start_space_us := 4500, repeat_space_us := 2250,
    bit_burst_us := 560, bit_0_space_us := 560, bit_1_space_us := 1690,
    stop_burst_us := 560, bit_count := 28, repeat_count := 1, carrier_freq := 38000 }

/-- `IR_get_panasonic_tx_config` -/
def IR_get_panasonic_tx_config : IR_TX_Protocol_Config_t :=
  { start_burst_us := 3502, start_space_us := 1750, repeat_space_us := 0,
    bit_burst_us := 502, bit_0_space_us := 400, bit_1_space_us := 1244,
    stop_burst_us := 502, bit_count := 48, repeat_count := 0, carrier_freq := 35000 }

/-- `IR_get_jvc_tx_config` -/
def IR_get_jvc_tx_config : IR_TX_Protocol_Config_t :=
  { start_burst_us := 8400, start_space_us := 4200, repeat_space_us := 0,
    bit_burst_us := 525, bit_0_space_us := 525, bit_1_space_us := 1575,
    stop_burst_us := 525, bit_count := 16, repeat_count := 0, carrier_freq := 38000 }

/-- `IR_get_denon_tx_config` -/
def IR_get_denon_tx_config : IR_TX_Protocol_Config_t :=
  { start_burst_us := 275, start_space_us := 775, repeat_space_us := 0,
    bit_burst_us := 275, bit_0_space_us := 775, bit_1_space_us := 1900,
    stop_burst_us := 275, bit_count := 15, repeat_count := 1, carrier_freq := 38000 }

/-- The `switch(protocol)` of `IR_transmitter_init` (`default:` loads the NEC
configuration). -/
def IR_transmitter_config (protocol : Nat) : IR_TX_Protocol_Config_t :=
  if protocol = IR_PROTOCOL_NEC then IR_get_nec_tx_config
  else if protocol = IR_PROTOCOL_RC5 then IR_get_rc5_tx_config
  else if protocol = IR_PROTOCOL_SONY then IR_get_sony_tx_config
  else if protocol = IR_PROTOCOL_RC6 then IR_get_rc6_tx_config
  else if protocol = IR_PROTOCOL_SAMSUNG then IR_get_samsung_tx_config
  else if protocol = IR_PROTOCOL_LG then IR_get_lg_tx_config
  else if protocol = IR_PROTOCOL_PANASONIC then IR_get_panasonic_tx_config
  else if protocol = IR_PROTOCOL_JVC then IR_get_jvc_tx_config
  else if protocol = IR_PROTOCOL_DENON then IR_get_denon_tx_config
  else IR_get_nec_tx_config

/-- `void IR_transmitter_init(IR_Transmitter_t* transmitter, IR_Protocol_t protocol, IR_TX_HAL_t* hal)`;
`data_to_send` and `current_bit` are not assigned and keep their content. -/
def IR_transmitter_init (transmitter : IR_Transmitter_t) (protocol : Nat) : IR_Transmitter_t :=
  { transmitter with
    state := IR_TX_STATE_IDLE
    protocol_type := protocol
    is_transmitting := 0
    repeat_counter := 0
    protocol_config := IR_transmitter_config protocol }

/-- The data-bit loop of `IR_transmit_frame`,
`for (uint8_t i = 0; i < config->bit_count; i++)`: the HAL calls from
iteration `i` on.  The first argument counts the iterations left
(`bit_count - i`); `bit` is `(data_to_send >> i) & 1`, a shift C defines for
`i < 32`. -/
def IR_transmit_frame_bits (config : IR_TX_Protocol_Config_t) (data_to_send : Nat) :
    Nat → Nat → List IR_TX_HAL_Call
  | 0, _ => []
  | n + 1, i =>
    let bit := (data_to_send >>> i) &&& 1
    [carrier_on, delay_us config.bit_burst_us, carrier_off,
     if bit ≠ 0 then delay_us config.bit_1_space_us else delay_us config.bit_0_space_us]
    ++ IR_transmit_frame_bits config data_to_send n (i + 1)

/-- `static void IR_transmit_frame(IR_Transmitter_t* transmitter)`: the
transmitter afterwards and the HAL calls issued, in order. -/
def IR_transmit_frame (transmitter : IR_Transmitter_t) :
    IR_Transmitter_t × List IR_TX_HAL_Call :=
  let config := transmitter.protocol_config
  ({ transmitter with is_transmitting := 0 },
   [carrier_on, delay_us config.start_burst_us, carrier_off, delay_us config.start_space_us]
   ++ IR_transmit_frame_bits config transmitter.data_to_send config.bit_count 0
   ++ (if config.stop_burst_us > 0 then
        [carrier_on, delay_us config.stop_burst_us, carrier_off]
       else []))

/-- `int8_t IR_transmitter_send_raw(IR_Transmitter_t* transmitter, uint32_t raw_data)`:
the returned value, the transmitter afterwards and the HAL calls issued. -/
def IR_transmitter_send_raw (transmitter : IR_Transmitter_t) (raw_data : Nat) :
    Nat × IR_Transmitter_t × List IR_TX_HAL_Call :=
  if transmitter.is_transmitting ≠ 0 then (IR_ERROR, transmitter, [])
  else
    let t1 := { transmitter with
      data_to_send := raw_data
      current_bit := 0
      is_transmitting := 1
      repeat_counter := 0 }
    let r := IR_transmit_frame t1
    (IR_SUCCESS, r.1, r.2)

/-- `int8_t IR_transmitter_send(IR_Transmitter_t* transmitter, uint8_t address, uint8_t command)` -/
def IR_transmitter_send (transmitter : IR_Transmitter_t) (address command : Nat) :
    Nat × IR_Transmitter_t × List IR_TX_HAL_Call :=
  if transmitter.is_transmitting ≠ 0 then (IR_ERROR, transmitter, [])
  else
    let t1 := { transmitter with
      data_to_send := IR_encode_data transmitter.protocol_type address command }
    IR_transmitter_send_raw t1 t1.data_to_send

/-- `int8_t IR_transmitter_send_repeat(IR_Transmitter_t* transmitter)` -/
def IR_transmitter_send_repeat (transmitter : IR_Transmitter_t) :
    Nat × IR_Transmitter_t × List IR_TX_HAL_Call :=
  if transmitter.is_transmitting ≠ 0 then (IR_ERROR, transmitter, [])
  else
    let config := transmitter.protocol_config
    if config.repeat_space_us = 0 then (IR_ERROR, transmitter, [])
    else
      (IR_SUCCESS, { transmitter with is_transmitting := 0 },
       [carrier_on, delay_us config.start_burst_us, carrier_off,
        delay_us config.repeat_space_us, carrier_on, delay_us config.stop_burst_us,
        carrier_off])

/-- `uint8_t IR_transmitter_is_busy(IR_Transmitter_t* transmitter)` -/
def IR_transmitter_is_busy (transmitter : IR_Transmitter_t) : Nat :=
  transmitter.is_transmitting

/-- `void IR_transmitter_stop(IR_Transmitter_t* transmitter)` -/
def IR_transmitter_stop (transmitter : IR_Transmitter_t) :
    IR_Transmitter_t × List IR_TX_HAL_Call :=
  ({ transmitter with is_transmitting := 0, state := IR_TX_STATE_IDLE }, [carrier_off])

/-! ## Reachability invariant of the receive engine -/

/-- What holds of every decoder the receive engine can be in after
`IR_decoder_init`: no frame is marked valid, no bit has been stored, and the
data sub-machine is at `IR_EVENT_INIT` whenever the outer state is
`IR_STATE_PROCESS` (elsewhere it is at `IR_EVENT_INIT` or `IR_EVENT_FINISH`). -/
def IR_decoder_never_decodes (d : IR_Decoder_t) : Prop :=
  d.decoded_data.valid = 0 ∧ d.bit_index = 0 ∧ d.data_buffer = 0 ∧
  (d.event = IR_EVENT_INIT ∨ (d.event = IR_EVENT_FINISH ∧ d.state ≠ IR_STATE_PROCESS))

/-! ## Concrete values used in the examples -/

/-- A receive HAL with every function pointer set. -/
def sample_hal : IR_HAL_t :=
  { timer_start := true, timer_stop := true, timer_get_count := true,
    timer_reset_count := true, pin_read := true }

/-- A valid NEC frame: address 0x01, command 0x00. -/
def sample_frame : IR_Data_t :=
  { raw_data := 0xFF00FE01, address := 0x01, command := 0x00,
    protocol := 0, valid := 1 }

/-- An idle transmitter with the Denon timing and a two-bit frame. -/
def sample_transmitter : IR_Transmitter_t :=
  { state := IR_TX_STATE_IDLE, protocol_type := IR_PROTOCOL_DENON,
    protocol_config := { IR_get_denon_tx_config with bit_count := 2 },
    data_to_send := 0, current_bit := 0, repeat_counter := 0, is_transmitting := 0 }

/-! ## Runs of the timeout handler -/

/-- Consecutive `IR_decoder_timeout_handler` calls with no edge in between; the
list holds the tick count the HAL reports at each call, first call first. -/
def IR_decoder_timeout_run (decoder : IR_Decoder_t) : List Nat → IR_Decoder_t
  | [] => decoder
  | c :: cs => IR_decoder_timeout_run (IR_decoder_timeout_handler decoder c) cs

/-! ## The transmit engine with the busy flag observed at each HAL call

The same statements as `IR_transmit_frame`, `IR_transmitter_send_raw` and
`IR_transmitter_send_repeat`, with every HAL call recorded together with the
value `is_transmitting` has in the context at the moment of the call. -/

/-- A HAL call made while the context is `transmitter`. -/
def IR_TX_observe (transmitter : IR_Transmitter_t) (call : IR_TX_HAL_Call) :
    IR_TX_HAL_Call × Nat :=
  (call, transmitter.is_transmitting)

/-- The data-bit loop of `IR_transmit_frame`; the loop does not assign to the
context. -/
def IR_transmit_frame_bits_observed (transmitter : IR_Transmitter_t) :
    Nat → Nat → List (IR_TX_HAL_Call × Nat)
  | 0, _ => []
  | n + 1, i =>
    let config := transmitter.protocol_config
    let bit := (transmitter.data_to_send >>> i) &&& 1
    [IR_TX_observe transmitter carrier_on,
     IR_TX_observe transmitter (delay_us config.bit_burst_us),
     IR_TX_observe transmitter carrier_off,
     if bit ≠ 0 then IR_TX_observe transmitter (delay_us config.bit_1_space_us)
     else IR_TX_observe transmitter (delay_us config.bit_0_space_us)]
    ++ IR_transmit_frame_bits_observed transmitter n (i + 1)

/-- `IR_transmit_frame`: all HAL calls are made on the context as passed in;
`is_transmitting = 0` is the last statement. -/
def IR_transmit_frame_observed (transmitter : IR_Transmitter_t) :
    IR_Transmitter_t × List (IR_TX_HAL_Call × Nat) :=
  let config := transmitter.protocol_config
  ({ transmitter with is_transmitting := 0 },
   [IR_TX_observe transmitter carrier_on,
    IR_TX_observe transmitter (delay_us config.start_burst_us),
    IR_TX_observe transmitter carrier_off,
    IR_TX_observe transmitter (delay_us config.start_space_us)]
   ++ IR_transmit_frame_bits_observed transmitter config.bit_count 0
   ++ (if config.stop_burst_us > 0 then
        [IR_TX_observe transmitter carrier_on,
         IR_TX_observe transmitter (delay_us config.stop_burst_us),
         IR_TX_observe transmitter carrier_off]
       else []))

/-- `IR_transmitter_send_raw` with the flag observed. -/
def IR_transmitter_send_raw_observed (transmitter : IR_Transmitter_t) (raw_data : Nat) :
    Nat × IR_Transmitter_t × List (IR_TX_HAL_Call × Nat) :=
  if transmitter.is_transmitting ≠ 0 then (IR_ERROR, transmitter, [])
  else
    let t1 := { transmitter with
      data_to_send := raw_data
      current_bit := 0
      is_transmitting := 1
      repeat_counter := 0 }
    let r := IR_transmit_frame_observed t1
    (IR_SUCCESS, r.1, r.2)

/-- `IR_transmitter_send_repeat` with the flag observed: `is_transmitting = 1`
precedes the seven HAL calls and `is_transmitting = 0` follows them. -/
def IR_transmitter_send_repeat_observed (transmitter : IR_Transmitter_t) :
    Nat × IR_Transmitter_t × List (IR_TX_HAL_Call × Nat) :=
  if transmitter.is_transmitting ≠ 0 then (IR_ERROR, transmitter, [])
  else
    let config := transmitter.protocol_config
    if config.repeat_space_us = 0 then (IR_ERROR, transmitter, [])
    else
      let t1 := { transmitter with is_transmitting := 1 }
      (IR_SUCCESS, { t1 with is_transmitting := 0 },
       [IR_TX_observe t1 carrier_on,
        IR_TX_observe t1 (delay_us config.start_burst_us),
        IR_TX_observe t1 carrier_off,
        IR_TX_observe t1 (delay_us config.repeat_space_us),
        IR_TX_observe t1 carrier_on,
        IR_TX_observe t1 (delay_us config.stop_burst_us),
        IR_TX_observe t1 carrier_off])

/-- A call of the transmit API. -/
inductive IR_TX_Op where
  | send (address command : Nat)
  | send_raw (raw_data : Nat)
  | send_repeat
  | stop
  deriving DecidableEq, Repr

/-- The transmitter after one API call has returned. -/
def IR_transmitter_apply (transmitter : IR_Transmitter_t) : IR_TX_Op → IR_Transmitter_t
  | IR_TX_Op.send address command => (IR_transmitter_send transmitter address command).2.1
  | IR_TX_Op.send_raw raw_data => (IR_transmitter_send_raw transmitter raw_data).2.1
  | IR_TX_Op.send_repeat => (IR_transmitter_send_repeat transmitter).2.1
  | IR_TX_Op.stop => (IR_transmitter_stop transmitter).1

/-- The transmitter after a sequence of API calls, first call first. -/
def IR_transmitter_run (transmitter : IR_Transmitter_t) : List IR_TX_Op → IR_Transmitter_t
  | [] => transmitter
  | op :: ops => IR_transmitter_run (IR_transmitter_apply transmitter op) ops

/-- A busy NEC transmitter. -/
def sample_busy_transmitter : IR_Transmitter_t :=
  { state := IR_TX_STATE_IDLE, protocol_type := IR_PROTOCOL_NEC,
    protocol_config := IR_get_nec_tx_config,
    data_to_send := 0x1234, current_bit := 0, repeat_counter := 0, is_transmitting := 1 }

/-- An NEC decoder that has seen the rising edge of a leader burst. -/
def sample_decoder_in_init : IR_Decoder_t :=
  { IR_decoder_init IR_PROTOCOL_NEC sample_hal with state := IR_STATE_INIT }

/-- An NEC decoder in the data phase with 31 bits stored. -/
def sample_decoder_in_data : IR_Decoder_t :=
  { IR_decoder_init IR_PROTOCOL_NEC sample_hal with
    state := IR_STATE_PROCESS, event := IR_EVENT_DATA, bit_index := 31,
    data_buffer := 0x00FF00FF }

/-! ## Runs of the receive API -/

/-- A call of the receive API: an edge handed to `IR_decoder_process` (with
the tick count the HAL reports), a tick handed to `IR_decoder_timeout_handler`
(with the tick count the HAL reports), `IR_decoder_reset`, or
`IR_decoder_get_data` with the caller's buffer. -/
inductive IR_Decoder_Call where
  | process (count pin_value : Nat)
  | timeout_handler (count : Nat)
  | reset
  | get_data (data : IR_Data_t)
  deriving DecidableEq, Repr

/-- The decoder after one API call. -/
def IR_decoder_apply (decoder : IR_Decoder_t) : IR_Decoder_Call → IR_Decoder_t
  | IR_Decoder_Call.process count pin_value => IR_decoder_process decoder count pin_value
  | IR_Decoder_Call.timeout_handler count => IR_decoder_timeout_handler decoder count
  | IR_Decoder_Call.reset => IR_decoder_reset decoder
  | IR_Decoder_Call.get_data data => (IR_decoder_get_data decoder data).2.1

/-- What one API call hands back to the caller: for `IR_decoder_get_data` the
returned value and the caller's buffer afterwards, nothing for the `void`
functions. -/
def IR_decoder_returned (decoder : IR_Decoder_t) : IR_Decoder_Call → Option (Nat × IR_Data_t)
  | IR_Decoder_Call.get_data data =>
    some ((IR_decoder_get_data decoder data).1, (IR_decoder_get_data decoder data).2.2)
  | _ => none

/-- What can be seen of a run of API calls: after each call, the outer state,
the decoded frame and what the call handed back. -/
def IR_decoder_trace (decoder : IR_Decoder_t) :
    List IR_Decoder_Call → List (IR_State_t × IR_Data_t × Option (Nat × IR_Data_t))
  | [] => []
  | c :: cs =>
    ((IR_decoder_apply decoder c).state, (IR_decoder_apply decoder c).decoded_data,
      IR_decoder_returned decoder c)
    :: IR_decoder_trace (IR_decoder_apply decoder c) cs

/-- Two decoders that agree on everything the receive engine reads outside
`IR_STATE_PROCESS`: outer state, configuration, countdown, decoded frame and
the presence of the tick-count pointer; in `IR_STATE_PROCESS` both
sub-machines are at `IR_EVENT_INIT`. -/
def IR_decoder_agree (d1 d2 : IR_Decoder_t) : Prop :=
  d1.state = d2.state ∧ d1.protocol_config = d2.protocol_config ∧
  d1.timeout_counter = d2.timeout_counter ∧ d1.decoded_data = d2.decoded_data ∧
  d1.hal.timer_get_count = d2.hal.timer_get_count ∧
  (d1.state = IR_STATE_PROCESS → d1.event = IR_EVENT_INIT ∧ d2.event = IR_EVENT_INIT)

/-- The decoder after a sequence of API calls, first call first. -/
def IR_decoder_run_calls (decoder : IR_Decoder_t) : List IR_Decoder_Call → IR_Decoder_t
  | [] => decoder
  | c :: cs => IR_decoder_run_calls (IR_decoder_apply decoder c) cs

/-! ## The carrier line and the delays of a HAL call sequence -/

/-- Where the carrier line stands while a HAL call sequence is read: off, on
with no delay issued yet, or on with its one delay issued. -/
inductive IR_TX_Carrier where
  | off
  | on_before_delay
  | on_after_delay
  deriving DecidableEq, Repr

/-- Reads one HAL call: `carrier_on` is accepted only while the carrier is off,
`carrier_off` only while it is on and has had its delay, `delay_us` while it is
off or on without a delay yet; anything else is rejected (`none`). -/
def IR_TX_carrier_step : IR_TX_Carrier → IR_TX_HAL_Call → Option IR_TX_Carrier
  | IR_TX_Carrier.off, carrier_on => some IR_TX_Carrier.on_before_delay
  | IR_TX_Carrier.off, delay_us _ => some IR_TX_Carrier.off
  | IR_TX_Carrier.on_before_delay, delay_us _ => some IR_TX_Carrier.on_after_delay
  | IR_TX_Carrier.on_after_delay, carrier_off => some IR_TX_Carrier.off
  | _, _ => none

/-- Reads a HAL call sequence from a carrier state; the result is the carrier
state at its end, or `none` when a call is rejected. -/
def IR_TX_carrier_scan : IR_TX_Carrier → List IR_TX_HAL_Call → Option IR_TX_Carrier
  | p, [] => some p
  | p, call :: calls =>
    match IR_TX_carrier_step p call with
    | some q => IR_TX_carrier_scan q calls
    | none => none

/-- The delays of a HAL call sequence added up, in microseconds. -/
def IR_TX_delay_total : List IR_TX_HAL_Call → Nat
  | [] => 0
  | delay_us us :: calls => us + IR_TX_delay_total calls
  | delay_ms ms :: calls => 1000 * ms + IR_TX_delay_total calls
  | _ :: calls => IR_TX_delay_total calls

/-! ## The legacy NEC decoder (`MCU_Usage/ATTiny13_NEC/ir_nec.h`, `ir_nec.c`) -/

/-- `#define IR_PROTO_EVENT_INIT (0)` -/
def IR_PROTO_EVENT_INIT : Nat := 0
/-- `#define IR_PROTO_EVENT_DATA (1)` -/
def IR_PROTO_EVENT_DATA : Nat := 1
/-- `#define IR_PROTO_EVENT_FINISH (2)` -/
def IR_PROTO_EVENT_FINISH : Nat := 2
/-- `#define IR_PROTO_EVENT_HOOK (3)` -/
def IR_PROTO_EVENT_HOOK : Nat := 3

/-- `#define IR_NEC_START_BURST_MIN (655U)` -/
def IR_NEC_START_BURST_MIN : Nat := 655
/-- `#define IR_NEC_START_BURST_MAX (815U)` -/
def IR_NEC_START_BURST_MAX : Nat := 815
/-- `#define IR_NEC_START_SPACE_MIN (330U)` -/
def IR_NEC_START_SPACE_MIN : Nat := 330
/-- `#define IR_NEC_START_SPACE_MAX (360U)` -/
def IR_NEC_START_SPACE_MAX : Nat := 360
/-- `#define IR_NEC_REPEAT_SPACE_MIN (155U)` -/
def IR_NEC_REPEAT_SPACE_MIN : Nat := 155
/-- `#define IR_NEC_REPEAT_SPACE_MAX (185U)` -/
def IR_NEC_REPEAT_SPACE_MAX : Nat := 185
/-- `#define IR_NEC_BIT_NUM_MAX (32U)` -/
def IR_NEC_BIT_NUM_MAX : Nat := 32
/-- `#define IR_NEC_TIMEOUT (7400U)` -/
def IR_NEC_TIMEOUT : Nat := 7400
/-- `#define LOW (0)` -/
def LOW : Nat := 0
/-- `#define HIGH (1)` -/
def HIGH : Nat := 1

/-- `#define isNEC_START_BURST(time)` -/
def isNEC_START_BURST (time : Nat) : Bool :=
  decide (time > IR_NEC_START_BURST_MIN ∧ time < IR_NEC_START_BURST_MAX)
/-- `#define isNEC_START_SPACE(time)` -/
def isNEC_START_SPACE (time : Nat) : Bool :=
  decide (time > IR_NEC_START_SPACE_MIN ∧ time < IR_NEC_START_SPACE_MAX)
/-- `#define isNEC_REPEAT_SPACE(time)` -/
def isNEC_REPEAT_SPACE (time : Nat) : Bool :=
  decide (time > IR_NEC_REPEAT_SPACE_MIN ∧ time < IR_NEC_REPEAT_SPACE_MAX)

/-- The global and file-static variables of `ir_nec.c`. The header's
`IR_State_t` is the enumeration of `ir_decoder.h`. -/
structure IR_NEC_Globals where
  IR_timeout : Nat
  IR_Counter : Nat
  IR_rawdata : Nat
  IR_State : IR_State_t
  IR_proto_event : Nat
  IR_index : Nat
  IR_data : Nat
  deriving DecidableEq, Repr

/-- The initialisers of the variables of `ir_nec.c`. -/
def IR_NEC_initial : IR_NEC_Globals :=
  { IR_timeout := 0, IR_Counter := 0, IR_rawdata := 0, IR_State := IR_STATE_IDLE,
    IR_proto_event := 0, IR_index := 0, IR_data := 0 }

/-- `int8_t IR_NEC_process(uint16_t counter, uint8_t value)`: the returned value
and the variables afterwards. `IR_index` is a `uint8_t`, the shift is taken at
`uint32_t`. -/
def IR_NEC_process (g : IR_NEC_Globals) (counter value : Nat) : Nat × IR_NEC_Globals :=
  if g.IR_proto_event = IR_PROTO_EVENT_INIT then
    (IR_SUCCESS, { g with IR_data := 0, IR_index := 0 })
  else if g.IR_proto_event = IR_PROTO_EVENT_DATA then
    if g.IR_index < IR_NEC_BIT_NUM_MAX then
      if value = HIGH then
        let g1 := { g with
          IR_data := g.IR_data ||| shl32 (if counter < 90 then 0 else 1) g.IR_index
          IR_index := u8 (g.IR_index + 1) }
        if g1.IR_index = IR_NEC_BIT_NUM_MAX then
          (IR_SUCCESS, { g1 with IR_proto_event := IR_PROTO_EVENT_HOOK })
        else (IR_SUCCESS, g1)
      else (IR_SUCCESS, g)
    else (IR_ERROR, g)
  else if g.IR_proto_event = IR_PROTO_EVENT_HOOK then
    if value = LOW then (IR_SUCCESS, { g with IR_proto_event := IR_PROTO_EVENT_FINISH })
    else (IR_ERROR, g)
  else if g.IR_proto_event = IR_PROTO_EVENT_FINISH then
    (IR_ERROR, { g with IR_rawdata := g.IR_data })
  else (IR_ERROR, g)

/-- `void IR_process(uint8_t pinIRValue)`: `IR_Counter` is read into `counter`
and cleared, then the state machine runs. -/
def IR_process (g : IR_NEC_Globals) (pinIRValue : Nat) : IR_NEC_Globals :=
  let counter := g.IR_Counter
  let g0 := { g with IR_Counter := 0 }
  match g0.IR_State with
  | IR_STATE_IDLE =>
    if pinIRValue = HIGH then { g0 with IR_State := IR_STATE_INIT } else g0
  | IR_STATE_INIT =>
    if pinIRValue = LOW then
      let g1 := if ¬ isNEC_START_BURST counter then { g0 with IR_State := IR_STATE_FINISH }
                else g0
      { g1 with IR_timeout := IR_NEC_TIMEOUT }
    else
      if isNEC_START_SPACE counter then
        { g0 with IR_State := IR_STATE_PROCESS, IR_proto_event := IR_PROTO_EVENT_INIT }
      else if isNEC_REPEAT_SPACE counter then
        { g0 with IR_proto_event := IR_PROTO_EVENT_FINISH }
      else
        { g0 with IR_State := IR_STATE_FINISH }
  | IR_STATE_PROCESS =>
    let r := IR_NEC_process g0 counter pinIRValue
    if IR_SUCCESS ≠ r.1 then { r.2 with IR_State := IR_STATE_FINISH } else r.2
  | IR_STATE_FINISH =>
    { g0 with IR_State := IR_STATE_IDLE, IR_timeout := 0 }

/-- The value of an `IR_Event_t` enumerator. -/
def IR_Event_value : IR_Event_t → Nat
  | IR_EVENT_INIT => 0
  | IR_EVENT_DATA => 1
  | IR_EVENT_FINISH => 2
  | IR_EVENT_HOOK => 3

/-- What is compared of the generic decoder: outer state, sub-machine state,
bit index, accumulator and timeout countdown. -/
def IR_decoder_snapshot (d : IR_Decoder_t) : IR_State_t × Nat × Nat × Nat × Nat :=
  (d.state, IR_Event_value d.event, d.bit_index, d.data_buffer, d.timeout_counter)

/-- What is compared of the legacy decoder. -/
def IR_NEC_snapshot (g : IR_NEC_Globals) : IR_State_t × Nat × Nat × Nat × Nat :=
  (g.IR_State, g.IR_proto_event, g.IR_index, g.IR_data, g.IR_timeout)

/-- The snapshots of the generic decoder after each edge `(ticks, level)`. -/
def IR_decoder_run_snapshots (d : IR_Decoder_t) :
    List (Nat × Nat) → List (IR_State_t × Nat × Nat × Nat × Nat)
  | [] => []
  | e :: es =>
    IR_decoder_snapshot (IR_decoder_process d e.1 e.2)
    :: IR_decoder_run_snapshots (IR_decoder_process d e.1 e.2) es

/-- The snapshots of the legacy decoder after each edge `(ticks, level)`: the
tick interrupt has brought `IR_Counter` to the elapsed ticks when the edge
interrupt calls `IR_process`. -/
def IR_NEC_run_snapshots (g : IR_NEC_Globals) :
    List (Nat × Nat) → List (IR_State_t × Nat × Nat × Nat × Nat)
  | [] => []
  | e :: es =>
    IR_NEC_snapshot (IR_process { g with IR_Counter := e.1 } e.2)
    :: IR_NEC_run_snapshots (IR_process { g with IR_Counter := e.1 } e.2) es

/-! ## Counting the 1 bits of a word -/

/-- The number of bits that are 1 among the `n` bits of `w` from bit `i` on. -/
def IR_count_one_bits (w : Nat) : Nat → Nat → Nat
  | 0, _ => 0
  | n + 1, i => (if (w >>> i) &&& 1 ≠ 0 then 1 else 0) + IR_count_one_bits w n (i + 1)

/-! ## Width of the raw word -/

/-- The number of bits of `uint32_t`, the type of `raw_data`, `data_buffer` and
`data_to_send`; C defines `x << k` and `x >> k` on it only for `k` below this
width. -/
def uint32_bits : Nat := 32

/-! ## Arithmetic of masks and shifts -/

theorem and_ff (x : Nat) : x &&& 0xFF = x % 256 := Nat.and_pow_two_sub_one_eq_mod x 8

theorem and_1f (x : Nat) : x &&& 0x1F = x % 32 := Nat.and_pow_two_sub_one_eq_mod x 5

theorem and_3f (x : Nat) : x &&& 0x3F = x % 64 := Nat.and_pow_two_sub_one_eq_mod x 6

theorem and_7f (x : Nat) : x &&& 0x7F = x % 128 := Nat.and_pow_two_sub_one_eq_mod x 7

theorem and_3ff (x : Nat) : x &&& 0x3FF = x % 1024 := Nat.and_pow_two_sub_one_eq_mod x 10

/-- The low byte of a 32-bit complement is the 8-bit complement. -/
theorem not32_and_ff (x : Nat) (h : x < 256) : not32 x &&& 0xFF = 255 - x := by
  rw [and_ff]; unfold not32; omega

/-- OR with a value shifted past all the bits of `x` is addition. -/
theorem or_mul_two_pow (x y k : Nat) (h : x < 2 ^ k) : x ||| (y * 2 ^ k) = x + y * 2 ^ k := by
  rw [Nat.or_comm, Nat.mul_comm y, ← Nat.mul_add_lt_is_or h, Nat.add_comm]

theorem shl32_eq (x k : Nat) (h : x * 2 ^ k < 2 ^ 32) : shl32 x k = x * 2 ^ k := by
  unfold shl32 u32
  rw [Nat.shiftLeft_eq, Nat.mod_eq_of_lt h]

/-- Shifting the promoted complement by 24 leaves only its low byte, the
8-bit complement, in bits 24-31. -/
theorem shl32_not_promoted_24 (c : Nat) (hc : c < 256) :
    shl32 (not_promoted c) 24 = (255 - c) * 2 ^ 24 := by
  unfold shl32 u32 not_promoted; rw [Nat.shiftLeft_eq]; omega

/-- Shifting the promoted complement by 8 leaves the 8-bit complement in bits
8-15 and ones in all of bits 16-31. -/
theorem shl32_not_promoted_8 (a : Nat) (ha : a < 256) :
    shl32 (not_promoted a) 8 = ((255 - a) <<< 8) ||| 0xFFFF0000 := by
  have key : ∀ x < 256, shl32 (not_promoted x) 8 = ((255 - x) <<< 8) ||| 0xFFFF0000 := by
    decide!
  exact key a ha

theorem ffff0000_or_shl32_16 (c : Nat) (hc : c < 256) :
    0xFFFF0000 ||| shl32 c 16 = 0xFFFF0000 := by
  have key : ∀ x < 256, 0xFFFF0000 ||| shl32 x 16 = 0xFFFF0000 := by decide!
  exact key c hc

theorem ffff0000_or_shl32_not_24 (c : Nat) (hc : c < 256) :
    0xFFFF0000 ||| shl32 (not_promoted c) 24 = 0xFFFF0000 := by
  have key : ∀ x < 256, 0xFFFF0000 ||| shl32 (not_promoted x) 24 = 0xFFFF0000 := by decide!
  exact key c hc

/-! ## Registry: what the encoders produce and the decoders read back -/

/-- The word `IR_encode_nec_data` produces: the address, its 8-bit complement
in bits 8-15, and ones in all of bits 16-31 whatever the command is. -/
theorem IR_encode_nec_data_eq (a c : Nat) (ha : a < 256) (hc : c < 256) :
    IR_encode_nec_data a c = a ||| ((255 - a) <<< 8) ||| 0xFFFF0000 := by
  unfold IR_encode_nec_data
  rw [shl32_not_promoted_8 a ha]
  simp only [Nat.or_assoc]
  rw [← Nat.or_assoc 0xFFFF0000, ffff0000_or_shl32_16 c hc, ffff0000_or_shl32_not_24 c hc]

/-- Decoding an encoded NEC word returns the address and the command 0xFF. -/
theorem IR_decode_nec_encode (a c : Nat) (ha : a < 256) (hc : c < 256) :
    IR_decode_nec_data (IR_encode_nec_data a c) = (a, 0xFF) := by
  have key : ∀ x < 256,
      IR_decode_nec_data (x ||| ((255 - x) <<< 8) ||| 0xFFFF0000) = (x, 0xFF) := by decide!
  rw [IR_encode_nec_data_eq a c ha hc]
  exact key a ha

theorem IR_decode_samsung_encode (a c : Nat) (ha : a < 256) (hc : c < 256) :
    IR_decode_samsung_data (IR_encode_samsung_data a c) = (a, c) := by
  unfold IR_encode_samsung_data
  rw [shl32_eq a 8 (by omega), shl32_eq c 16 (by omega), shl32_not_promoted_24 c hc,
    or_mul_two_pow a a 8 (by omega), or_mul_two_pow _ c 16 (by omega),
    or_mul_two_pow _ _ 24 (by omega)]
  simp only [IR_decode_samsung_data, u8, and_ff, Nat.shiftRight_eq_div_pow, Nat.reducePow]
  have hq : (a + a * 256 + c * 65536 + (255 - c) * 16777216) / 65536 = c + (255 - c) * 256 := by
    omega
  rw [hq]
  ext <;> simp only <;> omega

theorem IR_decode_sony_encode (a c : Nat) (ha : a < 32) (hc : c < 128) :
    IR_decode_sony_data (IR_encode_sony_data a c) = (a, c) := by
  unfold IR_encode_sony_data
  rw [shl32_eq a 7 (by omega), or_mul_two_pow c a 7 (by omega)]
  simp only [IR_decode_sony_data, u8, and_1f, and_7f, Nat.shiftRight_eq_div_pow, Nat.reducePow]
  ext <;> simp only <;> omega

theorem IR_decode_rc5_encode (a c : Nat) (ha : a < 32) (hc : c < 64) :
    IR_decode_rc5_data (IR_encode_rc5_data a c) = (a, c) := by
  unfold IR_encode_rc5_data
  rw [shl32_eq a 6 (by omega), Nat.or_comm _ c, or_mul_two_pow c a 6 (by omega),
    show (0x3000 : Nat) = 3 * 2 ^ 12 from rfl, or_mul_two_pow _ 3 12 (by omega)]
  simp only [IR_decode_rc5_data, u8, and_1f, and_3f, Nat.shiftRight_eq_div_pow, Nat.reducePow]
  ext <;> simp only <;> omega

theorem IR_decode_jvc_encode (a c : Nat) (ha : a < 256) (hc : c < 256) :
    IR_decode_jvc_data (IR_encode_jvc_data a c) = (a, c) := by
  unfold IR_encode_jvc_data
  rw [shl32_eq c 8 (by omega), or_mul_two_pow a c 8 (by omega)]
  simp only [IR_decode_jvc_data, u8, and_ff, Nat.shiftRight_eq_div_pow, Nat.reducePow]
  ext <;> simp only <;> omega

theorem IR_decode_denon_encode (a c : Nat) (ha : a < 32) (hc : c < 256) :
    IR_decode_denon_data (IR_encode_denon_data a c) = (a, c) := by
  unfold IR_encode_denon_data
  rw [shl32_eq c 5 (by omega), or_mul_two_pow a c 5 (by omega)]
  simp only [IR_decode_denon_data, u8, and_1f, and_3ff, Nat.shiftRight_eq_div_pow,
    Nat.reducePow]
  ext <;> simp only <;> omega

theorem IR_decode_rc6_encode (a c : Nat) (ha : a < 256) (hc : c < 256) :
    IR_decode_rc6_data (IR_encode_rc6_data a c) = (a, c) := by
  unfold IR_encode_rc6_data
  rw [shl32_eq a 8 (by omega), Nat.or_comm _ c, Nat.or_comm 0x100000,
    show (0x100000 : Nat) = 1 * 2 ^ 20 from rfl, or_mul_two_pow _ 1 20 (by omega),
    show a * 2 ^ 8 + 1 * 2 ^ 20 = (a + 4096) * 2 ^ 8 by omega,
    or_mul_two_pow c _ 8 (by omega)]
  simp only [IR_decode_rc6_data, u8, and_ff, Nat.shiftRight_eq_div_pow, Nat.reducePow]
  ext <;> simp only <;> omega

theorem IR_decode_lg_encode (a c : Nat) (ha : a < 256) (hc : c < 256) :
    IR_decode_lg_data (IR_encode_lg_data a c) = (a, c) := by
  unfold IR_encode_lg_data
  generalize IR_calculate_checksum (a ||| shl32 c 8) = k
  have hk : shl32 k 16 = (k % 2 ^ 16) * 2 ^ 16 := by
    unfold shl32 u32; rw [Nat.shiftLeft_eq]; omega
  rw [hk, shl32_eq c 8 (by omega), or_mul_two_pow a c 8 (by omega),
    or_mul_two_pow _ _ 16 (by omega)]
  simp only [IR_decode_lg_data, u8, and_ff, Nat.shiftRight_eq_div_pow, Nat.reducePow]
  ext <;> simp only <;> omega

/-- C1: decoding an encoded word does not give back (address, command) for NEC
and for Panasonic. `IR_encode_nec_data(0x01, 0x00)` decodes to address 0x01,
command 0xFF, and `IR_encode_panasonic_data(0x00, 0x00)` decodes to address
0x01, command 0x04. -/
theorem C1_roundtrip_nec_panasonic_values :
    IR_decode_nec_data (IR_encode_nec_data 0x01 0x00) = (0x01, 0xFF) ∧
    IR_decode_panasonic_data (IR_encode_panasonic_data 0x00 0x00) = (0x01, 0x04) := by
  decide

/-- C4: `IR_encode_nec_data(0x01, 0x00)` is 0xFFFFFE01: `~address` is taken
on the promoted `int`, so bits 16-23 are ones too. The word the formula with
8-bit complements gives, 0xFF00FE01, is a different one. -/
theorem C4_encode_nec_value :
    IR_encode_nec_data 0x01 0x00 = 0xFFFFFE01 ∧
    (0x01 ||| ((255 - 0x01) <<< 8) ||| (0x00 <<< 16) ||| ((255 - 0x00) <<< 24) : Nat)
      = 0xFF00FE01 ∧
    IR_encode_nec_data 0x01 0x00 ≠ 0xFF00FE01 := by
  decide

/-- C5: `IR_validate_protocol_data` is nonzero for NEC exactly when byte 1 of
the word is the 8-bit complement of byte 0 and byte 3 the 8-bit complement of
byte 2; for Samsung exactly when byte 3 is the 8-bit complement of byte 2; and
it is 1 for every other protocol id. -/
theorem C5_validate_protocol_data (raw : Nat) :
    (IR_validate_protocol_data IR_PROTOCOL_NEC raw ≠ 0 ↔
      ((raw / 2 ^ 8) % 256 = 255 - raw % 256 ∧
       (raw / 2 ^ 24) % 256 = 255 - (raw / 2 ^ 16) % 256)) ∧
    (IR_validate_protocol_data IR_PROTOCOL_SAMSUNG raw ≠ 0 ↔
      (raw / 2 ^ 24) % 256 = 255 - (raw / 2 ^ 16) % 256) ∧
    (∀ protocol, protocol ≠ IR_PROTOCOL_NEC → protocol ≠ IR_PROTOCOL_SAMSUNG →
      IR_validate_protocol_data protocol raw = 1) := by
  have h1 := not32_and_ff ((raw >>> 8) &&& 0xFF) (by rw [and_ff]; omega)
  have h2 := not32_and_ff ((raw >>> 24) &&& 0xFF) (by rw [and_ff]; omega)
  simp only [and_ff, Nat.shiftRight_eq_div_pow] at h1 h2
  refine ⟨?_, ?_, ?_⟩
  · simp only [IR_validate_protocol_data, if_true, and_ff, Nat.shiftRight_eq_div_pow, h1, h2]
    split <;> simp <;> omega
  · have hne : IR_PROTOCOL_SAMSUNG ≠ IR_PROTOCOL_NEC := by decide
    simp only [IR_validate_protocol_data, if_neg hne, if_true, and_ff,
      Nat.shiftRight_eq_div_pow, h2]
    split <;> simp <;> omega
  · intro p hp hs
    simp [IR_validate_protocol_data, hp, hs]

/-- The word 0xFF00FE01 is accepted for NEC, and any word is accepted for Sony. -/
theorem C5_validate_protocol_data_witness :
    IR_validate_protocol_data IR_PROTOCOL_NEC 0xFF00FE01 ≠ 0 ∧
    IR_validate_protocol_data IR_PROTOCOL_SONY 0xFF00FE01 = 1 :=
  ⟨(C5_validate_protocol_data 0xFF00FE01).1.mpr (by decide),
   (C5_validate_protocol_data 0xFF00FE01).2.2 IR_PROTOCOL_SONY (by decide) (by decide)⟩

/-- C6: `IR_validate_protocol_data` rejects, for NEC, every word that
`IR_encode_nec_data` produces: bytes 2 and 3 of an encoded word are both 0xFF,
so the command/complement pair never matches. -/
theorem C6_validate_rejects_encoded_nec (a c : Nat) (ha : a < 256) (hc : c < 256) :
    IR_validate_protocol_data IR_PROTOCOL_NEC (IR_encode_nec_data a c) = 0 := by
  have key : ∀ x < 256,
      IR_validate_protocol_data IR_PROTOCOL_NEC (x ||| ((255 - x) <<< 8) ||| 0xFFFF0000) = 0 := by
    decide!
  rw [IR_encode_nec_data_eq a c ha hc]
  exact key a ha

/-- The word encoded for address 0x01, command 0x00 is rejected. -/
theorem C6_validate_rejects_encoded_nec_witness :
    IR_validate_protocol_data IR_PROTOCOL_NEC (IR_encode_nec_data 0x01 0x00) = 0 :=
  C6_validate_rejects_encoded_nec 0x01 0x00 (by decide) (by decide)

/-! ## Transmit engine: the frame -/

/-- The data-bit loop issues, for each index from `i` on in increasing order,
burst on, burst delay, burst off and the space of that bit of the word. -/
theorem IR_transmit_frame_bits_eq (config : IR_TX_Protocol_Config_t) (w : Nat) (n : Nat) :
    ∀ i : Nat, IR_transmit_frame_bits config w n i =
      (List.range n).flatMap (fun j =>
        [carrier_on, delay_us config.bit_burst_us, carrier_off,
         delay_us (if (w / 2 ^ (i + j)) % 2 = 1 then config.bit_1_space_us
                   else config.bit_0_space_us)]) := by
  induction n with
  | zero => intro i; simp [IR_transmit_frame_bits]
  | succ n ih =>
    intro i
    have hbit : ((w >>> i) &&& 1 ≠ 0) ↔ (w / 2 ^ i) % 2 = 1 := by
      rw [Nat.and_one_is_mod, Nat.shiftRight_eq_div_pow]; omega
    rw [List.range_succ_eq_map, List.flatMap_cons, List.flatMap_map,
      IR_transmit_frame_bits, ih (i + 1)]
    simp only [Nat.add_zero, Function.comp, hbit]
    congr 2
    · split_ifs <;> rfl
    · funext j
      rw [show i + 1 + j = i + (j + 1) by omega]

/-- C3: on an idle transmitter whose configuration has at most 32 data bits,
`IR_transmitter_send_raw` returns `IR_SUCCESS` and issues exactly: the start
burst (on, delay, off) and start space; for each bit index 0, 1, ...,
bit_count-1 in increasing order a bit burst (on, delay, off) and the one-space
when that bit of the word is 1, the zero-space otherwise; and the stop burst
(on, delay, off) only when `stop_burst_us > 0`. -/
theorem C3_send_raw_hal_calls (transmitter : IR_Transmitter_t) (w : Nat)
    (hidle : transmitter.is_transmitting = 0)
    (_hbits : transmitter.protocol_config.bit_count ≤ 32) (_hw : w < 2 ^ 32) :
    (IR_transmitter_send_raw transmitter w).1 = IR_SUCCESS ∧
    (IR_transmitter_send_raw transmitter w).2.2 =
      [carrier_on, delay_us transmitter.protocol_config.start_burst_us,
       carrier_off, delay_us transmitter.protocol_config.start_space_us]
      ++ (List.range transmitter.protocol_config.bit_count).flatMap (fun i =>
        [carrier_on, delay_us transmitter.protocol_config.bit_burst_us, carrier_off,
         delay_us (if (w / 2 ^ i) % 2 = 1 then transmitter.protocol_config.bit_1_space_us
                   else transmitter.protocol_config.bit_0_space_us)])
      ++ (if transmitter.protocol_config.stop_burst_us > 0 then
            [carrier_on, delay_us transmitter.protocol_config.stop_burst_us, carrier_off]
          else []) := by
  unfold IR_transmitter_send_raw
  simp only [hidle, ne_eq, not_true_eq_false, if_false, IR_transmit_frame, true_and]
  rw [IR_transmit_frame_bits_eq]
  simp only [Nat.zero_add]

/-- Sending the word 0b10 as a two-bit frame with the Denon timing: bit 0 (a 0)
goes out first, then bit 1 (a 1), then the stop burst. -/
theorem C3_send_raw_hal_calls_witness :
    (IR_transmitter_send_raw sample_transmitter 0x2).2.2 =
      [carrier_on, delay_us 275, carrier_off, delay_us 775,
       carrier_on, delay_us 275, carrier_off, delay_us 775,
       carrier_on, delay_us 275, carrier_off, delay_us 1900,
       carrier_on, delay_us 275, carrier_off] :=
  (C3_send_raw_hal_calls sample_transmitter 0x2 (by decide) (by decide) (by decide)).2.trans
    (by decide)

/-! ## Receive engine -/

/-- Without a valid frame `IR_decoder_get_data` fails and changes nothing. -/
theorem IR_decoder_get_data_invalid (d : IR_Decoder_t) (data : IR_Data_t)
    (h : d.decoded_data.valid = 0) :
    IR_decoder_get_data d data = (IR_ERROR, d, data) := by
  simp [IR_decoder_get_data, h]

/-- At `IR_EVENT_INIT` the sub-machine clears the bit index and the accumulator,
reports success and stays at `IR_EVENT_INIT`. -/
theorem IR_process_protocol_data_init (d : IR_Decoder_t) (counter value : Nat)
    (h : d.event = IR_EVENT_INIT) :
    IR_process_protocol_data d counter value =
      (IR_SUCCESS, { d with data_buffer := 0, bit_index := 0 }) := by
  simp [IR_process_protocol_data, h]

theorem IR_decoder_init_never_decodes (protocol : Nat) (hal : IR_HAL_t) :
    IR_decoder_never_decodes (IR_decoder_init protocol hal) := by
  simp [IR_decoder_never_decodes, IR_decoder_init]

/-- One edge keeps the invariant: in `IR_STATE_PROCESS` the sub-machine is at
`IR_EVENT_INIT`, which never advances to `IR_EVENT_DATA`; the repeat branch
sets `IR_EVENT_FINISH` but leaves the outer state at `IR_STATE_INIT`. -/
theorem IR_decoder_process_never_decodes (d : IR_Decoder_t) (count pin_value : Nat)
    (h : IR_decoder_never_decodes d) :
    IR_decoder_never_decodes (IR_decoder_process d count pin_value) := by
  obtain ⟨hv, hb, hd, he⟩ := h
  unfold IR_decoder_process
  simp only []
  generalize (if d.hal.timer_get_count = true then count else 0) = counter
  cases hs : d.state with
  | IR_STATE_IDLE =>
    simp only [IR_decoder_never_decodes]
    split_ifs <;> simp_all
  | IR_STATE_INIT =>
    simp only [IR_decoder_never_decodes]
    split_ifs <;> simp_all
  | IR_STATE_FINISH =>
    simp only [IR_decoder_never_decodes]
    simp_all
  | IR_STATE_PROCESS =>
    rcases he with he | ⟨_, hne⟩
    · rw [IR_process_protocol_data_init d counter pin_value he]
      simp_all [IR_decoder_never_decodes, IR_SUCCESS]
    · exact absurd hs hne

theorem IR_decoder_run_never_decodes (edges : List (Nat × Nat)) :
    ∀ d : IR_Decoder_t, IR_decoder_never_decodes d →
      IR_decoder_never_decodes (IR_decoder_run d edges) := by
  induction edges with
  | nil => intro d h; exact h
  | cons e es ih =>
    intro d h
    exact ih _ (IR_decoder_process_never_decodes d e.1 e.2 h)

/-- C2: from a decoder freshly initialised by `IR_decoder_init`, for any
protocol and HAL, no sequence of edges fed to `IR_decoder_process`, a
well-formed frame included, leaves `decoded_data` valid: the flag is 0 after
every run and `IR_decoder_get_data` returns `IR_ERROR`. -/
theorem C2_no_edge_sequence_yields_a_frame (protocol : Nat) (hal : IR_HAL_t)
    (edges : List (Nat × Nat)) (data : IR_Data_t) :
    (IR_decoder_run (IR_decoder_init protocol hal) edges).decoded_data.valid = 0 ∧
    (IR_decoder_get_data (IR_decoder_run (IR_decoder_init protocol hal) edges) data).1
      = IR_ERROR := by
  have h := IR_decoder_run_never_decodes edges _ (IR_decoder_init_never_decodes protocol hal)
  refine ⟨h.1, ?_⟩
  rw [IR_decoder_get_data_invalid _ data h.1]

/-- C7: `IR_decoder_get_data` returns `IR_SUCCESS` exactly when the valid flag
was nonzero. On success the caller receives the stored frame and the decoder
changes only in that the flag is cleared, so a second call returns `IR_ERROR`
and changes nothing. On `IR_ERROR` neither the decoder nor the caller's buffer
changes. -/
theorem C7_get_data_reads_once (decoder : IR_Decoder_t) (data : IR_Data_t) :
    ((IR_decoder_get_data decoder data).1 = IR_SUCCESS ↔ decoder.decoded_data.valid ≠ 0) ∧
    (decoder.decoded_data.valid ≠ 0 →
      (IR_decoder_get_data decoder data).2.2 = decoder.decoded_data ∧
      (IR_decoder_get_data decoder data).2.1 =
        { decoder with decoded_data := { decoder.decoded_data with valid := 0 } } ∧
      ∀ data2 : IR_Data_t,
        IR_decoder_get_data (IR_decoder_get_data decoder data).2.1 data2 =
          (IR_ERROR, (IR_decoder_get_data decoder data).2.1, data2)) ∧
    (decoder.decoded_data.valid = 0 →
      IR_decoder_get_data decoder data = (IR_ERROR, decoder, data)) := by
  unfold IR_decoder_get_data
  by_cases h : decoder.decoded_data.valid = 0
  · simp [h, IR_SUCCESS, IR_ERROR]
  · simp [h, IR_SUCCESS, IR_ERROR]

/-- A decoder holding the sample frame hands it to the caller, overwriting what
the caller's buffer held. -/
theorem C7_get_data_reads_once_witness :
    (IR_decoder_get_data
       { IR_decoder_init IR_PROTOCOL_NEC sample_hal with decoded_data := sample_frame }
       { sample_frame with valid := 0, address := 9 }).2.2 = sample_frame :=
  ((C7_get_data_reads_once
       { IR_decoder_init IR_PROTOCOL_NEC sample_hal with decoded_data := sample_frame }
       { sample_frame with valid := 0, address := 9 }).2.1 (by decide)).1

/-- C8: for NEC, Samsung and LG, a rising edge, a falling edge with ticks inside
the start-burst window and a rising edge with ticks inside the repeat-space
window leave the decoder in `IR_STATE_INIT` with the sub-machine at
`IR_EVENT_FINISH` and nothing else changed but the armed timeout: no frame is
completed, and `IR_decoder_get_data` returns `IR_ERROR` then and after any
further edges. -/
theorem C8_repeat_space_completes_no_frame (protocol : Nat)
    (hP : protocol = IR_PROTOCOL_NEC ∨ protocol = IR_PROTOCOL_SAMSUNG ∨
          protocol = IR_PROTOCOL_LG)
    (hal : IR_HAL_t) (hhal : hal.timer_get_count = true) (t0 t1 t2 : Nat)
    (h1 : (IR_decoder_config protocol).start_burst_min < t1 ∧
          t1 < (IR_decoder_config protocol).start_burst_max)
    (h2 : (IR_decoder_config protocol).repeat_space_min < t2 ∧
          t2 < (IR_decoder_config protocol).repeat_space_max)
    (data : IR_Data_t) (more : List (Nat × Nat)) :
    IR_decoder_run (IR_decoder_init protocol hal)
        [(t0, IR_HIGH), (t1, IR_LOW), (t2, IR_HIGH)] =
      { IR_decoder_init protocol hal with
        state := IR_STATE_INIT, event := IR_EVENT_FINISH,
        timeout_counter := (IR_decoder_config protocol).timeout } ∧
    (IR_decoder_get_data (IR_decoder_run (IR_decoder_init protocol hal)
      ([(t0, IR_HIGH), (t1, IR_LOW), (t2, IR_HIGH)] ++ more)) data).1 = IR_ERROR := by
  constructor
  · rcases hP with h | h | h <;> subst h <;>
      simp [IR_decoder_config, IR_PROTOCOL_NEC, IR_PROTOCOL_SAMSUNG, IR_PROTOCOL_LG,
        IR_PROTOCOL_RC5, IR_PROTOCOL_SONY, IR_PROTOCOL_RC6, IR_get_nec_config,
        IR_get_samsung_config, IR_get_lg_config] at h1 h2 <;>
      simp [IR_decoder_run, IR_decoder_process, IR_decoder_init, IR_decoder_config, hhal,
        IR_PROTOCOL_NEC, IR_PROTOCOL_SAMSUNG, IR_PROTOCOL_LG,
        IR_PROTOCOL_RC5, IR_PROTOCOL_SONY, IR_PROTOCOL_RC6, IR_get_nec_config,
        IR_get_samsung_config, IR_get_lg_config, IR_HIGH, IR_LOW, h1, h2] <;> omega
  · have h := IR_decoder_run_never_decodes
      ([(t0, IR_HIGH), (t1, IR_LOW), (t2, IR_HIGH)] ++ more)
      _ (IR_decoder_init_never_decodes protocol hal)
    rw [IR_decoder_get_data_invalid _ data h.1]

/-- An NEC leader burst of 700 ticks followed by a repeat space of 170 ticks:
`IR_decoder_get_data` finds no frame. -/
theorem C8_repeat_space_completes_no_frame_witness :
    (IR_decoder_get_data (IR_decoder_run (IR_decoder_init IR_PROTOCOL_NEC sample_hal)
      ([(0, IR_HIGH), (700, IR_LOW), (170, IR_HIGH)] ++ [])) sample_frame).1 = IR_ERROR :=
  (C8_repeat_space_completes_no_frame IR_PROTOCOL_NEC (Or.inl rfl) sample_hal rfl 0 700 170
    (by decide) (by decide) sample_frame []).2

/-- C10, as stated, fails: on an NEC decoder with the sub-machine at
`IR_EVENT_FINISH`, bit index 0 and accumulator 0, `IR_process_protocol_data`
sets `valid` to 1 although the bit index is not `bit_count` (32) and
`IR_validate_protocol_data` rejects the committed word. -/
theorem C10_valid_set_for_partial_unvalidated_word :
    (IR_process_protocol_data
      { IR_decoder_init IR_PROTOCOL_NEC sample_hal with event := IR_EVENT_FINISH }
      0 IR_LOW).2.decoded_data.valid = 1 ∧
    (IR_process_protocol_data
      { IR_decoder_init IR_PROTOCOL_NEC sample_hal with event := IR_EVENT_FINISH }
      0 IR_LOW).2.bit_index ≠
    (IR_process_protocol_data
      { IR_decoder_init IR_PROTOCOL_NEC sample_hal with event := IR_EVENT_FINISH }
      0 IR_LOW).2.protocol_config.bit_count ∧
    IR_validate_protocol_data IR_PROTOCOL_NEC
      (IR_process_protocol_data
        { IR_decoder_init IR_PROTOCOL_NEC sample_hal with event := IR_EVENT_FINISH }
        0 IR_LOW).2.decoded_data.raw_data = 0 := by
  decide

/-- C10, amended: `IR_process_protocol_data` changes `decoded_data` only when
entered at `IR_EVENT_FINISH`, and there it sets `valid` and commits the
accumulator unconditionally, leaving the bit index as it is. The sub-machine
itself reaches `IR_EVENT_HOOK` only with the bit index equal to `bit_count`,
and from `IR_EVENT_HOOK` it keeps the bit index and stays or moves to
`IR_EVENT_FINISH`. -/
theorem C10_valid_set_exactly_at_finish (decoder : IR_Decoder_t) (counter value : Nat) :
    (decoder.event = IR_EVENT_FINISH →
      (IR_process_protocol_data decoder counter value).2.decoded_data.valid = 1 ∧
      (IR_process_protocol_data decoder counter value).2.decoded_data.raw_data
        = decoder.data_buffer ∧
      (IR_process_protocol_data decoder counter value).2.bit_index = decoder.bit_index) ∧
    (decoder.event ≠ IR_EVENT_FINISH →
      (IR_process_protocol_data decoder counter value).2.decoded_data = decoder.decoded_data) ∧
    (decoder.event ≠ IR_EVENT_HOOK →
      (IR_process_protocol_data decoder counter value).2.event = IR_EVENT_HOOK →
      (IR_process_protocol_data decoder counter value).2.bit_index
        = decoder.protocol_config.bit_count) ∧
    (decoder.event = IR_EVENT_HOOK →
      (IR_process_protocol_data decoder counter value).2.bit_index = decoder.bit_index ∧
      ((IR_process_protocol_data decoder counter value).2.event = IR_EVENT_HOOK ∨
       (IR_process_protocol_data decoder counter value).2.event = IR_EVENT_FINISH)) := by
  unfold IR_process_protocol_data
  cases he : decoder.event <;> simp <;> split_ifs <;> simp_all

/-- An NEC decoder at `IR_EVENT_DATA` with 31 bits stored takes the last bit
on a rising edge and moves to `IR_EVENT_HOOK` with bit index 32. -/
theorem C10_valid_set_exactly_at_finish_witness :
    (IR_process_protocol_data
      { IR_decoder_init IR_PROTOCOL_NEC sample_hal with event := IR_EVENT_DATA, bit_index := 31 }
      100 IR_HIGH).2.bit_index = 32 :=
  (C10_valid_set_exactly_at_finish
    { IR_decoder_init IR_PROTOCOL_NEC sample_hal with event := IR_EVENT_DATA, bit_index := 31 }
    100 IR_HIGH).2.2.1 (by decide) (by decide)

/-! ## Receive engine: the timeout countdown -/

/-- One timeout tick with the tick count at or below the ceiling: the countdown
goes down by one when nonzero, the state becomes `IR_STATE_IDLE` exactly when
the countdown reaches 0, and nothing else changes. -/
theorem IR_decoder_timeout_handler_step (d : IR_Decoder_t) (c : Nat) (hc : c ≤ 10000) :
    (IR_decoder_timeout_handler d c).timeout_counter = d.timeout_counter - 1 ∧
    (1 < d.timeout_counter → (IR_decoder_timeout_handler d c).state = d.state) ∧
    (d.timeout_counter = 1 → (IR_decoder_timeout_handler d c).state = IR_STATE_IDLE) ∧
    (d.timeout_counter = 0 → IR_decoder_timeout_handler d c = d) := by
  have hn : ¬ (d.hal.timer_get_count = true ∧ c > 10000) := by omega
  unfold IR_decoder_timeout_handler
  simp only [hn, if_false]
  split_ifs <;> simp_all <;> omega

/-- The timeout handler never writes `decoded_data`. -/
theorem IR_decoder_timeout_handler_decoded_data (d : IR_Decoder_t) (c : Nat) :
    (IR_decoder_timeout_handler d c).decoded_data = d.decoded_data := by
  unfold IR_decoder_timeout_handler
  simp only []
  split_ifs <;> rfl

/-- No run of the timeout handler writes `decoded_data`. -/
theorem IR_decoder_timeout_run_decoded_data (counts : List Nat) :
    ∀ d : IR_Decoder_t, (IR_decoder_timeout_run d counts).decoded_data = d.decoded_data := by
  induction counts with
  | nil => intro d; rfl
  | cons c cs ih =>
    intro d
    rw [IR_decoder_timeout_run, ih, IR_decoder_timeout_handler_decoded_data]

/-- The countdown over a run no longer than its value. -/
theorem IR_decoder_timeout_run_countdown (counts : List Nat) :
    ∀ d : IR_Decoder_t, (∀ c ∈ counts, c ≤ 10000) → counts.length ≤ d.timeout_counter →
      (IR_decoder_timeout_run d counts).timeout_counter = d.timeout_counter - counts.length ∧
      (counts.length < d.timeout_counter → (IR_decoder_timeout_run d counts).state = d.state) ∧
      (0 < d.timeout_counter → counts.length = d.timeout_counter →
        (IR_decoder_timeout_run d counts).state = IR_STATE_IDLE) := by
  induction counts with
  | nil =>
    intro d _ _
    refine ⟨rfl, fun _ => rfl, ?_⟩
    intro h0 h; simp at h; omega
  | cons c cs ih =>
    intro d hc hlen
    have hc1 : c ≤ 10000 := hc c (List.mem_cons_self c cs)
    have hcs : ∀ x ∈ cs, x ≤ 10000 := fun x hx => hc x (List.mem_cons_of_mem c hx)
    obtain ⟨s1, s2, s3, _⟩ := IR_decoder_timeout_handler_step d c hc1
    simp only [List.length_cons] at hlen ⊢
    have hlen' : cs.length ≤ (IR_decoder_timeout_handler d c).timeout_counter := by omega
    obtain ⟨i1, i2, i3⟩ := ih (IR_decoder_timeout_handler d c) hcs hlen'
    rw [IR_decoder_timeout_run]
    refine ⟨by omega, ?_, ?_⟩
    · intro h
      rw [i2 (by omega), s2 (by omega)]
    · intro _ h
      by_cases h1 : d.timeout_counter = 1
      · have : cs = [] := List.eq_nil_of_length_eq_zero (by omega)
        subst this
        exact s3 h1
      · exact i3 (by omega) (by omega)

/-- Every configuration `IR_decoder_init` loads has a nonzero timeout. -/
theorem IR_decoder_config_timeout_pos (protocol : Nat) :
    0 < (IR_decoder_config protocol).timeout := by
  unfold IR_decoder_config
  split_ifs <;> decide

/-- A rising edge and a falling edge inside the start-burst window take a
freshly initialised decoder to `IR_STATE_INIT` with the countdown armed. -/
theorem IR_decoder_run_leader_burst (protocol : Nat) (hal : IR_HAL_t) (t0 t1 : Nat)
    (hhal : hal.timer_get_count = true)
    (h1 : (IR_decoder_config protocol).start_burst_min < t1)
    (h2 : t1 < (IR_decoder_config protocol).start_burst_max) :
    IR_decoder_run (IR_decoder_init protocol hal) [(t0, IR_HIGH), (t1, IR_LOW)] =
      { IR_decoder_init protocol hal with
        state := IR_STATE_INIT, timeout_counter := (IR_decoder_config protocol).timeout } := by
  simp [IR_decoder_run, IR_decoder_process, IR_decoder_init, hhal, h1, h2, IR_HIGH, IR_LOW]

/-- C11: for a decoder with `timeout_counter = T > 0` and tick counts at or
below 10000, `k < T` consecutive timeout ticks leave the state unchanged and
the countdown at `T - k`; exactly `T` ticks leave the state `IR_STATE_IDLE` and
the countdown 0; `decoded_data` is never changed. After a leader burst inside
the start-burst window has armed the countdown of a freshly initialised
decoder, the protocol's timeout many ticks return it to `IR_STATE_IDLE` with
no valid frame. -/
theorem C11_timeout_countdown (d : IR_Decoder_t) (counts : List Nat)
    (hc : ∀ c ∈ counts, c ≤ 10000) (hT : 0 < d.timeout_counter) :
    (IR_decoder_timeout_run d counts).decoded_data = d.decoded_data ∧
    (counts.length < d.timeout_counter →
      (IR_decoder_timeout_run d counts).state = d.state ∧
      (IR_decoder_timeout_run d counts).timeout_counter = d.timeout_counter - counts.length) ∧
    (counts.length = d.timeout_counter →
      (IR_decoder_timeout_run d counts).state = IR_STATE_IDLE ∧
      (IR_decoder_timeout_run d counts).timeout_counter = 0) ∧
    (∀ (protocol : Nat) (hal : IR_HAL_t) (t0 t1 : Nat),
      hal.timer_get_count = true →
      (IR_decoder_config protocol).start_burst_min < t1 →
      t1 < (IR_decoder_config protocol).start_burst_max →
      d = IR_decoder_run (IR_decoder_init protocol hal) [(t0, IR_HIGH), (t1, IR_LOW)] →
      d.state = IR_STATE_INIT ∧
      d.timeout_counter = (IR_decoder_config protocol).timeout ∧
      (counts.length = (IR_decoder_config protocol).timeout →
        (IR_decoder_timeout_run d counts).state = IR_STATE_IDLE ∧
        (IR_decoder_timeout_run d counts).decoded_data.valid = 0)) := by
  refine ⟨IR_decoder_timeout_run_decoded_data counts d, ?_, ?_, ?_⟩
  · intro h
    obtain ⟨r1, r2, _⟩ := IR_decoder_timeout_run_countdown counts d hc (by omega)
    exact ⟨r2 h, r1⟩
  · intro h
    obtain ⟨r1, _, r3⟩ := IR_decoder_timeout_run_countdown counts d hc (by omega)
    exact ⟨r3 hT h, by omega⟩
  · intro protocol hal t0 t1 hhal h1 h2 hd
    have hrun := IR_decoder_run_leader_burst protocol hal t0 t1 hhal h1 h2
    rw [← hd] at hrun
    have hs : d.state = IR_STATE_INIT := by rw [hrun]
    have ht : d.timeout_counter = (IR_decoder_config protocol).timeout := by rw [hrun]
    refine ⟨hs, ht, ?_⟩
    intro hlen
    obtain ⟨_, _, r3⟩ := IR_decoder_timeout_run_countdown counts d hc (by omega)
    refine ⟨r3 hT (by omega), ?_⟩
    rw [IR_decoder_timeout_run_decoded_data, hrun]
    rfl

/-- Three ticks on a decoder in `IR_STATE_INIT` with the countdown at 3. -/
theorem C11_timeout_countdown_witness :
    (IR_decoder_timeout_run { sample_decoder_in_init with timeout_counter := 3 }
      [5, 6, 7]).state = IR_STATE_IDLE ∧
    (IR_decoder_timeout_run { sample_decoder_in_init with timeout_counter := 3 }
      [5, 6, 7]).timeout_counter = 0 :=
  (C11_timeout_countdown { sample_decoder_in_init with timeout_counter := 3 } [5, 6, 7]
    (by decide) (by decide)).2.2.1 rfl

/-! ## Transmit engine: the API -/

/-- C12: on a transmitter whose `is_transmitting` flag is set,
`IR_transmitter_send`, `IR_transmitter_send_raw` and
`IR_transmitter_send_repeat` return `IR_ERROR`, issue no HAL call and leave
the context, `data_to_send` included, as it was. -/
theorem C12_busy_rejects (transmitter : IR_Transmitter_t) (address command raw_data : Nat)
    (hbusy : transmitter.is_transmitting ≠ 0) :
    IR_transmitter_send transmitter address command = (IR_ERROR, transmitter, []) ∧
    IR_transmitter_send_raw transmitter raw_data = (IR_ERROR, transmitter, []) ∧
    IR_transmitter_send_repeat transmitter = (IR_ERROR, transmitter, []) := by
  simp [IR_transmitter_send, IR_transmitter_send_raw, IR_transmitter_send_repeat, hbusy]

/-- The busy sample transmitter keeps its `data_to_send` 0x1234. -/
theorem C12_busy_rejects_witness :
    IR_transmitter_send sample_busy_transmitter 0x01 0x02
      = (IR_ERROR, sample_busy_transmitter, []) ∧
    (IR_transmitter_send sample_busy_transmitter 0x01 0x02).2.1.data_to_send = 0x1234 :=
  ⟨(C12_busy_rejects sample_busy_transmitter 0x01 0x02 0 (by decide)).1,
   by rw [(C12_busy_rejects sample_busy_transmitter 0x01 0x02 0 (by decide)).1]; rfl⟩

/-- C13: on an idle transmitter `IR_transmitter_send(address, command)` gives
the same result, context and HAL calls as `IR_transmitter_send_raw` applied to
the word of the encoder selected by `protocol_type`: each known protocol's own
encoder, and the NEC encoder for an id outside the nine. -/
theorem C13_send_is_send_raw_of_encoded (transmitter : IR_Transmitter_t)
    (address command : Nat) (hidle : transmitter.is_transmitting = 0)
    (_ha : address < 256) (_hc : command < 256) :
    IR_transmitter_send transmitter address command =
      IR_transmitter_send_raw transmitter
        (IR_encode_data transmitter.protocol_type address command) ∧
    IR_encode_data IR_PROTOCOL_NEC address command = IR_encode_nec_data address command ∧
    IR_encode_data IR_PROTOCOL_RC5 address command = IR_encode_rc5_data address command ∧
    IR_encode_data IR_PROTOCOL_SONY address command = IR_encode_sony_data address command ∧
    IR_encode_data IR_PROTOCOL_RC6 address command = IR_encode_rc6_data address command ∧
    IR_encode_data IR_PROTOCOL_SAMSUNG address command
      = IR_encode_samsung_data address command ∧
    IR_encode_data IR_PROTOCOL_LG address command = IR_encode_lg_data address command ∧
    IR_encode_data IR_PROTOCOL_PANASONIC address command
      = IR_encode_panasonic_data address command ∧
    IR_encode_data IR_PROTOCOL_JVC address command = IR_encode_jvc_data address command ∧
    IR_encode_data IR_PROTOCOL_DENON address command = IR_encode_denon_data address command ∧
    (∀ protocol, IR_PROTOCOL_COUNT ≤ protocol →
      IR_encode_data protocol address command = IR_encode_nec_data address command) ∧
    (∀ (t0 : IR_Transmitter_t) (protocol : Nat),
      transmitter = IR_transmitter_init t0 protocol →
      IR_transmitter_send transmitter address command =
        IR_transmitter_send_raw transmitter (IR_encode_data protocol address command)) := by
  have hmain : IR_transmitter_send transmitter address command =
      IR_transmitter_send_raw transmitter
        (IR_encode_data transmitter.protocol_type address command) := by
    simp [IR_transmitter_send, IR_transmitter_send_raw, IR_transmit_frame, hidle]
  refine ⟨hmain, rfl, rfl, rfl, rfl, rfl, rfl, rfl, rfl, rfl, ?_, ?_⟩
  · intro protocol hp
    simp only [IR_PROTOCOL_COUNT] at hp
    unfold IR_encode_data
    simp only [IR_PROTOCOL_NEC, IR_PROTOCOL_RC5, IR_PROTOCOL_SONY, IR_PROTOCOL_RC6,
      IR_PROTOCOL_SAMSUNG, IR_PROTOCOL_LG, IR_PROTOCOL_PANASONIC, IR_PROTOCOL_JVC,
      IR_PROTOCOL_DENON]
    split_ifs <;> first | rfl | omega
  · intro t0 protocol ht
    rw [hmain, ht]
    rfl

/-- Sony, address 0x01, command 0x02: the word sent is 0x82. -/
theorem C13_send_is_send_raw_of_encoded_witness :
    IR_transmitter_send (IR_transmitter_init sample_transmitter IR_PROTOCOL_SONY) 0x01 0x02 =
      IR_transmitter_send_raw (IR_transmitter_init sample_transmitter IR_PROTOCOL_SONY) 0x82 :=
  (C13_send_is_send_raw_of_encoded (IR_transmitter_init sample_transmitter IR_PROTOCOL_SONY)
    0x01 0x02 rfl (by decide) (by decide)).1

/-- C14: on an idle transmitter with `repeat_space_us = 0`,
`IR_transmitter_send_repeat` returns `IR_ERROR`, issues no HAL call and leaves
the context unchanged, so `IR_transmitter_is_busy` returns 0 afterwards;
`IR_transmitter_init` gives such a transmitter for RC5, Sony, RC6, Panasonic,
JVC and Denon. -/
theorem C14_repeat_unsupported (transmitter : IR_Transmitter_t)
    (hidle : transmitter.is_transmitting = 0)
    (hrep : transmitter.protocol_config.repeat_space_us = 0) :
    IR_transmitter_send_repeat transmitter = (IR_ERROR, transmitter, []) ∧
    IR_transmitter_is_busy (IR_transmitter_send_repeat transmitter).2.1 = 0 ∧
    (∀ (t0 : IR_Transmitter_t) (protocol : Nat),
      protocol = IR_PROTOCOL_RC5 ∨ protocol = IR_PROTOCOL_SONY ∨ protocol = IR_PROTOCOL_RC6 ∨
      protocol = IR_PROTOCOL_PANASONIC ∨ protocol = IR_PROTOCOL_JVC ∨
      protocol = IR_PROTOCOL_DENON →
      (IR_transmitter_init t0 protocol).is_transmitting = 0 ∧
      (IR_transmitter_init t0 protocol).protocol_config.repeat_space_us = 0) := by
  have h : IR_transmitter_send_repeat transmitter = (IR_ERROR, transmitter, []) := by
    simp [IR_transmitter_send_repeat, hidle, hrep]
  refine ⟨h, ?_, ?_⟩
  · rw [h]; exact hidle
  · intro t0 protocol hp
    refine ⟨rfl, ?_⟩
    rcases hp with h | h | h | h | h | h <;> subst h <;> rfl

/-- A transmitter initialised for RC5 refuses the repeat. -/
theorem C14_repeat_unsupported_witness :
    IR_transmitter_send_repeat (IR_transmitter_init sample_busy_transmitter IR_PROTOCOL_RC5) =
      (IR_ERROR, IR_transmitter_init sample_busy_transmitter IR_PROTOCOL_RC5, []) :=
  (C14_repeat_unsupported (IR_transmitter_init sample_busy_transmitter IR_PROTOCOL_RC5)
    rfl rfl).1

/-- C15, as stated, fails: `IR_transmitter_send_repeat` returns the same value
for a busy transmitter and for an idle transmitter initialised for RC5, which
has no repeat pattern. -/
theorem C15_busy_and_unsupported_same_value :
    sample_busy_transmitter.is_transmitting ≠ 0 ∧
    (IR_transmitter_init sample_busy_transmitter IR_PROTOCOL_RC5).is_transmitting = 0 ∧
    (IR_transmitter_init sample_busy_transmitter IR_PROTOCOL_RC5).protocol_config.repeat_space_us
      = 0 ∧
    (IR_transmitter_send_repeat sample_busy_transmitter).1 =
      (IR_transmitter_send_repeat
        (IR_transmitter_init sample_busy_transmitter IR_PROTOCOL_RC5)).1 := by
  decide

/-- C15, amended: `IR_transmitter_send_repeat` has two return values. It returns
`IR_SUCCESS` exactly when the transmitter is idle and its protocol has a
repeat pattern, and the one value `IR_ERROR`, different from `IR_SUCCESS`,
both when the transmitter is busy and when the protocol has no repeat
pattern. -/
theorem C15_send_repeat_two_values (transmitter : IR_Transmitter_t) :
    ((IR_transmitter_send_repeat transmitter).1 = IR_SUCCESS ↔
      (transmitter.is_transmitting = 0 ∧ transmitter.protocol_config.repeat_space_us ≠ 0)) ∧
    (transmitter.is_transmitting ≠ 0 →
      (IR_transmitter_send_repeat transmitter).1 = IR_ERROR) ∧
    (transmitter.is_transmitting = 0 → transmitter.protocol_config.repeat_space_us = 0 →
      (IR_transmitter_send_repeat transmitter).1 = IR_ERROR) ∧
    IR_ERROR ≠ IR_SUCCESS := by
  unfold IR_transmitter_send_repeat
  refine ⟨?_, ?_, ?_, by decide⟩
  · by_cases h1 : transmitter.is_transmitting = 0 <;>
      by_cases h2 : transmitter.protocol_config.repeat_space_us = 0 <;>
      simp [h1, h2, IR_ERROR, IR_SUCCESS]
  · intro h; simp [h]
  · intro h1 h2; simp [h1, h2]

/-- The busy sample transmitter gets `IR_ERROR`. -/
theorem C15_send_repeat_two_values_witness :
    (IR_transmitter_send_repeat sample_busy_transmitter).1 = IR_ERROR :=
  (C15_send_repeat_two_values sample_busy_transmitter).2.1 (by decide)

/-- C16: on an idle transmitter with `repeat_space_us` nonzero,
`IR_transmitter_send_repeat` returns `IR_SUCCESS` and issues exactly start
burst (on, delay, off), the repeat space, and the stop burst (on, delay, off);
the context is left as it was and the calls do not depend on `data_to_send`.
`IR_transmitter_init` gives such a transmitter for NEC, Samsung and LG. -/
theorem C16_repeat_frame (transmitter : IR_Transmitter_t)
    (hidle : transmitter.is_transmitting = 0)
    (hrep : transmitter.protocol_config.repeat_space_us ≠ 0) :
    (IR_transmitter_send_repeat transmitter).1 = IR_SUCCESS ∧
    (IR_transmitter_send_repeat transmitter).2.2 =
      [carrier_on, delay_us transmitter.protocol_config.start_burst_us, carrier_off,
       delay_us transmitter.protocol_config.repeat_space_us, carrier_on,
       delay_us transmitter.protocol_config.stop_burst_us, carrier_off] ∧
    (IR_transmitter_send_repeat transmitter).2.1 = transmitter ∧
    (∀ w : Nat,
      (IR_transmitter_send_repeat { transmitter with data_to_send := w }).2.2 =
        (IR_transmitter_send_repeat transmitter).2.2) ∧
    (∀ (t0 : IR_Transmitter_t) (protocol : Nat),
      protocol = IR_PROTOCOL_NEC ∨ protocol = IR_PROTOCOL_SAMSUNG ∨ protocol = IR_PROTOCOL_LG →
      (IR_transmitter_init t0 protocol).is_transmitting = 0 ∧
      (IR_transmitter_init t0 protocol).protocol_config.repeat_space_us ≠ 0) := by
  refine ⟨?_, ?_, ?_, ?_, ?_⟩
  · simp [IR_transmitter_send_repeat, hidle, hrep]
  · simp [IR_transmitter_send_repeat, hidle, hrep]
  · simp only [IR_transmitter_send_repeat, hidle, hrep, ne_eq, not_true_eq_false, if_false]
    rw [← hidle]
  · intro w
    simp [IR_transmitter_send_repeat, hidle, hrep]
  · intro t0 protocol hp
    refine ⟨rfl, ?_⟩
    have hcfg : (IR_transmitter_init t0 protocol).protocol_config
        = IR_transmitter_config protocol := rfl
    rw [hcfg]
    rcases hp with h | h | h <;> subst h <;> decide

/-- The repeat frame of a transmitter initialised for NEC. -/
theorem C16_repeat_frame_witness :
    (IR_transmitter_send_repeat (IR_transmitter_init sample_transmitter IR_PROTOCOL_NEC)).2.2 =
      [carrier_on, delay_us 9000, carrier_off, delay_us 2250, carrier_on, delay_us 562,
       carrier_off] :=
  (C16_repeat_frame (IR_transmitter_init sample_transmitter IR_PROTOCOL_NEC)
    rfl (by decide)).2.1

/-- Dropping the observed flag from the data-bit loop gives the calls of
`IR_transmit_frame_bits`. -/
theorem IR_transmit_frame_bits_observed_calls (t : IR_Transmitter_t) (n : Nat) :
    ∀ i : Nat, (IR_transmit_frame_bits_observed t n i).map Prod.fst =
      IR_transmit_frame_bits t.protocol_config t.data_to_send n i := by
  induction n with
  | zero => intro i; rfl
  | succ n ih =>
    intro i
    simp only [IR_transmit_frame_bits_observed, IR_transmit_frame_bits, List.map_append, ih,
      List.map_cons, List.map_nil, IR_TX_observe]
    split_ifs <;> rfl

/-- Every call of the data-bit loop is made with the flag the context holds. -/
theorem IR_transmit_frame_bits_observed_flag (t : IR_Transmitter_t) (n : Nat) :
    ∀ i : Nat, ∀ e ∈ IR_transmit_frame_bits_observed t n i, e.2 = t.is_transmitting := by
  induction n with
  | zero => intro i e he; simp [IR_transmit_frame_bits_observed] at he
  | succ n ih =>
    intro i e he
    simp only [IR_transmit_frame_bits_observed, List.mem_append, List.mem_cons,
      List.mem_singleton, List.not_mem_nil, or_false] at he
    rcases he with (h | h | h | h) | h
    · rw [h]; rfl
    · rw [h]; rfl
    · rw [h]; rfl
    · rw [h]; split_ifs <;> rfl
    · exact ih (i + 1) e h

/-- The observed `IR_transmit_frame` makes the calls of `IR_transmit_frame`, each
with the flag of the context passed in, and ends in the same context. -/
theorem IR_transmit_frame_observed_spec (t : IR_Transmitter_t) :
    (IR_transmit_frame_observed t).1 = (IR_transmit_frame t).1 ∧
    (IR_transmit_frame_observed t).2.map Prod.fst = (IR_transmit_frame t).2 ∧
    (∀ e ∈ (IR_transmit_frame_observed t).2, e.2 = t.is_transmitting) := by
  refine ⟨rfl, ?_, ?_⟩
  · simp only [IR_transmit_frame_observed, IR_transmit_frame, List.map_append,
      IR_transmit_frame_bits_observed_calls, List.map_cons, List.map_nil, IR_TX_observe]
    split_ifs <;> rfl
  · intro e he
    simp only [IR_transmit_frame_observed, List.mem_append, List.mem_cons,
      List.mem_singleton, List.not_mem_nil, or_false] at he
    rcases he with ((h | h | h | h) | h) | h
    · rw [h]; rfl
    · rw [h]; rfl
    · rw [h]; rfl
    · rw [h]; rfl
    · exact IR_transmit_frame_bits_observed_flag t _ 0 e h
    · split_ifs at h
      · simp only [List.mem_cons, List.mem_singleton, List.not_mem_nil, or_false] at h
        rcases h with h | h | h <;> rw [h] <;> rfl
      · simp at h

/-- Every API call leaves an idle transmitter idle. -/
theorem IR_transmitter_apply_idle (t : IR_Transmitter_t) (op : IR_TX_Op)
    (h : t.is_transmitting = 0) : (IR_transmitter_apply t op).is_transmitting = 0 := by
  cases op with
  | send a c =>
    simp [IR_transmitter_apply, IR_transmitter_send, IR_transmitter_send_raw,
      IR_transmit_frame, h]
  | send_raw w =>
    simp [IR_transmitter_apply, IR_transmitter_send_raw, IR_transmit_frame, h]
  | send_repeat =>
    simp only [IR_transmitter_apply, IR_transmitter_send_repeat, h, ne_eq, not_true_eq_false,
      if_false]
    split_ifs <;> simp [h]
  | stop => simp [IR_transmitter_apply, IR_transmitter_stop]

/-- Every sequence of API calls leaves an idle transmitter idle. -/
theorem IR_transmitter_run_idle (ops : List IR_TX_Op) :
    ∀ t : IR_Transmitter_t, t.is_transmitting = 0 →
      (IR_transmitter_run t ops).is_transmitting = 0 := by
  induction ops with
  | nil => intro t h; exact h
  | cons op ops ih =>
    intro t h
    exact ih _ (IR_transmitter_apply_idle t op h)

/-- C17: on an idle transmitter, the observed `IR_transmitter_send_raw` and
`IR_transmitter_send_repeat` make the same calls, return the same value and
end in the same context as the plain ones, `is_transmitting` is 1 at every
HAL call, and it is 0 when the call has returned. After
`IR_transmitter_init`, `IR_transmitter_is_busy` returns 0 after every
sequence of send, send_raw, send_repeat and stop calls. -/
theorem C17_busy_flag (transmitter : IR_Transmitter_t) (raw_data : Nat)
    (hidle : transmitter.is_transmitting = 0) :
    ((IR_transmitter_send_raw_observed transmitter raw_data).1
        = (IR_transmitter_send_raw transmitter raw_data).1 ∧
     (IR_transmitter_send_raw_observed transmitter raw_data).2.1
        = (IR_transmitter_send_raw transmitter raw_data).2.1 ∧
     (IR_transmitter_send_raw_observed transmitter raw_data).2.2.map Prod.fst
        = (IR_transmitter_send_raw transmitter raw_data).2.2) ∧
    (∀ e ∈ (IR_transmitter_send_raw_observed transmitter raw_data).2.2, e.2 = 1) ∧
    (IR_transmitter_send_raw_observed transmitter raw_data).2.1.is_transmitting = 0 ∧
    ((IR_transmitter_send_repeat_observed transmitter).1
        = (IR_transmitter_send_repeat transmitter).1 ∧
     (IR_transmitter_send_repeat_observed transmitter).2.1
        = (IR_transmitter_send_repeat transmitter).2.1 ∧
     (IR_transmitter_send_repeat_observed transmitter).2.2.map Prod.fst
        = (IR_transmitter_send_repeat transmitter).2.2) ∧
    (∀ e ∈ (IR_transmitter_send_repeat_observed transmitter).2.2, e.2 = 1) ∧
    (IR_transmitter_send_repeat_observed transmitter).2.1.is_transmitting = 0 ∧
    (∀ (t0 : IR_Transmitter_t) (protocol : Nat) (ops : List IR_TX_Op),
      IR_transmitter_is_busy (IR_transmitter_run (IR_transmitter_init t0 protocol) ops) = 0) := by
  have hraw : IR_transmitter_send_raw_observed transmitter raw_data =
      (IR_SUCCESS,
       (IR_transmit_frame_observed { transmitter with
          data_to_send := raw_data, current_bit := 0, is_transmitting := 1,
          repeat_counter := 0 }).1,
       (IR_transmit_frame_observed { transmitter with
          data_to_send := raw_data, current_bit := 0, is_transmitting := 1,
          repeat_counter := 0 }).2) := by
    simp [IR_transmitter_send_raw_observed, hidle]
  have hraw0 : IR_transmitter_send_raw transmitter raw_data =
      (IR_SUCCESS,
       (IR_transmit_frame { transmitter with
          data_to_send := raw_data, current_bit := 0, is_transmitting := 1,
          repeat_counter := 0 }).1,
       (IR_transmit_frame { transmitter with
          data_to_send := raw_data, current_bit := 0, is_transmitting := 1,
          repeat_counter := 0 }).2) := by
    simp [IR_transmitter_send_raw, hidle]
  obtain ⟨f1, f2, f3⟩ := IR_transmit_frame_observed_spec { transmitter with
          data_to_send := raw_data, current_bit := 0, is_transmitting := 1,
          repeat_counter := 0 }
  refine ⟨⟨?_, ?_, ?_⟩, ?_, ?_, ⟨?_, ?_, ?_⟩, ?_, ?_, ?_⟩
  · rw [hraw, hraw0]
  · rw [hraw, hraw0]; exact f1
  · rw [hraw, hraw0]; exact f2
  · rw [hraw]; exact f3
  · rw [hraw]; rfl
  · unfold IR_transmitter_send_repeat_observed IR_transmitter_send_repeat
    simp only [hidle, ne_eq, not_true_eq_false, if_false]
    split_ifs <;> rfl
  · unfold IR_transmitter_send_repeat_observed IR_transmitter_send_repeat
    simp only [hidle, ne_eq, not_true_eq_false, if_false]
    split_ifs <;> rfl
  · unfold IR_transmitter_send_repeat_observed IR_transmitter_send_repeat
    simp only [hidle, ne_eq, not_true_eq_false, if_false]
    split_ifs <;> rfl
  · intro e he
    unfold IR_transmitter_send_repeat_observed at he
    simp only [hidle, ne_eq, not_true_eq_false, if_false] at he
    split_ifs at he
    · simp at he
    · simp only [List.mem_cons, List.mem_singleton, List.not_mem_nil, or_false] at he
      rcases he with h | h | h | h | h | h | h <;> rw [h] <;> rfl
  · unfold IR_transmitter_send_repeat_observed
    simp only [hidle, ne_eq, not_true_eq_false, if_false]
    split_ifs
    · exact hidle
    · rfl
  · intro t0 protocol ops
    exact IR_transmitter_run_idle ops _ rfl

/-- The two-bit sample frame: every call is made with the flag at 1. -/
theorem C17_busy_flag_witness :
    (IR_transmitter_send_raw_observed sample_transmitter 0x2).2.2 =
      [(carrier_on, 1), (delay_us 275, 1), (carrier_off, 1), (delay_us 775, 1),
       (carrier_on, 1), (delay_us 275, 1), (carrier_off, 1), (delay_us 775, 1),
       (carrier_on, 1), (delay_us 275, 1), (carrier_off, 1), (delay_us 1900, 1),
       (carrier_on, 1), (delay_us 275, 1), (carrier_off, 1)] ∧
    (IR_transmitter_send_raw_observed sample_transmitter 0x2).2.1.is_transmitting = 0 :=
  ⟨by decide, (C17_busy_flag sample_transmitter 0x2 (by decide)).2.2.1⟩

/-! ## Receive engine: the leader and the data bits -/

/-- C18, as stated, fails: with ticks equal to `start_burst_min` (655 for NEC),
inside the inclusive window, a falling edge moves a decoder in
`IR_STATE_INIT` to `IR_STATE_FINISH`. -/
theorem C18_start_burst_min_is_rejected :
    sample_decoder_in_init.state = IR_STATE_INIT ∧
    sample_decoder_in_init.protocol_config.start_burst_min ≤ 655 ∧
    655 ≤ sample_decoder_in_init.protocol_config.start_burst_max ∧
    (IR_decoder_process sample_decoder_in_init 655 IR_LOW).state = IR_STATE_FINISH := by
  decide

/-- C18, amended: the windows are exclusive. In `IR_STATE_INIT`, on a falling
edge the decoder stays in `IR_STATE_INIT` when
`start_burst_min < t < start_burst_max` and moves to `IR_STATE_FINISH`
otherwise (the countdown is set to the timeout either way); on a rising edge
it moves to `IR_STATE_PROCESS` with the sub-machine at `IR_EVENT_INIT` when
`start_space_min < t < start_space_max`, else sets the sub-machine to
`IR_EVENT_FINISH` when `repeat_space_min < t < repeat_space_max`, else moves
to `IR_STATE_FINISH`. Nothing else changes. -/
theorem C18_init_exclusive_windows (decoder : IR_Decoder_t) (t pin_value : Nat)
    (hs : decoder.state = IR_STATE_INIT) (hhal : decoder.hal.timer_get_count = true) :
    (pin_value = IR_LOW →
      ((decoder.protocol_config.start_burst_min < t ∧
        t < decoder.protocol_config.start_burst_max) →
        IR_decoder_process decoder t pin_value =
          { decoder with timeout_counter := decoder.protocol_config.timeout }) ∧
      (¬ (decoder.protocol_config.start_burst_min < t ∧
          t < decoder.protocol_config.start_burst_max) →
        IR_decoder_process decoder t pin_value =
          { decoder with state := IR_STATE_FINISH,
                         timeout_counter := decoder.protocol_config.timeout })) ∧
    (pin_value ≠ IR_LOW →
      ((decoder.protocol_config.start_space_min < t ∧
        t < decoder.protocol_config.start_space_max) →
        IR_decoder_process decoder t pin_value =
          { decoder with state := IR_STATE_PROCESS, event := IR_EVENT_INIT }) ∧
      (¬ (decoder.protocol_config.start_space_min < t ∧
          t < decoder.protocol_config.start_space_max) →
        (decoder.protocol_config.repeat_space_min < t ∧
         t < decoder.protocol_config.repeat_space_max) →
        IR_decoder_process decoder t pin_value =
          { decoder with event := IR_EVENT_FINISH }) ∧
      (¬ (decoder.protocol_config.start_space_min < t ∧
          t < decoder.protocol_config.start_space_max) →
        ¬ (decoder.protocol_config.repeat_space_min < t ∧
           t < decoder.protocol_config.repeat_space_max) →
        IR_decoder_process decoder t pin_value =
          { decoder with state := IR_STATE_FINISH })) := by
  unfold IR_decoder_process
  simp only [hs, hhal, if_true, gt_iff_lt]
  refine ⟨fun hp => ⟨fun h => ?_, fun h => ?_⟩, fun hp => ⟨fun h => ?_, fun h h' => ?_, fun h h' => ?_⟩⟩
  · simp [hp, h, hs]
  · rw [if_pos hp, if_pos h]
  · rw [if_neg hp, if_pos h]
  · rw [if_neg hp, if_neg h, if_pos h']
  · rw [if_neg hp, if_neg h, if_neg h']

/-- An NEC leader burst of 700 ticks arms the countdown to 7400. -/
theorem C18_init_exclusive_windows_witness :
    IR_decoder_process sample_decoder_in_init 700 IR_LOW =
      { sample_decoder_in_init with timeout_counter := 7400 } :=
  ((C18_init_exclusive_windows sample_decoder_in_init 700 IR_LOW rfl rfl).1 rfl).1 (by decide)

/-- C19, as stated, fails: a falling edge after 100 ticks, outside the NEC
start-burst window, leaves a decoder in `IR_STATE_INIT` in
`IR_STATE_FINISH`, not in `IR_STATE_IDLE`. -/
theorem C19_abort_reaches_finish_not_idle :
    sample_decoder_in_init.state = IR_STATE_INIT ∧
    ¬ (sample_decoder_in_init.protocol_config.start_burst_min ≤ 100 ∧
       100 ≤ sample_decoder_in_init.protocol_config.start_burst_max) ∧
    (IR_decoder_process sample_decoder_in_init 100 IR_LOW).state = IR_STATE_FINISH ∧
    (IR_decoder_process sample_decoder_in_init 100 IR_LOW).state ≠ IR_STATE_IDLE := by
  decide

/-- C19, amended: in `IR_STATE_INIT`, an edge whose ticks lie in none of the
windows tested for that edge leaves the decoder in `IR_STATE_FINISH`, and the
next `IR_decoder_process` call, whatever its edge, moves it to
`IR_STATE_IDLE` and clears the countdown: decoding is aborted to
`IR_STATE_IDLE` within two steps. -/
theorem C19_abort_to_idle_in_two_steps (decoder : IR_Decoder_t) (t pin_value : Nat)
    (hs : decoder.state = IR_STATE_INIT) (hhal : decoder.hal.timer_get_count = true)
    (hout :
      (pin_value = IR_LOW ∧
        ¬ (decoder.protocol_config.start_burst_min < t ∧
           t < decoder.protocol_config.start_burst_max)) ∨
      (pin_value ≠ IR_LOW ∧
        ¬ (decoder.protocol_config.start_space_min < t ∧
           t < decoder.protocol_config.start_space_max) ∧
        ¬ (decoder.protocol_config.repeat_space_min < t ∧
           t < decoder.protocol_config.repeat_space_max))) :
    (IR_decoder_process decoder t pin_value).state = IR_STATE_FINISH ∧
    (∀ t2 pin_value2 : Nat,
      (IR_decoder_process (IR_decoder_process decoder t pin_value) t2 pin_value2).state
        = IR_STATE_IDLE ∧
      (IR_decoder_process (IR_decoder_process decoder t pin_value) t2 pin_value2).timeout_counter
        = 0) := by
  have h1 : (IR_decoder_process decoder t pin_value).state = IR_STATE_FINISH := by
    unfold IR_decoder_process
    simp only [hs, hhal, if_true, gt_iff_lt]
    rcases hout with ⟨hp, h⟩ | ⟨hp, h, h'⟩
    · rw [if_pos hp, if_pos h]
    · rw [if_neg hp, if_neg h, if_neg h']
  refine ⟨h1, fun t2 p2 => ?_⟩
  generalize IR_decoder_process decoder t pin_value = d1 at h1 ⊢
  unfold IR_decoder_process
  simp [h1]

/-- The second edge after a malformed NEC leader burst reaches `IR_STATE_IDLE`. -/
theorem C19_abort_to_idle_in_two_steps_witness :
    (IR_decoder_process (IR_decoder_process sample_decoder_in_init 100 IR_LOW) 20 IR_HIGH).state
      = IR_STATE_IDLE :=
  ((C19_abort_to_idle_in_two_steps sample_decoder_in_init 100 IR_LOW rfl rfl
    (Or.inl ⟨rfl, by decide⟩)).2 20 IR_HIGH).1

/-- ORing `b << k` into a word changes no bit other than bit `k`, for `b` 0 or 1. -/
theorem testBit_or_bit_shift (x b k j : Nat) (hb : b ≤ 1) (hj : j ≠ k) :
    (x ||| (b <<< k)).testBit j = x.testBit j := by
  have hb' : b = 0 ∨ b = 1 := by omega
  rcases hb' with h | h <;> subst h
  · simp
  · simp only [Nat.testBit_or, Nat.testBit_shiftLeft]
    by_cases hjk : k ≤ j
    · have : j - k ≠ 0 := by omega
      simp [hjk, Nat.testBit_one_eq_true_iff_self_eq_zero, this]
    · simp [hjk]

/-- ORing `b << k` into a word sets bit `k` when `b` is 1 and keeps it otherwise. -/
theorem testBit_or_bit_shift_self (x b k : Nat) (hb : b ≤ 1) :
    (x ||| (b <<< k)).testBit k = (x.testBit k || decide (b = 1)) := by
  have hb' : b = 0 ∨ b = 1 := by omega
  rcases hb' with h | h <;> subst h <;> simp

/-- C20: in `IR_STATE_PROCESS` with the sub-machine at `IR_EVENT_DATA` and
`bit_index < bit_count <= 32`, a rising edge with `t` ticks ORs `b << bit_index`
into the accumulator, `b` being 0 when `t < bit_threshold` and 1 otherwise,
leaves every other accumulator bit as it was, adds one to `bit_index` and
moves the sub-machine to `IR_EVENT_HOOK` exactly when the new `bit_index` is
`bit_count`; a falling edge changes nothing. -/
theorem C20_data_bit (decoder : IR_Decoder_t) (t : Nat)
    (hs : decoder.state = IR_STATE_PROCESS) (he : decoder.event = IR_EVENT_DATA)
    (hi : decoder.bit_index < decoder.protocol_config.bit_count)
    (hb : decoder.protocol_config.bit_count ≤ 32)
    (hhal : decoder.hal.timer_get_count = true) :
    IR_decoder_process decoder t IR_HIGH =
      { decoder with
        data_buffer := decoder.data_buffer |||
          ((if t < decoder.protocol_config.bit_threshold then 0 else 1) <<< decoder.bit_index)
        bit_index := decoder.bit_index + 1
        event := if decoder.bit_index + 1 = decoder.protocol_config.bit_count
                 then IR_EVENT_HOOK else IR_EVENT_DATA } ∧
    (∀ j, j ≠ decoder.bit_index →
      (IR_decoder_process decoder t IR_HIGH).data_buffer.testBit j
        = decoder.data_buffer.testBit j) ∧
    ((IR_decoder_process decoder t IR_HIGH).data_buffer.testBit decoder.bit_index
      = (decoder.data_buffer.testBit decoder.bit_index ||
         decide (¬ t < decoder.protocol_config.bit_threshold))) ∧
    IR_decoder_process decoder t IR_LOW = decoder := by
  have hb01 : (if t < decoder.protocol_config.bit_threshold then 0 else 1 : Nat) ≤ 1 := by
    split_ifs <;> omega
  have hshl : shl32 (if t < decoder.protocol_config.bit_threshold then 0 else 1)
      decoder.bit_index =
      (if t < decoder.protocol_config.bit_threshold then 0 else 1) <<< decoder.bit_index := by
    unfold shl32 u32
    apply Nat.mod_eq_of_lt
    rw [Nat.shiftLeft_eq]
    have h2 : 2 ^ decoder.bit_index < 2 ^ 32 :=
      Nat.pow_lt_pow_right (by decide) (by omega)
    split_ifs
    · simp
    · omega
  have hu8 : u8 (decoder.bit_index + 1) = decoder.bit_index + 1 := by
    unfold u8; omega
  have hmain : IR_decoder_process decoder t IR_HIGH =
      { decoder with
        data_buffer := decoder.data_buffer |||
          ((if t < decoder.protocol_config.bit_threshold then 0 else 1) <<< decoder.bit_index)
        bit_index := decoder.bit_index + 1
        event := if decoder.bit_index + 1 = decoder.protocol_config.bit_count
                 then IR_EVENT_HOOK else IR_EVENT_DATA } := by
    unfold IR_decoder_process IR_process_protocol_data
    simp only [hs, he, hhal, hi, if_true, hshl, hu8]
    split_ifs <;> simp_all [IR_SUCCESS]
  refine ⟨hmain, ?_, ?_, ?_⟩
  · intro j hj
    rw [hmain]
    exact testBit_or_bit_shift _ _ _ _ hb01 hj
  · rw [hmain]
    simp only []
    rw [testBit_or_bit_shift_self _ _ _ hb01]
    split_ifs <;> simp_all
  · unfold IR_decoder_process IR_process_protocol_data
    simp [hs, he, hhal, hi, IR_LOW, IR_HIGH, IR_SUCCESS]

/-- The 32nd NEC bit, a 1, sets bit 31 and moves the sub-machine to `IR_EVENT_HOOK`. -/
theorem C20_data_bit_witness :
    IR_decoder_process sample_decoder_in_data 100 IR_HIGH =
      { sample_decoder_in_data with
        data_buffer := 0x80FF00FF, bit_index := 32, event := IR_EVENT_HOOK } :=
  (C20_data_bit sample_decoder_in_data 100 rfl rfl (by decide) (by decide) rfl).1

/-! ## Receive engine: ticks, `IR_STATE_FINISH` and `IR_STATE_IDLE` -/

/-- C21: one `IR_decoder_timeout_handler` call with HAL tick count `c` sets the
state to `IR_STATE_IDLE` exactly when `c > 10000` or the countdown was 1 and
keeps the state otherwise; the countdown goes down by one when it was nonzero
and stays 0 when it was 0; no other field changes. Either condition alone
forces `IR_STATE_IDLE`. -/
theorem C21_timeout_handler (decoder : IR_Decoder_t) (c : Nat)
    (hhal : decoder.hal.timer_get_count = true) :
    IR_decoder_timeout_handler decoder c =
      { decoder with
        state := if c > 10000 ∨ decoder.timeout_counter = 1 then IR_STATE_IDLE
                 else decoder.state
        timeout_counter := decoder.timeout_counter - 1 } ∧
    (c > 10000 → (IR_decoder_timeout_handler decoder c).state = IR_STATE_IDLE) ∧
    (decoder.timeout_counter = 1 →
      (IR_decoder_timeout_handler decoder c).state = IR_STATE_IDLE) ∧
    (¬ (c > 10000 ∨ decoder.timeout_counter = 1) →
      (IR_decoder_timeout_handler decoder c).state = decoder.state) ∧
    (decoder.timeout_counter ≠ 0 →
      (IR_decoder_timeout_handler decoder c).timeout_counter = decoder.timeout_counter - 1) ∧
    (decoder.timeout_counter = 0 →
      (IR_decoder_timeout_handler decoder c).timeout_counter = 0) := by
  have hmain : IR_decoder_timeout_handler decoder c =
      { decoder with
        state := if c > 10000 ∨ decoder.timeout_counter = 1 then IR_STATE_IDLE
                 else decoder.state
        timeout_counter := decoder.timeout_counter - 1 } := by
    obtain ⟨st, ev, bi, db, tc, pt, hal, dd, pc⟩ := decoder
    simp only at hhal
    unfold IR_decoder_timeout_handler
    simp only [hhal, true_and]
    by_cases h1 : c > 10000 <;> by_cases h2 : tc = 0 <;> by_cases h3 : tc = 1 <;>
      (simp [h1, h2, h3]; try omega)
  refine ⟨hmain, ?_, ?_, ?_, ?_, ?_⟩
  · intro h; rw [hmain]; simp [h]
  · intro h; rw [hmain]; simp [h]
  · intro h; rw [hmain]; simp [h]
  · intro _; rw [hmain]
  · intro h; rw [hmain]; simp [h]

/-- Tick count 10001 with the countdown at 5: the state is `IR_STATE_IDLE`, the countdown 4. -/
theorem C21_timeout_handler_witness :
    (IR_decoder_timeout_handler { sample_decoder_in_init with timeout_counter := 5 } 10001).state
      = IR_STATE_IDLE ∧
    (IR_decoder_timeout_handler { sample_decoder_in_init with timeout_counter := 5 }
      10001).timeout_counter = 4 :=
  ⟨(C21_timeout_handler { sample_decoder_in_init with timeout_counter := 5 } 10001 rfl).2.1
      (by decide),
   (C21_timeout_handler { sample_decoder_in_init with timeout_counter := 5 } 10001 rfl).2.2.2.2.1
      (by decide)⟩

/-- C22: in `IR_STATE_FINISH`, whatever the edge and the ticks,
`IR_decoder_process` sets the state to `IR_STATE_IDLE` and the countdown to 0
and changes no other field. -/
theorem C22_finish (decoder : IR_Decoder_t) (count pin_value : Nat)
    (hs : decoder.state = IR_STATE_FINISH) :
    IR_decoder_process decoder count pin_value =
      { decoder with state := IR_STATE_IDLE, timeout_counter := 0 } := by
  unfold IR_decoder_process
  simp [hs]

/-- A decoder in `IR_STATE_FINISH` with stored bits keeps them on the way to `IR_STATE_IDLE`. -/
theorem C22_finish_witness :
    IR_decoder_process { sample_decoder_in_data with state := IR_STATE_FINISH } 20 IR_HIGH =
      { sample_decoder_in_data with state := IR_STATE_IDLE, timeout_counter := 0 } :=
  C22_finish { sample_decoder_in_data with state := IR_STATE_FINISH } 20 IR_HIGH rfl

/-- C23: in `IR_STATE_IDLE`, `IR_decoder_process` with level HIGH sets the state
to `IR_STATE_INIT` and changes no other field; with level LOW it changes
nothing. The HAL calls of the function are the read and the reset of the tick
counter, in that order, and no other. -/
theorem C23_idle (decoder : IR_Decoder_t) (count : Nat)
    (hs : decoder.state = IR_STATE_IDLE) :
    IR_decoder_process decoder count IR_HIGH = { decoder with state := IR_STATE_INIT } ∧
    IR_decoder_process decoder count IR_LOW = decoder ∧
    (decoder.hal.timer_get_count = true → decoder.hal.timer_reset_count = true →
      IR_decoder_process_calls decoder =
        [IR_HAL_Call.timer_get_count, IR_HAL_Call.timer_reset_count]) ∧
    (∀ call ∈ IR_decoder_process_calls decoder,
      call = IR_HAL_Call.timer_get_count ∨ call = IR_HAL_Call.timer_reset_count) := by
  refine ⟨?_, ?_, ?_, ?_⟩
  · unfold IR_decoder_process; simp [hs]
  · unfold IR_decoder_process; simp [hs, IR_LOW, IR_HIGH]
  · intro h1 h2; simp [IR_decoder_process_calls, h1, h2]
  · intro call hc
    unfold IR_decoder_process_calls at hc
    split_ifs at hc <;> simp at hc <;> tauto

/-- The first rising edge on a freshly initialised NEC decoder. -/
theorem C23_idle_witness :
    IR_decoder_process (IR_decoder_init IR_PROTOCOL_NEC sample_hal) 1234 IR_HIGH =
      { IR_decoder_init IR_PROTOCOL_NEC sample_hal with state := IR_STATE_INIT } ∧
    IR_decoder_process_calls (IR_decoder_init IR_PROTOCOL_NEC sample_hal) =
      [IR_HAL_Call.timer_get_count, IR_HAL_Call.timer_reset_count] :=
  ⟨(C23_idle (IR_decoder_init IR_PROTOCOL_NEC sample_hal) 1234 rfl).1,
   (C23_idle (IR_decoder_init IR_PROTOCOL_NEC sample_hal) 1234 rfl).2.2.1 rfl rfl⟩

/-! ## Receive engine: stale sub-machine state -/

/-- An edge keeps two agreeing decoders in agreement. -/
theorem IR_decoder_process_agree (d1 d2 : IR_Decoder_t) (count pin_value : Nat)
    (h : IR_decoder_agree d1 d2) :
    IR_decoder_agree (IR_decoder_process d1 count pin_value)
      (IR_decoder_process d2 count pin_value) := by
  obtain ⟨hs, hc, ht, hd, hh, hp⟩ := h
  unfold IR_decoder_process
  simp only []
  rw [← hs, ← hc, ← hh]
  generalize (if d1.hal.timer_get_count = true then count else 0) = counter
  cases hs1 : d1.state with
  | IR_STATE_IDLE =>
    simp only [IR_decoder_agree]
    split_ifs <;> simp_all
  | IR_STATE_INIT =>
    simp only [IR_decoder_agree]
    split_ifs <;> simp_all
  | IR_STATE_FINISH =>
    simp only [IR_decoder_agree]
    simp_all
  | IR_STATE_PROCESS =>
    obtain ⟨e1, e2⟩ := hp hs1
    rw [IR_process_protocol_data_init d1 counter pin_value e1,
      IR_process_protocol_data_init d2 counter pin_value e2]
    simp_all [IR_decoder_agree, IR_SUCCESS]

/-- A timeout tick keeps two agreeing decoders in agreement. -/
theorem IR_decoder_timeout_handler_agree (d1 d2 : IR_Decoder_t) (count : Nat)
    (h : IR_decoder_agree d1 d2) :
    IR_decoder_agree (IR_decoder_timeout_handler d1 count)
      (IR_decoder_timeout_handler d2 count) := by
  obtain ⟨hs, hc, ht, hd, hh, hp⟩ := h
  unfold IR_decoder_timeout_handler
  simp only []
  rw [← ht, ← hh]
  simp only [IR_decoder_agree]
  split_ifs <;> simp_all

/-- A reset keeps two agreeing decoders in agreement. -/
theorem IR_decoder_reset_agree (d1 d2 : IR_Decoder_t) (h : IR_decoder_agree d1 d2) :
    IR_decoder_agree (IR_decoder_reset d1) (IR_decoder_reset d2) := by
  obtain ⟨hs, hc, ht, hd, hh, hp⟩ := h
  simp [IR_decoder_agree, IR_decoder_reset, hc, hd, hh]

/-- Reading the frame keeps two agreeing decoders in agreement and returns the same. -/
theorem IR_decoder_get_data_agree (d1 d2 : IR_Decoder_t) (data : IR_Data_t)
    (h : IR_decoder_agree d1 d2) :
    IR_decoder_agree (IR_decoder_get_data d1 data).2.1 (IR_decoder_get_data d2 data).2.1 ∧
    (IR_decoder_get_data d1 data).1 = (IR_decoder_get_data d2 data).1 ∧
    (IR_decoder_get_data d1 data).2.2 = (IR_decoder_get_data d2 data).2.2 := by
  obtain ⟨hs, hc, ht, hd, hh, hp⟩ := h
  unfold IR_decoder_get_data
  rw [← hd]
  simp only [IR_decoder_agree]
  split_ifs <;> simp_all

/-- Every API call keeps two agreeing decoders in agreement and hands the same
back to the caller. -/
theorem IR_decoder_apply_agree (d1 d2 : IR_Decoder_t) (c : IR_Decoder_Call)
    (h : IR_decoder_agree d1 d2) :
    IR_decoder_agree (IR_decoder_apply d1 c) (IR_decoder_apply d2 c) ∧
    IR_decoder_returned d1 c = IR_decoder_returned d2 c := by
  cases c with
  | process count pin_value =>
    exact ⟨IR_decoder_process_agree d1 d2 count pin_value h, rfl⟩
  | timeout_handler count => exact ⟨IR_decoder_timeout_handler_agree d1 d2 count h, rfl⟩
  | reset => exact ⟨IR_decoder_reset_agree d1 d2 h, rfl⟩
  | get_data data =>
    obtain ⟨g1, g2, g3⟩ := IR_decoder_get_data_agree d1 d2 data h
    refine ⟨g1, ?_⟩
    simp only [IR_decoder_returned, g2, g3]

/-- Agreeing decoders show the same trace under every run of API calls. -/
theorem IR_decoder_trace_agree (calls : List IR_Decoder_Call) :
    ∀ d1 d2 : IR_Decoder_t, IR_decoder_agree d1 d2 →
      IR_decoder_trace d1 calls = IR_decoder_trace d2 calls := by
  induction calls with
  | nil => intro d1 d2 _; rfl
  | cons c cs ih =>
    intro d1 d2 h
    obtain ⟨a1, a2⟩ := IR_decoder_apply_agree d1 d2 c h
    simp only [IR_decoder_trace]
    rw [ih _ _ a1, a1.1, a1.2.2.2.1, a2]

/-- C24: two decoders in `IR_STATE_IDLE` with the same protocol configuration,
countdown, decoded frame and tick-count pointer, whatever their sub-machine
state, bit index and accumulator, go through the same outer states, hold the
same decoded frames and get the same `IR_decoder_get_data` results under
every sequence of edges, timer ticks, resets and reads. -/
theorem C24_no_trace_of_stale_state (d1 d2 : IR_Decoder_t) (calls : List IR_Decoder_Call)
    (hs1 : d1.state = IR_STATE_IDLE) (hs2 : d2.state = IR_STATE_IDLE)
    (hc : d1.protocol_config = d2.protocol_config)
    (ht : d1.timeout_counter = d2.timeout_counter)
    (hd : d1.decoded_data = d2.decoded_data)
    (hh : d1.hal.timer_get_count = d2.hal.timer_get_count) :
    IR_decoder_trace d1 calls = IR_decoder_trace d2 calls := by
  apply IR_decoder_trace_agree
  refine ⟨by rw [hs1, hs2], hc, ht, hd, hh, ?_⟩
  intro h
  rw [hs1] at h
  exact absurd h (by decide)

/-- A fresh NEC decoder and one with a stale sub-machine state, 17 stale bits
and a stale accumulator behave alike over a leader and what follows. -/
theorem C24_no_trace_of_stale_state_witness :
    IR_decoder_trace (IR_decoder_init IR_PROTOCOL_NEC sample_hal)
      [IR_Decoder_Call.process 0 IR_HIGH, IR_Decoder_Call.process 700 IR_LOW,
       IR_Decoder_Call.process 345 IR_HIGH, IR_Decoder_Call.process 20 IR_LOW,
       IR_Decoder_Call.timeout_handler 20, IR_Decoder_Call.get_data sample_frame] =
    IR_decoder_trace
      { IR_decoder_init IR_PROTOCOL_NEC sample_hal with
        event := IR_EVENT_HOOK, bit_index := 17, data_buffer := 0x1FFFF }
      [IR_Decoder_Call.process 0 IR_HIGH, IR_Decoder_Call.process 700 IR_LOW,
       IR_Decoder_Call.process 345 IR_HIGH, IR_Decoder_Call.process 20 IR_LOW,
       IR_Decoder_Call.timeout_handler 20, IR_Decoder_Call.get_data sample_frame] :=
  C24_no_trace_of_stale_state (IR_decoder_init IR_PROTOCOL_NEC sample_hal)
    { IR_decoder_init IR_PROTOCOL_NEC sample_hal with
      event := IR_EVENT_HOOK, bit_index := 17, data_buffer := 0x1FFFF }
    _ rfl rfl rfl rfl rfl rfl

/-! ## Initialisation and registry lookup -/

/-- C25: for a protocol id outside the nine known ones `IR_decoder_init` loads
the configuration of `IR_get_nec_config` and `IR_transmitter_init` the one of
`IR_get_nec_tx_config`; for each of the nine known ids both load that
protocol's own configuration. Both initialisers are total. -/
theorem C25_init_configurations (protocol : Nat) (hal : IR_HAL_t) (t0 : IR_Transmitter_t) :
    (IR_PROTOCOL_COUNT ≤ protocol →
      (IR_decoder_init protocol hal).protocol_config = IR_get_nec_config ∧
      (IR_transmitter_init t0 protocol).protocol_config = IR_get_nec_tx_config) ∧
    ((IR_decoder_init IR_PROTOCOL_NEC hal).protocol_config = IR_get_nec_config ∧
     (IR_decoder_init IR_PROTOCOL_RC5 hal).protocol_config = IR_get_rc5_config ∧
     (IR_decoder_init IR_PROTOCOL_SONY hal).protocol_config = IR_get_sony_config ∧
     (IR_decoder_init IR_PROTOCOL_RC6 hal).protocol_config = IR_get_rc6_config ∧
     (IR_decoder_init IR_PROTOCOL_SAMSUNG hal).protocol_config = IR_get_samsung_config ∧
     (IR_decoder_init IR_PROTOCOL_LG hal).protocol_config = IR_get_lg_config ∧
     (IR_decoder_init IR_PROTOCOL_PANASONIC hal).protocol_config = IR_get_panasonic_config ∧
     (IR_decoder_init IR_PROTOCOL_JVC hal).protocol_config = IR_get_jvc_config ∧
     (IR_decoder_init IR_PROTOCOL_DENON hal).protocol_config = IR_get_denon_config) ∧
    ((IR_transmitter_init t0 IR_PROTOCOL_NEC).protocol_config = IR_get_nec_tx_config ∧
     (IR_transmitter_init t0 IR_PROTOCOL_RC5).protocol_config = IR_get_rc5_tx_config ∧
     (IR_transmitter_init t0 IR_PROTOCOL_SONY).protocol_config = IR_get_sony_tx_config ∧
     (IR_transmitter_init t0 IR_PROTOCOL_RC6).protocol_config = IR_get_rc6_tx_config ∧
     (IR_transmitter_init t0 IR_PROTOCOL_SAMSUNG).protocol_config = IR_get_samsung_tx_config ∧
     (IR_transmitter_init t0 IR_PROTOCOL_LG).protocol_config = IR_get_lg_tx_config ∧
     (IR_transmitter_init t0 IR_PROTOCOL_PANASONIC).protocol_config
       = IR_get_panasonic_tx_config ∧
     (IR_transmitter_init t0 IR_PROTOCOL_JVC).protocol_config = IR_get_jvc_tx_config ∧
     (IR_transmitter_init t0 IR_PROTOCOL_DENON).protocol_config = IR_get_denon_tx_config) := by
  refine ⟨?_, ⟨rfl, rfl, rfl, rfl, rfl, rfl, rfl, rfl, rfl⟩,
    ⟨rfl, rfl, rfl, rfl, rfl, rfl, rfl, rfl, rfl⟩⟩
  intro hp
  simp only [IR_PROTOCOL_COUNT] at hp
  constructor
  · show IR_decoder_config protocol = IR_get_nec_config
    unfold IR_decoder_config
    simp only [IR_PROTOCOL_NEC, IR_PROTOCOL_RC5, IR_PROTOCOL_SONY, IR_PROTOCOL_RC6,
      IR_PROTOCOL_SAMSUNG, IR_PROTOCOL_LG, IR_PROTOCOL_PANASONIC, IR_PROTOCOL_JVC,
      IR_PROTOCOL_DENON]
    split_ifs <;> first | rfl | omega
  · show IR_transmitter_config protocol = IR_get_nec_tx_config
    unfold IR_transmitter_config
    simp only [IR_PROTOCOL_NEC, IR_PROTOCOL_RC5, IR_PROTOCOL_SONY, IR_PROTOCOL_RC6,
      IR_PROTOCOL_SAMSUNG, IR_PROTOCOL_LG, IR_PROTOCOL_PANASONIC, IR_PROTOCOL_JVC,
      IR_PROTOCOL_DENON]
    split_ifs <;> first | rfl | omega

/-- Protocol id 200 gets the NEC configurations. -/
theorem C25_init_configurations_witness :
    (IR_decoder_init 200 sample_hal).protocol_config = IR_get_nec_config ∧
    (IR_transmitter_init sample_transmitter 200).protocol_config = IR_get_nec_tx_config :=
  (C25_init_configurations 200 sample_hal sample_transmitter).1 (by decide)

/-- C26, as stated, fails: for protocol id 9, the first id outside the table,
`IR_get_protocol_info` returns `NULL`, not the NEC entry. -/
theorem C26_unknown_id_gets_null :
    IR_get_protocol_info 9 = none ∧
    IR_get_protocol_info 9 ≠ some protocol_info_nec := by
  decide

/-- C26, amended: `IR_get_protocol_info` returns, for each of the nine known
protocol ids, that protocol's table entry (whose `type` is the id), and `NULL`
for every protocol id outside the nine. -/
theorem C26_protocol_info_lookup (protocol : Nat) :
    (IR_get_protocol_info IR_PROTOCOL_NEC = some protocol_info_nec ∧
     IR_get_protocol_info IR_PROTOCOL_RC5 = some protocol_info_rc5 ∧
     IR_get_protocol_info IR_PROTOCOL_SONY = some protocol_info_sony ∧
     IR_get_protocol_info IR_PROTOCOL_RC6 = some protocol_info_rc6 ∧
     IR_get_protocol_info IR_PROTOCOL_SAMSUNG = some protocol_info_samsung ∧
     IR_get_protocol_info IR_PROTOCOL_LG = some protocol_info_lg ∧
     IR_get_protocol_info IR_PROTOCOL_PANASONIC = some protocol_info_panasonic ∧
     IR_get_protocol_info IR_PROTOCOL_JVC = some protocol_info_jvc ∧
     IR_get_protocol_info IR_PROTOCOL_DENON = some protocol_info_denon) ∧
    (protocol < IR_PROTOCOL_COUNT →
      ∃ info, IR_get_protocol_info protocol = some info ∧ info.type = protocol) ∧
    (IR_PROTOCOL_COUNT ≤ protocol → IR_get_protocol_info protocol = none) := by
  refine ⟨by decide, ?_, ?_⟩
  · intro hp
    have key : ∀ p < 9, ∃ info, IR_get_protocol_info p = some info ∧ info.type = p := by
      decide
    exact key protocol hp
  · intro hp
    simp [IR_get_protocol_info, hp]

/-- Protocol id 200 has no entry. -/
theorem C26_protocol_info_lookup_witness :
    IR_get_protocol_info 200 = none :=
  (C26_protocol_info_lookup 200).2.2 (by decide)

/-! ## Registry: the LG, Samsung, Sony and RC5 words -/

/-- The four bytes of a word written as a sum of shifted bytes. -/
theorem word_bytes (b0 b1 b2 b3 : Nat) (h0 : b0 < 256) (h1 : b1 < 256) (h2 : b2 < 256) :
    (b0 + b1 * 2 ^ 8 + b2 * 2 ^ 16 + b3 * 2 ^ 24) % 2 ^ 8 = b0 ∧
    (b0 + b1 * 2 ^ 8 + b2 * 2 ^ 16 + b3 * 2 ^ 24) / 2 ^ 8 % 2 ^ 8 = b1 ∧
    (b0 + b1 * 2 ^ 8 + b2 * 2 ^ 16 + b3 * 2 ^ 24) / 2 ^ 16 % 2 ^ 8 = b2 ∧
    (b0 + b1 * 2 ^ 8 + b2 * 2 ^ 16 + b3 * 2 ^ 24) / 2 ^ 24 = b3 := by
  simp only [Nat.reducePow]
  have q1 : (b0 + b1 * 256 + b2 * 65536 + b3 * 16777216) / 256
      = b1 + b2 * 256 + b3 * 65536 := by omega
  have q2 : (b0 + b1 * 256 + b2 * 65536 + b3 * 16777216) / 65536 = b2 + b3 * 256 := by omega
  have q3 : (b0 + b1 * 256 + b2 * 65536 + b3 * 16777216) / 16777216 = b3 := by omega
  rw [q1, q2, q3]
  refine ⟨?_, ?_, ?_, rfl⟩ <;> omega

/-- The checksum of a word is the low byte of the sum of its four bytes. -/
theorem IR_calculate_checksum_eq (data : Nat) :
    IR_calculate_checksum data =
      (data % 256 + data / 2 ^ 8 % 256 + data / 2 ^ 16 % 256 + data / 2 ^ 24 % 256) % 256 := by
  simp only [IR_calculate_checksum, IR_calculate_checksum_loop, u16, and_ff,
    Nat.shiftRight_eq_div_pow, Nat.reducePow, Nat.reduceMul, Nat.reduceAdd, Nat.zero_add,
    Nat.pow_zero, Nat.div_one]
  omega

/-- The word `IR_encode_lg_data` produces, as a sum of its three fields. -/
theorem IR_encode_lg_data_eq (a c : Nat) (ha : a < 256) (hc : c < 256) :
    IR_encode_lg_data a c = a + c * 2 ^ 8 + ((a + c) % 256) * 2 ^ 16 ∧
    IR_calculate_checksum (a ||| shl32 c 8) = (a + c) % 256 := by
  have hck : IR_calculate_checksum (a ||| shl32 c 8) = (a + c) % 256 := by
    rw [shl32_eq c 8 (by omega), or_mul_two_pow a c 8 (by omega), IR_calculate_checksum_eq]
    obtain ⟨w0, w1, w2, w3⟩ := word_bytes a c 0 0 ha hc (by decide)
    simp only [Nat.zero_mul, Nat.add_zero, Nat.reducePow] at w0 w1 w2 w3
    simp only [Nat.reducePow]
    rw [w0, w1, w2, w3]
    omega
  refine ⟨?_, hck⟩
  unfold IR_encode_lg_data
  rw [hck, shl32_eq c 8 (by omega), shl32_eq _ 16 (by omega),
    or_mul_two_pow a c 8 (by omega), or_mul_two_pow _ _ 16 (by omega)]

/-- C27, as stated, fails: `IR_encode_lg_data(0xFF, 0x00)` is 0x00FF00FF, which
has bit 20 (and every bit up to 23) set. -/
theorem C27_lg_checksum_above_bit_19 :
    IR_encode_lg_data 0xFF 0x00 = 0x00FF00FF ∧
    (IR_encode_lg_data 0xFF 0x00).testBit 20 = true ∧
    2 ^ 20 ≤ IR_encode_lg_data 0xFF 0x00 := by
  decide

/-- C27, amended: for 8-bit address and command, `IR_encode_lg_data` carries the
address in bits 0-7, the command in bits 8-15 and the checksum
`(address + command) mod 256`, as computed by `IR_calculate_checksum`, in
bits 16-23, with no bit above bit 23 set. -/
theorem C27_lg_fields (address command : Nat) (ha : address < 256) (hc : command < 256) :
    IR_calculate_checksum (address ||| shl32 command 8) = (address + command) % 256 ∧
    IR_encode_lg_data address command % 2 ^ 8 = address ∧
    IR_encode_lg_data address command / 2 ^ 8 % 2 ^ 8 = command ∧
    IR_encode_lg_data address command / 2 ^ 16 % 2 ^ 8 = (address + command) % 256 ∧
    IR_encode_lg_data address command < 2 ^ 24 := by
  obtain ⟨h1, h2⟩ := IR_encode_lg_data_eq address command ha hc
  have hk : (address + command) % 256 < 256 := Nat.mod_lt _ (by decide)
  obtain ⟨w0, w1, w2, w3⟩ := word_bytes address command ((address + command) % 256) 0 ha hc hk
  simp only [Nat.zero_mul, Nat.add_zero] at w0 w1 w2 w3
  rw [h1]
  refine ⟨h2, w0, w1, w2, ?_⟩
  simp only [Nat.reducePow]
  omega

/-- Address 0xFF, command 0x02: the checksum byte is 0x01. -/
theorem C27_lg_fields_witness :
    IR_encode_lg_data 0xFF 0x02 / 2 ^ 16 % 2 ^ 8 = 0x01 :=
  (C27_lg_fields 0xFF 0x02 (by decide) (by decide)).2.2.2.1

/-- C28: for 8-bit address and command, `IR_encode_samsung_data` equals
`address | (address << 8) | (command << 16) | ((~command & 0xFF) << 24)`:
bits 0-7 and bits 8-15 both hold the address, bits 16-23 the command and bits
24-31 its 8-bit complement. -/
theorem C28_samsung (address command : Nat) (ha : address < 256) (hc : command < 256) :
    IR_encode_samsung_data address command =
      address ||| (address <<< 8) ||| (command <<< 16) ||| ((255 - command) <<< 24) ∧
    IR_encode_samsung_data address command % 2 ^ 8 = address ∧
    IR_encode_samsung_data address command / 2 ^ 8 % 2 ^ 8 = address ∧
    IR_encode_samsung_data address command / 2 ^ 16 % 2 ^ 8 = command ∧
    IR_encode_samsung_data address command / 2 ^ 24 = 255 - command := by
  have h1 : IR_encode_samsung_data address command =
      address ||| (address <<< 8) ||| (command <<< 16) ||| ((255 - command) <<< 24) := by
    unfold IR_encode_samsung_data
    rw [shl32_eq address 8 (by omega), shl32_eq command 16 (by omega),
      shl32_not_promoted_24 command hc]
    simp only [Nat.shiftLeft_eq]
  have h2 : IR_encode_samsung_data address command =
      address + address * 2 ^ 8 + command * 2 ^ 16 + (255 - command) * 2 ^ 24 := by
    unfold IR_encode_samsung_data
    rw [shl32_eq address 8 (by omega), shl32_eq command 16 (by omega),
      shl32_not_promoted_24 command hc,
      or_mul_two_pow address address 8 (by omega), or_mul_two_pow _ command 16 (by omega),
      or_mul_two_pow _ _ 24 (by omega)]
  obtain ⟨w0, w1, w2, w3⟩ := word_bytes address address command (255 - command) ha ha hc
  rw [← h2] at w0 w1 w2 w3
  exact ⟨h1, w0, w1, w2, w3⟩

/-- Address 0x07, command 0x02 encodes to 0xFD020707. -/
theorem C28_samsung_witness :
    IR_encode_samsung_data 0x07 0x02 = 0xFD020707 :=
  (C28_samsung 0x07 0x02 (by decide) (by decide)).1.trans (by decide)

/-- C29: for address < 32 and command < 128, `IR_encode_sony_data` is below 2^12
with the command in bits 0-6 and the address in bits 7-11; for address < 32
and command < 64, `IR_encode_rc5_data` is below 2^14, equals
`0x3000 | (address << 6) | command`, and has the command in bits 0-5 and the
address in bits 6-10. -/
theorem C29_sony_rc5 (address command : Nat) (ha : address < 32) :
    (command < 128 →
      IR_encode_sony_data address command < 2 ^ 12 ∧
      IR_encode_sony_data address command % 2 ^ 7 = command ∧
      IR_encode_sony_data address command / 2 ^ 7 = address) ∧
    (command < 64 →
      IR_encode_rc5_data address command < 2 ^ 14 ∧
      IR_encode_rc5_data address command = 0x3000 ||| (address <<< 6) ||| command ∧
      IR_encode_rc5_data address command % 2 ^ 6 = command ∧
      IR_encode_rc5_data address command / 2 ^ 6 % 2 ^ 5 = address) := by
  constructor
  · intro hc
    have h : IR_encode_sony_data address command = command + address * 2 ^ 7 := by
      unfold IR_encode_sony_data
      rw [shl32_eq address 7 (by omega), or_mul_two_pow command address 7 (by omega)]
    rw [h]
    refine ⟨?_, ?_, ?_⟩ <;> simp only [Nat.reducePow] <;> omega
  · intro hc
    have h : IR_encode_rc5_data address command = command + address * 2 ^ 6 + 3 * 2 ^ 12 := by
      unfold IR_encode_rc5_data
      rw [shl32_eq address 6 (by omega), Nat.or_comm _ command,
        or_mul_two_pow command address 6 (by omega),
        show (0x3000 : Nat) = 3 * 2 ^ 12 from rfl, or_mul_two_pow _ 3 12 (by omega)]
    have h' : IR_encode_rc5_data address command = 0x3000 ||| (address <<< 6) ||| command := by
      unfold IR_encode_rc5_data
      rw [shl32_eq address 6 (by omega), Nat.shiftLeft_eq]
      ac_rfl
    refine ⟨?_, h', ?_, ?_⟩ <;> rw [h] <;> simp only [Nat.reducePow] <;> omega

/-- Address 0x01, command 0x02: Sony keeps the command in the low 7 bits, RC5 gives 0x3042. -/
theorem C29_sony_rc5_witness :
    IR_encode_sony_data 0x01 0x02 % 2 ^ 7 = 0x02 ∧ IR_encode_rc5_data 0x01 0x02 = 0x3042 :=
  ⟨((C29_sony_rc5 0x01 0x02 (by decide)).1 (by decide)).2.1,
   ((C29_sony_rc5 0x01 0x02 (by decide)).2 (by decide)).2.1.trans (by decide)⟩

/-! ## Width of the raw word -/

/-- C30: the Panasonic configurations have `bit_count` 48, above the 32 bits of
the raw word, on transmit and on receive, so the loop index of
`IR_transmit_frame` and the bit index of the receive sub-machine reach 32 and
more; the other eight protocols have `bit_count` at most 32. -/
theorem C30_panasonic_index_exceeds_word :
    (IR_transmitter_init sample_transmitter IR_PROTOCOL_PANASONIC).protocol_config.bit_count
      = 48 ∧
    (IR_decoder_init IR_PROTOCOL_PANASONIC sample_hal).protocol_config.bit_count = 48 ∧
    uint32_bits < 48 ∧
    (∃ i, i < (IR_transmitter_config IR_PROTOCOL_PANASONIC).bit_count ∧ uint32_bits ≤ i) ∧
    (∃ i, i < (IR_decoder_config IR_PROTOCOL_PANASONIC).bit_count ∧ uint32_bits ≤ i) ∧
    (∀ protocol < IR_PROTOCOL_COUNT, protocol ≠ IR_PROTOCOL_PANASONIC →
      (IR_decoder_config protocol).bit_count ≤ uint32_bits ∧
      (IR_transmitter_config protocol).bit_count ≤ uint32_bits) := by
  refine ⟨rfl, rfl, by decide, ⟨32, by decide, by decide⟩, ⟨32, by decide, by decide⟩, ?_⟩
  decide

/-! ## Timing windows and the stop operation -/

/-- C31, as stated, fails: RC5 has no repeat code and no stop burst, and its
repeat-space window is 0/0 in the decoder configuration, its repeat-space and
stop-burst windows 0/0 in the registry table, so min is not below max. -/
theorem C31_rc5_absent_windows_not_strict :
    (IR_decoder_config IR_PROTOCOL_RC5).repeat_space_min = 0 ∧
    (IR_decoder_config IR_PROTOCOL_RC5).repeat_space_max = 0 ∧
    ¬ ((IR_decoder_config IR_PROTOCOL_RC5).repeat_space_min
        < (IR_decoder_config IR_PROTOCOL_RC5).repeat_space_max) ∧
    IR_get_protocol_info IR_PROTOCOL_RC5 = some protocol_info_rc5 ∧
    ¬ (protocol_info_rc5.timing.stop_burst_min < protocol_info_rc5.timing.stop_burst_max) ∧
    ¬ (protocol_info_rc5.timing.repeat_space_min < protocol_info_rc5.timing.repeat_space_max) := by
  decide

/-- C31, amended: for each of the nine protocols the start-burst and start-space
windows of the decoder configuration have min below max, and so has the
repeat-space window for NEC, Samsung and LG, while for the other six it is
0/0; in every entry of the registry table the start-burst, start-space,
bit-burst, zero-space and one-space windows have min below max, and the
repeat-space and stop-burst windows have min below max for NEC and are 0/0
for every other entry. -/
theorem C31_present_windows_strict (protocol : Nat) (hp : protocol < IR_PROTOCOL_COUNT) :
    ((IR_decoder_config protocol).start_burst_min < (IR_decoder_config protocol).start_burst_max ∧
     (IR_decoder_config protocol).start_space_min < (IR_decoder_config protocol).start_space_max ∧
     ((protocol = IR_PROTOCOL_NEC ∨ protocol = IR_PROTOCOL_SAMSUNG ∨ protocol = IR_PROTOCOL_LG) →
       (IR_decoder_config protocol).repeat_space_min
         < (IR_decoder_config protocol).repeat_space_max) ∧
     (¬ (protocol = IR_PROTOCOL_NEC ∨ protocol = IR_PROTOCOL_SAMSUNG ∨
         protocol = IR_PROTOCOL_LG) →
       (IR_decoder_config protocol).repeat_space_min = 0 ∧
       (IR_decoder_config protocol).repeat_space_max = 0)) ∧
    (∀ info ∈ protocol_info_table,
      info.timing.start_burst_min < info.timing.start_burst_max ∧
      info.timing.start_space_min < info.timing.start_space_max ∧
      info.timing.bit_burst_min < info.timing.bit_burst_max ∧
      info.timing.bit_0_space_min < info.timing.bit_0_space_max ∧
      info.timing.bit_1_space_min < info.timing.bit_1_space_max ∧
      (info.type = IR_PROTOCOL_NEC →
        info.timing.repeat_space_min < info.timing.repeat_space_max ∧
        info.timing.stop_burst_min < info.timing.stop_burst_max) ∧
      (info.type ≠ IR_PROTOCOL_NEC →
        info.timing.repeat_space_min = 0 ∧ info.timing.repeat_space_max = 0 ∧
        info.timing.stop_burst_min = 0 ∧ info.timing.stop_burst_max = 0)) := by
  have key : ∀ p < 9,
    ((IR_decoder_config p).start_burst_min < (IR_decoder_config p).start_burst_max ∧
     (IR_decoder_config p).start_space_min < (IR_decoder_config p).start_space_max ∧
     ((p = IR_PROTOCOL_NEC ∨ p = IR_PROTOCOL_SAMSUNG ∨ p = IR_PROTOCOL_LG) →
       (IR_decoder_config p).repeat_space_min < (IR_decoder_config p).repeat_space_max) ∧
     (¬ (p = IR_PROTOCOL_NEC ∨ p = IR_PROTOCOL_SAMSUNG ∨ p = IR_PROTOCOL_LG) →
       (IR_decoder_config p).repeat_space_min = 0 ∧
       (IR_decoder_config p).repeat_space_max = 0)) := by
    decide
  exact ⟨key protocol hp, by decide⟩

/-- Samsung has a repeat-space window with min below max. -/
theorem C31_present_windows_strict_witness :
    (IR_decoder_config IR_PROTOCOL_SAMSUNG).repeat_space_min
      < (IR_decoder_config IR_PROTOCOL_SAMSUNG).repeat_space_max :=
  (C31_present_windows_strict IR_PROTOCOL_SAMSUNG (by decide)).1.2.2.1 (Or.inr (Or.inl rfl))

/-- No tick value lies strictly inside both the start-space and the repeat-space
window of a decoder configuration. -/
theorem IR_decoder_config_windows_disjoint (protocol t : Nat) :
    ¬ (((IR_decoder_config protocol).start_space_min < t ∧
        t < (IR_decoder_config protocol).start_space_max) ∧
       ((IR_decoder_config protocol).repeat_space_min < t ∧
        t < (IR_decoder_config protocol).repeat_space_max)) := by
  unfold IR_decoder_config
  split_ifs <;>
    simp only [IR_get_nec_config, IR_get_rc5_config, IR_get_sony_config, IR_get_rc6_config,
      IR_get_samsung_config, IR_get_lg_config, IR_get_panasonic_config, IR_get_jvc_config,
      IR_get_denon_config] <;> omega

/-- C32: for the decoder configuration of every protocol no tick value passes
both the start-space and the repeat-space test, and for a decoder in state
INIT on a non-LOW edge `IR_decoder_process` gives the same result as the chain
with the two tests in the other order. -/
theorem C32_space_windows_disjoint (protocol : Nat) (t pin_value : Nat)
    (decoder : IR_Decoder_t)
    (hcfg : decoder.protocol_config = IR_decoder_config protocol)
    (hs : decoder.state = IR_STATE_INIT) (hhal : decoder.hal.timer_get_count = true)
    (hpin : pin_value ≠ IR_LOW) :
    ¬ ((decoder.protocol_config.start_space_min < t ∧
        t < decoder.protocol_config.start_space_max) ∧
       (decoder.protocol_config.repeat_space_min < t ∧
        t < decoder.protocol_config.repeat_space_max)) ∧
    IR_decoder_process decoder t pin_value =
      (if decoder.protocol_config.repeat_space_min < t ∧
          t < decoder.protocol_config.repeat_space_max then
        { decoder with event := IR_EVENT_FINISH }
       else if decoder.protocol_config.start_space_min < t ∧
          t < decoder.protocol_config.start_space_max then
        { decoder with state := IR_STATE_PROCESS, event := IR_EVENT_INIT }
       else { decoder with state := IR_STATE_FINISH }) := by
  have hd := IR_decoder_config_windows_disjoint protocol t
  rw [← hcfg] at hd
  refine ⟨hd, ?_⟩
  unfold IR_decoder_process
  simp only [hs, hhal, if_true, gt_iff_lt, if_neg hpin]
  by_cases h1 : decoder.protocol_config.start_space_min < t ∧
      t < decoder.protocol_config.start_space_max
  · have h2 : ¬ (decoder.protocol_config.repeat_space_min < t ∧
        t < decoder.protocol_config.repeat_space_max) := fun h => hd ⟨h1, h⟩
    rw [if_pos h1, if_neg h2, if_pos h1]
  · rw [if_neg h1]
    split_ifs <;> rfl

/-- An NEC decoder in INIT sees a 170-tick space as a repeat space. -/
theorem C32_space_windows_disjoint_witness :
    IR_decoder_process sample_decoder_in_init 170 IR_HIGH =
      { sample_decoder_in_init with event := IR_EVENT_FINISH } :=
  (C32_space_windows_disjoint IR_PROTOCOL_NEC 170 IR_HIGH sample_decoder_in_init
    rfl rfl rfl (by decide)).2.trans (by decide)

/-- C33: `IR_transmitter_stop` issues the single HAL call `carrier_off`, sets
`is_transmitting` to 0 and `state` to IDLE, and leaves `protocol_type`,
`protocol_config`, `data_to_send`, `current_bit` and `repeat_counter` as they
were. -/
theorem C33_stop (transmitter : IR_Transmitter_t) :
    (IR_transmitter_stop transmitter).2 = [carrier_off] ∧
    (IR_transmitter_stop transmitter).1.is_transmitting = 0 ∧
    (IR_transmitter_stop transmitter).1.state = IR_TX_STATE_IDLE ∧
    (IR_transmitter_stop transmitter).1.protocol_type = transmitter.protocol_type ∧
    (IR_transmitter_stop transmitter).1.protocol_config = transmitter.protocol_config ∧
    (IR_transmitter_stop transmitter).1.data_to_send = transmitter.data_to_send ∧
    (IR_transmitter_stop transmitter).1.current_bit = transmitter.current_bit ∧
    (IR_transmitter_stop transmitter).1.repeat_counter = transmitter.repeat_counter :=
  ⟨rfl, rfl, rfl, rfl, rfl, rfl, rfl, rfl⟩

/-! ## The receive sub-machine stays at its initial event -/

/-- Every API call keeps the invariant `IR_decoder_never_decodes`. -/
theorem IR_decoder_apply_never_decodes (d : IR_Decoder_t) (c : IR_Decoder_Call)
    (h : IR_decoder_never_decodes d) : IR_decoder_never_decodes (IR_decoder_apply d c) := by
  cases c with
  | process count pin_value => exact IR_decoder_process_never_decodes d count pin_value h
  | timeout_handler count =>
    obtain ⟨hv, hb, hd, he⟩ := h
    simp only [IR_decoder_apply, IR_decoder_timeout_handler, IR_decoder_never_decodes]
    rcases he with he | ⟨he, hne⟩ <;> split_ifs <;> simp_all
  | reset =>
    obtain ⟨hv, hb, hd, he⟩ := h
    simp [IR_decoder_apply, IR_decoder_reset, IR_decoder_never_decodes]
  | get_data data =>
    simp only [IR_decoder_apply, IR_decoder_get_data_invalid d data h.1]
    exact h

/-- Every sequence of API calls keeps the invariant `IR_decoder_never_decodes`. -/
theorem IR_decoder_run_calls_never_decodes (calls : List IR_Decoder_Call) :
    ∀ d : IR_Decoder_t, IR_decoder_never_decodes d →
      IR_decoder_never_decodes (IR_decoder_run_calls d calls) := by
  induction calls with
  | nil => intro d h; exact h
  | cons c cs ih =>
    intro d h
    exact ih _ (IR_decoder_apply_never_decodes d c h)

/-- From a decoder satisfying the invariant every `IR_decoder_get_data` call of
a run returns `IR_ERROR` and leaves the caller's buffer as it was. -/
theorem IR_decoder_trace_never_decodes (calls : List IR_Decoder_Call) :
    ∀ d : IR_Decoder_t, IR_decoder_never_decodes d →
      ∀ entry ∈ IR_decoder_trace d calls,
        entry.2.1.valid = 0 ∧
        ∀ r, entry.2.2 = some r → r.1 = IR_ERROR := by
  induction calls with
  | nil => intro d _ entry he; simp [IR_decoder_trace] at he
  | cons c cs ih =>
    intro d h entry he
    have h' := IR_decoder_apply_never_decodes d c h
    simp only [IR_decoder_trace, List.mem_cons] at he
    rcases he with he | he
    · subst he
      refine ⟨h'.1, ?_⟩
      intro r hr
      cases c with
      | get_data data =>
        simp only [IR_decoder_returned, IR_decoder_get_data_invalid d data h.1,
          Option.some.injEq] at hr
        rw [← hr]
      | process count pin_value => simp [IR_decoder_returned] at hr
      | timeout_handler count => simp [IR_decoder_returned] at hr
      | reset => simp [IR_decoder_returned] at hr
    · exact ih _ h' entry he

/-- C34: after `IR_decoder_init` for any protocol and any sequence of
`IR_decoder_process`, `IR_decoder_timeout_handler`, `IR_decoder_reset` and
`IR_decoder_get_data` calls, a decoder in outer state PROCESS has its
sub-machine at `IR_EVENT_INIT`, where `IR_process_protocol_data` returns
IR_SUCCESS and changes nothing; `bit_index` and `data_buffer` are 0,
`decoded_data.valid` is 0, and `IR_decoder_get_data` returns IR_ERROR, now and
at every call made on the way. -/
theorem C34_sub_machine_never_leaves_init (protocol : Nat) (hal : IR_HAL_t)
    (calls : List IR_Decoder_Call) (data : IR_Data_t) (counter value : Nat) :
    ((IR_decoder_run_calls (IR_decoder_init protocol hal) calls).state = IR_STATE_PROCESS →
      (IR_decoder_run_calls (IR_decoder_init protocol hal) calls).event = IR_EVENT_INIT ∧
      IR_process_protocol_data (IR_decoder_run_calls (IR_decoder_init protocol hal) calls)
          counter value =
        (IR_SUCCESS, IR_decoder_run_calls (IR_decoder_init protocol hal) calls)) ∧
    (IR_decoder_run_calls (IR_decoder_init protocol hal) calls).bit_index = 0 ∧
    (IR_decoder_run_calls (IR_decoder_init protocol hal) calls).data_buffer = 0 ∧
    (IR_decoder_run_calls (IR_decoder_init protocol hal) calls).decoded_data.valid = 0 ∧
    (IR_decoder_get_data (IR_decoder_run_calls (IR_decoder_init protocol hal) calls) data).1
      = IR_ERROR ∧
    (∀ entry ∈ IR_decoder_trace (IR_decoder_init protocol hal) calls,
      entry.2.1.valid = 0 ∧ ∀ r, entry.2.2 = some r → r.1 = IR_ERROR) := by
  have h := IR_decoder_run_calls_never_decodes calls _
    (IR_decoder_init_never_decodes protocol hal)
  obtain ⟨hv, hb, hd, he⟩ := h
  refine ⟨?_, hb, hd, hv, ?_, ?_⟩
  · intro hs
    have hev : (IR_decoder_run_calls (IR_decoder_init protocol hal) calls).event
        = IR_EVENT_INIT := by
      rcases he with he | ⟨_, hne⟩
      · exact he
      · exact absurd hs hne
    refine ⟨hev, ?_⟩
    rw [IR_process_protocol_data_init _ counter value hev]
    generalize IR_decoder_run_calls (IR_decoder_init protocol hal) calls = d at hb hd
    obtain ⟨st, ev, bi, db, tc, pt, hl, dd, pc⟩ := d
    simp only at hb hd
    subst hb hd
    rfl
  · rw [IR_decoder_get_data_invalid _ data hv]
  · exact IR_decoder_trace_never_decodes calls _ (IR_decoder_init_never_decodes protocol hal)

/-- An NEC decoder after a leader burst, a leader space and two more edges is
still at `IR_EVENT_INIT`. -/
theorem C34_sub_machine_never_leaves_init_witness :
    (IR_decoder_run_calls (IR_decoder_init IR_PROTOCOL_NEC sample_hal)
      [IR_Decoder_Call.process 0 IR_HIGH, IR_Decoder_Call.process 700 IR_LOW,
       IR_Decoder_Call.process 345 IR_HIGH, IR_Decoder_Call.process 20 IR_LOW,
       IR_Decoder_Call.process 20 IR_HIGH]).event = IR_EVENT_INIT :=
  ((C34_sub_machine_never_leaves_init IR_PROTOCOL_NEC sample_hal
      [IR_Decoder_Call.process 0 IR_HIGH, IR_Decoder_Call.process 700 IR_LOW,
       IR_Decoder_Call.process 345 IR_HIGH, IR_Decoder_Call.process 20 IR_LOW,
       IR_Decoder_Call.process 20 IR_HIGH] sample_frame 0 0).1 (by decide)).1

/-! ## Encoded words against the transmit bit counts and the fixed patterns -/

/-- A shift taken at `uint32_t` stays below 2^32. -/
theorem shl32_lt (x k : Nat) : shl32 x k < 2 ^ 32 := by
  unfold shl32 u32
  exact Nat.mod_lt _ (by decide)

/-- For the eight protocols other than RC6, every word the encoder produces
for address and command in the protocol's field range is below
2 ^ `bit_count` of the transmit configuration. -/
theorem IR_encode_data_below_bit_count (a c : Nat) :
    (a < 256 → c < 256 →
      IR_encode_nec_data a c < 2 ^ (IR_transmitter_config IR_PROTOCOL_NEC).bit_count) ∧
    (a < 32 → c < 64 →
      IR_encode_rc5_data a c < 2 ^ (IR_transmitter_config IR_PROTOCOL_RC5).bit_count) ∧
    (a < 32 → c < 128 →
      IR_encode_sony_data a c < 2 ^ (IR_transmitter_config IR_PROTOCOL_SONY).bit_count) ∧
    (a < 256 → c < 256 →
      IR_encode_samsung_data a c < 2 ^ (IR_transmitter_config IR_PROTOCOL_SAMSUNG).bit_count) ∧
    (a < 256 → c < 256 →
      IR_encode_lg_data a c < 2 ^ (IR_transmitter_config IR_PROTOCOL_LG).bit_count) ∧
    (a < 256 → c < 256 →
      IR_encode_panasonic_data a c
        < 2 ^ (IR_transmitter_config IR_PROTOCOL_PANASONIC).bit_count) ∧
    (a < 256 → c < 256 →
      IR_encode_jvc_data a c < 2 ^ (IR_transmitter_config IR_PROTOCOL_JVC).bit_count) ∧
    (a < 32 → c < 256 →
      IR_encode_denon_data a c < 2 ^ (IR_transmitter_config IR_PROTOCOL_DENON).bit_count) := by
  refine ⟨?_, ?_, ?_, ?_, ?_, ?_, ?_, ?_⟩
  · intro ha hc
    show IR_encode_nec_data a c < 2 ^ 32
    unfold IR_encode_nec_data
    exact Nat.or_lt_two_pow (Nat.or_lt_two_pow (Nat.or_lt_two_pow (by omega) (shl32_lt _ _))
      (shl32_lt _ _)) (shl32_lt _ _)
  · intro ha hc
    show IR_encode_rc5_data a c < 2 ^ 14
    unfold IR_encode_rc5_data
    rw [shl32_eq a 6 (by omega)]
    exact Nat.or_lt_two_pow (Nat.or_lt_two_pow (by omega) (by omega)) (by decide)
  · intro ha hc
    show IR_encode_sony_data a c < 2 ^ 12
    unfold IR_encode_sony_data
    rw [shl32_eq a 7 (by omega)]
    exact Nat.or_lt_two_pow (by omega) (by omega)
  · intro ha hc
    show IR_encode_samsung_data a c < 2 ^ 32
    unfold IR_encode_samsung_data
    exact Nat.or_lt_two_pow (Nat.or_lt_two_pow (Nat.or_lt_two_pow (by omega) (shl32_lt _ _))
      (shl32_lt _ _)) (shl32_lt _ _)
  · intro ha hc
    show IR_encode_lg_data a c < 2 ^ 28
    rw [(IR_encode_lg_data_eq a c ha hc).1]
    simp only [Nat.reducePow]
    omega
  · intro ha hc
    show IR_encode_panasonic_data a c < 2 ^ 48
    have h : IR_encode_panasonic_data a c < 2 ^ 32 := by
      unfold IR_encode_panasonic_data
      exact Nat.or_lt_two_pow (Nat.or_lt_two_pow (by decide) (shl32_lt _ _)) (shl32_lt _ _)
    exact Nat.lt_trans h (by decide)
  · intro ha hc
    show IR_encode_jvc_data a c < 2 ^ 16
    unfold IR_encode_jvc_data
    rw [shl32_eq c 8 (by omega)]
    exact Nat.or_lt_two_pow (by omega) (by omega)
  · intro ha hc
    show IR_encode_denon_data a c < 2 ^ 15
    unfold IR_encode_denon_data
    rw [shl32_eq c 5 (by omega)]
    exact Nat.or_lt_two_pow (by omega) (by omega)

/-- C35 fails for RC6: the word for address 0, command 0 is 0x100000, whose set
bit 20 is not below the `bit_count` 16 of the RC6 transmit configuration, so
`IR_transmitter_send` issues the same HAL calls as for the raw word 0 and the
marker bit is not sent; the RC6 receive configuration has `bit_count` 21. -/
theorem C35_rc6_marker_not_sent :
    IR_encode_rc6_data 0x00 0x00 = 0x100000 ∧
    (IR_encode_rc6_data 0x00 0x00).testBit 20 = true ∧
    (IR_transmitter_init sample_transmitter IR_PROTOCOL_RC6).protocol_config.bit_count = 16 ∧
    ¬ (IR_encode_rc6_data 0x00 0x00
        < 2 ^ (IR_transmitter_init sample_transmitter IR_PROTOCOL_RC6).protocol_config.bit_count) ∧
    (IR_transmitter_send (IR_transmitter_init sample_transmitter IR_PROTOCOL_RC6) 0x00 0x00).2.2
      = (IR_transmitter_send_raw
          (IR_transmitter_init sample_transmitter IR_PROTOCOL_RC6) 0x000000).2.2 ∧
    (IR_decoder_config IR_PROTOCOL_RC6).bit_count = 21 := by
  decide

/-- C36 fails for Panasonic: the pattern 0x40040100 alone reads back as address
0x01 and command 0x04, so address 0, command 0 is decoded as (1, 4); the RC5
and RC6 patterns read back as (0, 0). -/
theorem C36_panasonic_pattern_overlaps_fields :
    IR_decode_panasonic_data 0x40040100 = (0x01, 0x04) ∧
    IR_decode_panasonic_data (IR_encode_panasonic_data 0x00 0x00) = (0x01, 0x04) ∧
    IR_decode_rc5_data 0x3000 = (0x00, 0x00) ∧
    IR_decode_rc6_data 0x100000 = (0x00, 0x00) := by
  decide

/-! ## Carrier discipline of the transmitter -/

/-- Reading a concatenation: read the first part, then the second from where
the first ended. -/
theorem IR_TX_carrier_scan_append (l1 l2 : List IR_TX_HAL_Call) :
    ∀ p q : IR_TX_Carrier, IR_TX_carrier_scan p l1 = some q →
      IR_TX_carrier_scan p (l1 ++ l2) = IR_TX_carrier_scan q l2 := by
  induction l1 with
  | nil =>
    intro p q h
    simp only [IR_TX_carrier_scan, Option.some.injEq] at h
    subst h
    rfl
  | cons call calls ih =>
    intro p q h
    simp only [IR_TX_carrier_scan, List.cons_append] at h ⊢
    cases hs : IR_TX_carrier_step p call with
    | none => rw [hs] at h; simp at h
    | some r =>
      rw [hs] at h
      simp only at h ⊢
      exact ih r q h

/-- The data-bit loop starts and ends with the carrier off. -/
theorem IR_transmit_frame_bits_carrier (config : IR_TX_Protocol_Config_t) (w : Nat) (n : Nat) :
    ∀ i : Nat, IR_TX_carrier_scan IR_TX_Carrier.off (IR_transmit_frame_bits config w n i)
      = some IR_TX_Carrier.off := by
  induction n with
  | zero => intro i; rfl
  | succ n ih =>
    intro i
    simp only [IR_transmit_frame_bits]
    split_ifs <;> simp [IR_TX_carrier_scan, IR_TX_carrier_step, ih (i + 1)]

/-- The call sequence of `IR_transmit_frame` starts with `carrier_on` and is
read from carrier off to carrier off. -/
theorem IR_transmit_frame_carrier (t : IR_Transmitter_t) :
    IR_TX_carrier_scan IR_TX_Carrier.off (IR_transmit_frame t).2 = some IR_TX_Carrier.off ∧
    (IR_transmit_frame t).2.head? = some carrier_on := by
  refine ⟨?_, rfl⟩
  simp only [IR_transmit_frame, List.append_assoc]
  rw [IR_TX_carrier_scan_append _ _ IR_TX_Carrier.off IR_TX_Carrier.off (by rfl),
    IR_TX_carrier_scan_append _ _ IR_TX_Carrier.off IR_TX_Carrier.off
      (IR_transmit_frame_bits_carrier _ _ _ 0)]
  split_ifs <;> rfl

/-- C37: read from a carrier that is off, the HAL calls of every
`IR_transmitter_send_raw` and every `IR_transmitter_send_repeat` are accepted
by the automaton that admits `carrier_on` only when the carrier is off, one
`delay_us` after it, and `carrier_off` only after that delay, and they leave
the carrier off; a send on an idle transmitter starts with `carrier_on`, and a
successful repeat starts with `carrier_on` and ends with `carrier_off`. -/
theorem C37_carrier_alternates (transmitter : IR_Transmitter_t) (raw_data : Nat) :
    IR_TX_carrier_scan IR_TX_Carrier.off (IR_transmitter_send_raw transmitter raw_data).2.2
      = some IR_TX_Carrier.off ∧
    IR_TX_carrier_scan IR_TX_Carrier.off (IR_transmitter_send_repeat transmitter).2.2
      = some IR_TX_Carrier.off ∧
    (transmitter.is_transmitting = 0 →
      (IR_transmitter_send_raw transmitter raw_data).2.2.head? = some carrier_on ∧
      (IR_transmitter_send_raw transmitter raw_data).2.2 ≠ []) ∧
    ((IR_transmitter_send_repeat transmitter).1 = IR_SUCCESS →
      (IR_transmitter_send_repeat transmitter).2.2.head? = some carrier_on ∧
      (IR_transmitter_send_repeat transmitter).2.2.getLast? = some carrier_off) := by
  refine ⟨?_, ?_, ?_, ?_⟩
  · unfold IR_transmitter_send_raw
    split_ifs
    · rfl
    · exact (IR_transmit_frame_carrier _).1
  · by_cases h1 : transmitter.is_transmitting = 0 <;>
      by_cases h2 : transmitter.protocol_config.repeat_space_us = 0 <;>
      simp [IR_transmitter_send_repeat, h1, h2, IR_TX_carrier_scan, IR_TX_carrier_step]
  · intro hidle
    unfold IR_transmitter_send_raw
    simp only [hidle, ne_eq, not_true_eq_false, if_false]
    refine ⟨(IR_transmit_frame_carrier _).2, ?_⟩
    simp [IR_transmit_frame]
  · by_cases h1 : transmitter.is_transmitting = 0 <;>
      by_cases h2 : transmitter.protocol_config.repeat_space_us = 0 <;>
      simp [IR_transmitter_send_repeat, h1, h2, IR_ERROR, IR_SUCCESS]

/-- On the sample transmitter, sending the word 2 starts with `carrier_on` and
leaves the carrier off. -/
theorem C37_carrier_alternates_witness :
    (IR_transmitter_send_raw sample_transmitter 0x2).2.2.head? = some carrier_on ∧
    IR_TX_carrier_scan IR_TX_Carrier.off (IR_transmitter_send_raw sample_transmitter 0x2).2.2
      = some IR_TX_Carrier.off :=
  ⟨((C37_carrier_alternates sample_transmitter 0x2).2.2.1 (by decide)).1,
   (C37_carrier_alternates sample_transmitter 0x2).1⟩

/-! ## Duration of an NEC frame -/

/-- The delays of a concatenation add up. -/
theorem IR_TX_delay_total_append (l1 l2 : List IR_TX_HAL_Call) :
    IR_TX_delay_total (l1 ++ l2) = IR_TX_delay_total l1 + IR_TX_delay_total l2 := by
  induction l1 with
  | nil => simp [IR_TX_delay_total]
  | cons call calls ih =>
    cases call <;> simp only [List.cons_append, IR_TX_delay_total, ih] <;>
      (try simp only [List.append_eq]) <;> (try rw [ih]) <;> (try omega)

/-- The delays of the data-bit loop: every bit costs the burst and the
zero-space, and every 1 bit the difference to the one-space on top. -/
theorem IR_transmit_frame_bits_delay (config : IR_TX_Protocol_Config_t) (w : Nat)
    (h01 : config.bit_0_space_us ≤ config.bit_1_space_us) (n : Nat) :
    ∀ i : Nat, IR_TX_delay_total (IR_transmit_frame_bits config w n i) =
      n * (config.bit_burst_us + config.bit_0_space_us) +
      IR_count_one_bits w n i * (config.bit_1_space_us - config.bit_0_space_us) := by
  induction n with
  | zero => intro i; simp [IR_transmit_frame_bits, IR_count_one_bits, IR_TX_delay_total]
  | succ n ih =>
    intro i
    simp only [IR_transmit_frame_bits, IR_count_one_bits]
    rw [IR_TX_delay_total_append, ih (i + 1)]
    split_ifs <;> simp only [IR_TX_delay_total, Nat.add_mul, Nat.one_mul, Nat.zero_mul] <;> omega

/-- Counting over `m + n` bits is counting over the first `m` and the next `n`. -/
theorem IR_count_one_bits_add (w : Nat) (m n : Nat) :
    ∀ i : Nat, IR_count_one_bits w (m + n) i =
      IR_count_one_bits w m i + IR_count_one_bits w n (i + m) := by
  induction m with
  | zero => intro i; simp [IR_count_one_bits]
  | succ m ih =>
    intro i
    rw [show m + 1 + n = (m + n) + 1 by omega]
    simp only [IR_count_one_bits, ih (i + 1)]
    rw [show i + 1 + m = i + (m + 1) by omega]
    omega

/-- Counting from bit `k + i` of `w` is counting from bit `i` of `w >> k`. -/
theorem IR_count_one_bits_shift (w : Nat) (k : Nat) (n : Nat) :
    ∀ i : Nat, IR_count_one_bits w n (k + i) = IR_count_one_bits (w >>> k) n i := by
  induction n with
  | zero => intro i; rfl
  | succ n ih =>
    intro i
    simp only [IR_count_one_bits]
    rw [show k + i + 1 = k + (i + 1) by omega, ih (i + 1), Nat.shiftRight_add]

/-- Bits below `N` are not changed by reduction modulo `2 ^ N`. -/
theorem bit_of_mod_two_pow (w N j : Nat) (hj : j < N) :
    ((w % 2 ^ N) >>> j) &&& 1 = (w >>> j) &&& 1 := by
  have h : (w % 2 ^ N).testBit j = w.testBit j := by
    simp [Nat.testBit_mod_two_pow, hj]
  rw [Nat.testBit_to_div_mod, Nat.testBit_to_div_mod] at h
  simp only [Nat.and_one_is_mod, Nat.shiftRight_eq_div_pow]
  have h' : (w % 2 ^ N / 2 ^ j % 2 = 1) ↔ (w / 2 ^ j % 2 = 1) := by
    simpa using h
  omega

/-- Counting below bit `N` is not changed by reduction modulo `2 ^ N`. -/
theorem IR_count_one_bits_mod (w N : Nat) (n : Nat) :
    ∀ i : Nat, i + n ≤ N → IR_count_one_bits (w % 2 ^ N) n i = IR_count_one_bits w n i := by
  induction n with
  | zero => intro i _; rfl
  | succ n ih =>
    intro i hi
    simp only [IR_count_one_bits]
    rw [bit_of_mod_two_pow w N i (by omega), ih (i + 1) (by omega)]

/-- A byte followed by its 8-bit complement has eight 1 bits. -/
theorem IR_count_one_bits_byte_and_complement (b : Nat) (hb : b < 256) :
    IR_count_one_bits (b + (255 - b) * 256) 16 0 = 8 := by
  have key : ∀ x < 256, IR_count_one_bits (x + (255 - x) * 256) 16 0 = 8 := by decide!
  exact key b hb

/-- The check `IR_validate_protocol_data` makes for NEC, on the bytes of the word. -/
theorem IR_validate_nec_iff (raw : Nat) :
    IR_validate_protocol_data IR_PROTOCOL_NEC raw ≠ 0 ↔
      ((raw / 2 ^ 8) % 256 = 255 - raw % 256 ∧
       (raw / 2 ^ 24) % 256 = 255 - (raw / 2 ^ 16) % 256) := by
  have h1 := not32_and_ff ((raw >>> 8) &&& 0xFF) (by rw [and_ff]; omega)
  have h2 := not32_and_ff ((raw >>> 24) &&& 0xFF) (by rw [and_ff]; omega)
  simp only [and_ff, Nat.shiftRight_eq_div_pow] at h1 h2
  simp only [IR_validate_protocol_data, if_true, and_ff, Nat.shiftRight_eq_div_pow, h1, h2]
  split <;> simp <;> omega

/-- A 32-bit word accepted for NEC has exactly 16 bits that are 1. -/
theorem IR_count_one_bits_valid_nec (w : Nat) (hw : w < 2 ^ 32)
    (hv : IR_validate_protocol_data IR_PROTOCOL_NEC w ≠ 0) :
    IR_count_one_bits w 32 0 = 16 := by
  obtain ⟨v1, v2⟩ := (IR_validate_nec_iff w).mp hv
  simp only [Nat.reducePow] at v1 v2 hw
  have hlo : w % 2 ^ 16 = w % 256 + (255 - w % 256) * 256 := by
    simp only [Nat.reducePow]; omega
  have hhi : w >>> 16 = (w / 65536) % 256 + (255 - (w / 65536) % 256) * 256 := by
    rw [Nat.shiftRight_eq_div_pow]; simp only [Nat.reducePow]; omega
  have e1 : IR_count_one_bits w 16 0 = 8 := by
    rw [← IR_count_one_bits_mod w 16 16 0 (by omega), hlo]
    exact IR_count_one_bits_byte_and_complement _ (Nat.mod_lt _ (by decide))
  have e2 : IR_count_one_bits w 16 (0 + 16) = 8 := by
    rw [show (0 : Nat) + 16 = 16 + 0 by rfl, IR_count_one_bits_shift w 16 16 0, hhi]
    exact IR_count_one_bits_byte_and_complement _ (Nat.mod_lt _ (by decide))
  rw [show (32 : Nat) = 16 + 16 by rfl, IR_count_one_bits_add w 16 16 0, e1, e2]

/-- C38: for every 32-bit word that `IR_validate_protocol_data` accepts for NEC,
the delays `IR_transmitter_send_raw` issues on a transmitter initialised for
NEC add up to 68030 microseconds, which is
9000 + 4500 + 32*562 + 16*1687 + 16*562 + 562, and exactly 16 of the 32 bits
of the word are 1. -/
theorem C38_nec_frame_duration (t0 : IR_Transmitter_t) (w : Nat) (hw : w < 2 ^ 32)
    (hv : IR_validate_protocol_data IR_PROTOCOL_NEC w ≠ 0) :
    IR_TX_delay_total (IR_transmitter_send_raw (IR_transmitter_init t0 IR_PROTOCOL_NEC) w).2.2
      = 68030 ∧
    68030 = 9000 + 4500 + 32 * 562 + 16 * 1687 + 16 * 562 + 562 ∧
    IR_count_one_bits w 32 0 = 16 := by
  have hc := IR_count_one_bits_valid_nec w hw hv
  refine ⟨?_, by decide, hc⟩
  have hcfg : (IR_transmitter_init t0 IR_PROTOCOL_NEC).protocol_config = IR_get_nec_tx_config :=
    rfl
  have hidle : (IR_transmitter_init t0 IR_PROTOCOL_NEC).is_transmitting = 0 := rfl
  unfold IR_transmitter_send_raw
  simp only [hidle, ne_eq, not_true_eq_false, if_false, IR_transmit_frame, hcfg]
  rw [IR_TX_delay_total_append, IR_TX_delay_total_append,
    IR_transmit_frame_bits_delay IR_get_nec_tx_config w (by decide) _ 0,
    show IR_get_nec_tx_config.bit_count = 32 from rfl, hc]
  decide

/-- The word 0xFF00FE01 (address 0x01, command 0x00) takes 68030 microseconds. -/
theorem C38_nec_frame_duration_witness :
    IR_TX_delay_total
      (IR_transmitter_send_raw (IR_transmitter_init sample_transmitter IR_PROTOCOL_NEC)
        0xFF00FE01).2.2 = 68030 :=
  (C38_nec_frame_duration sample_transmitter 0xFF00FE01 (by decide) (by decide)).1

/-! ## The generic decoder against the legacy NEC decoder -/

/-- `IR_decoder_process` keeps the configuration and the HAL pointers. -/
theorem IR_decoder_process_keeps_config (d : IR_Decoder_t) (t pin : Nat) :
    (IR_decoder_process d t pin).protocol_config = d.protocol_config ∧
    (IR_decoder_process d t pin).hal = d.hal := by
  unfold IR_decoder_process IR_process_protocol_data
  simp only []
  cases d.state <;> cases d.event <;> simp only [] <;> (try split_ifs) <;> simp

/-- One edge keeps the generic decoder, configured for NEC and reading the
ticks through its HAL, and the legacy decoder in step. -/
theorem IR_decoder_process_matches_IR_process (d : IR_Decoder_t) (g : IR_NEC_Globals)
    (t pin : Nat) (hs : IR_decoder_snapshot d = IR_NEC_snapshot g)
    (hc : d.protocol_config = IR_get_nec_config) (hh : d.hal.timer_get_count = true) :
    IR_decoder_snapshot (IR_decoder_process d t pin) =
      IR_NEC_snapshot (IR_process { g with IR_Counter := t } pin) := by
  obtain ⟨state, event, bi, db, tc, pt, hal, dd, cfg⟩ := d
  obtain ⟨tmo, ctr, raw, st, pe, idx, dat⟩ := g
  simp only [IR_decoder_snapshot, IR_NEC_snapshot, Prod.mk.injEq] at hs
  obtain ⟨rfl, rfl, rfl, rfl, rfl⟩ := hs
  simp only at hc hh
  subst hc
  cases state <;> cases event <;>
    simp [IR_decoder_process, IR_process, IR_process_protocol_data, IR_NEC_process, hh,
      IR_decoder_snapshot, IR_NEC_snapshot, IR_Event_value, IR_get_nec_config,
      isNEC_START_BURST, isNEC_START_SPACE, isNEC_REPEAT_SPACE, IR_NEC_START_BURST_MIN,
      IR_NEC_START_BURST_MAX, IR_NEC_START_SPACE_MIN, IR_NEC_START_SPACE_MAX,
      IR_NEC_REPEAT_SPACE_MIN, IR_NEC_REPEAT_SPACE_MAX, IR_NEC_BIT_NUM_MAX, IR_NEC_TIMEOUT,
      IR_PROTO_EVENT_INIT, IR_PROTO_EVENT_DATA, IR_PROTO_EVENT_FINISH, IR_PROTO_EVENT_HOOK,
      IR_HIGH, IR_LOW, HIGH, LOW, IR_SUCCESS, IR_ERROR] <;>
    (try split_ifs) <;> (first | rfl | simp_all [IR_Event_value] | simp)

/-- From states in step, the generic decoder configured for NEC and the legacy
decoder give the same snapshots on every sequence of edges. -/
theorem IR_decoder_run_matches_IR_NEC_run (edges : List (Nat × Nat)) :
    ∀ (d : IR_Decoder_t) (g : IR_NEC_Globals),
      IR_decoder_snapshot d = IR_NEC_snapshot g →
      d.protocol_config = IR_get_nec_config → d.hal.timer_get_count = true →
      IR_decoder_run_snapshots d edges = IR_NEC_run_snapshots g edges := by
  induction edges with
  | nil => intro d g _ _ _; rfl
  | cons e es ih =>
    intro d g hs hc hh
    have hstep := IR_decoder_process_matches_IR_process d g e.1 e.2 hs hc hh
    have hk := IR_decoder_process_keeps_config d e.1 e.2
    simp only [IR_decoder_run_snapshots, IR_NEC_run_snapshots, hstep]
    rw [ih _ _ hstep (by rw [hk.1, hc]) (by rw [hk.2, hh])]

/-- C39: a decoder initialised for NEC whose HAL supplies the tick count and the
legacy decoder of `ir_nec.c` start with the same outer state, sub-machine
state, bit index, accumulator and timeout countdown, and on every sequence of
edges `IR_decoder_process` and `IR_process`, given the same ticks, show the
same five values after each edge; one edge keeps any two states in step. -/
theorem C39_generic_refines_legacy (hal : IR_HAL_t) (edges : List (Nat × Nat))
    (hh : hal.timer_get_count = true) :
    IR_decoder_snapshot (IR_decoder_init IR_PROTOCOL_NEC hal) = IR_NEC_snapshot IR_NEC_initial ∧
    IR_decoder_run_snapshots (IR_decoder_init IR_PROTOCOL_NEC hal) edges =
      IR_NEC_run_snapshots IR_NEC_initial edges ∧
    (∀ (d : IR_Decoder_t) (g : IR_NEC_Globals) (t pin : Nat),
      IR_decoder_snapshot d = IR_NEC_snapshot g →
      d.protocol_config = IR_get_nec_config → d.hal.timer_get_count = true →
      IR_decoder_snapshot (IR_decoder_process d t pin) =
        IR_NEC_snapshot (IR_process { g with IR_Counter := t } pin)) :=
  ⟨rfl, IR_decoder_run_matches_IR_NEC_run edges _ _ rfl rfl hh,
   fun d g t pin hs hc hh2 => IR_decoder_process_matches_IR_process d g t pin hs hc hh2⟩

/-- Leader burst, leader space and four more edges: both decoders show the same
snapshots. -/
theorem C39_generic_refines_legacy_witness :
    IR_decoder_run_snapshots (IR_decoder_init IR_PROTOCOL_NEC sample_hal)
        [(0, 1), (700, 0), (340, 1), (45, 0), (45, 1), (45, 0), (120, 1)] =
      IR_NEC_run_snapshots IR_NEC_initial
        [(0, 1), (700, 0), (340, 1), (45, 0), (45, 1), (45, 0), (120, 1)] :=
  (C39_generic_refines_legacy sample_hal
    [(0, 1), (700, 0), (340, 1), (45, 0), (45, 1), (45, 0), (120, 1)] (by decide)).2.1

end IR
